import Mathlib

/-!
zstdBmpCompressor: the `ImageCompressor` facade.

A shallow embedding of `src/zstdBmpCompressor.{h,cpp}` and of the worker of
`src/demo/compressworker.cpp`.

* The compressor object is a record of its data members; every member
  function is a function from the record to the new record and the returned
  value.
* The zstd library is a record `Zstd` of the primitives the code calls.
* Files are reached through a record `FileSystem` of the stream and
  directory operations the code calls, over an abstract world `W`.
* `QImage` and `cv::Mat` values are records of the observations the code
  makes on them.
* A member function that grows a buffer with `std::vector::resize` is
  embedded twice: `loadImage`, `compressInternal`, `decompressFromFile` and
  `decompressInternal` give what the call returns once the `resize` has
  returned, and `loadImageOutcome`, `compressInternalOutcome`,
  `decompressFromFileOutcome` and `decompressInternalOutcome` add the
  exception that the `resize` ends with when the buffer cannot be had (the
  size is the length of a file, the bound the library gives for the data,
  or the content size a frame declares). The loops of `compressFolder` and
  `decompressFolder` run on the second kind.

Sizes are natural numbers (`size_t` is taken to be 64 bits wide, and no
vector or total of file sizes reaches `2 ^ 64`), a `double` ratio is the
exact quotient or one of the two values a division by zero gives, an
allocation other than these `resize` calls succeeds, and paths are in the
generic (POSIX) format.
-/

namespace zstd_compressor

/-- One `unsigned char`. -/
abbrev Byte := Fin 256

/-! ## Types of the header -/

inductive ImageFormat where
  | FORMAT_BMP
  | FORMAT_PNG
  | FORMAT_JPEG
  deriving DecidableEq, Repr

inductive CompressResult where
  | SUCCESS
  | ERROR_EMPTY_DATA
  | ERROR_COMPRESS_FAILED
  | ERROR_DECOMPRESS_FAILED
  deriving DecidableEq, Repr

/-- Value of a `double` obtained from dividing two sizes, rounding left out:
a quotient of two sizes is a rational number when the divisor is not zero,
`+inf` for a positive size over zero and `NaN` for zero over zero. -/
inductive Ratio where
  | finite (q : ℚ)
  | infinite
  | nan
  deriving DecidableEq

/-- The expression `static_cast<double>(c) / o` for two `size_t` values. -/
def divSizes (c o : Nat) : Ratio :=
  if o = 0 then (if c = 0 then Ratio.nan else Ratio.infinite)
  else Ratio.finite ((c : ℚ) / (o : ℚ))

/-- Embeds `struct CompressionResult`, the defaults being those of the member
initialisers. -/
structure CompressionResult where
  original_size : Nat := 0
  compressed_size : Nat := 0
  compression_ratio : Ratio := Ratio.finite 0
  result_code : CompressResult := CompressResult.ERROR_EMPTY_DATA
  error_message : String := ""

/-- Embeds `CompressionResult(CompressResult code, const std::string& msg = "")`. -/
def CompressionResult.ofCode (code : CompressResult) (msg : String := "") :
    CompressionResult :=
  { result_code := code, error_message := msg }

/-- Embeds `bool success() const`. -/
def CompressionResult.success (r : CompressionResult) : Bool :=
  r.result_code = CompressResult.SUCCESS

/-! ## The collaborators -/

/-- What the code observes of a `QImage`: `isNull()` and the bytes
`save(&buffer, format)` writes, `none` when `save` returns false. -/
structure QImage where
  isNull : Bool
  save : String → Option (List Byte)

/-- Embeds `QImage()`. -/
def QImage.null : QImage := { isNull := true, save := fun _ => none }

/-- What the code observes of a `cv::Mat`: `empty()` and the buffer
`cv::imencode(extension, image, buffer)` fills, `none` when it returns
false. -/
structure Mat where
  empty : Bool
  imencode : String → Option (List Byte)

/-- Embeds `cv::Mat()`. -/
def Mat.null : Mat := { empty := true, imencode := fun _ => none }

/-- A `size_t` returned by a zstd primitive: either a code for which
`ZSTD_isError` holds, with the string `ZSTD_getErrorName` gives for it, or a
byte count `r`, with the `r` bytes the primitive wrote at the start of the
destination buffer. -/
inductive ZstdReturn where
  | error (name : String)
  | ok (written : List Byte)

/-- Embeds `ZSTD_CONTENTSIZE_UNKNOWN`, `(0ULL - 1)` in `zstd.h`. -/
def ZSTD_CONTENTSIZE_UNKNOWN : Nat := 2 ^ 64 - 1

/-- Embeds `ZSTD_CONTENTSIZE_ERROR`, `(0ULL - 2)` in `zstd.h`. -/
def ZSTD_CONTENTSIZE_ERROR : Nat := 2 ^ 64 - 2

/-- The zstd primitives the compressor calls.

* `createCCtx`, `createDCtx`: whether `ZSTD_createCCtx()`,
  `ZSTD_createDCtx()` return a context (non-null).
* `compressBound n`: `ZSTD_compressBound(n)`.
* `compress2 level nbWorkers dstCapacity src`: `ZSTD_compress2` on a context
  whose `ZSTD_c_compressionLevel` and `ZSTD_c_nbWorkers` were set to `level`
  and `nbWorkers`.
* `getFrameContentSize src`: `ZSTD_getFrameContentSize`, an
  `unsigned long long`.
* `decompressDCtx dstCapacity src`: `ZSTD_decompressDCtx`. -/
structure Zstd where
  createCCtx : Bool
  createDCtx : Bool
  compressBound : Nat → Nat
  compress2 : Int → Int → Nat → List Byte → ZstdReturn
  getFrameContentSize : List Byte → Nat
  decompressDCtx : Nat → List Byte → ZstdReturn

/-- What the code observes of a `std::ifstream` opened with
`std::ios::binary | std::ios::ate`: `is_open()`, the position `tellg()`
reports (the file size, `-1` on failure) and, for `read(buf, n)` after
`seekg(0)` on a zero-filled `buf` of `n` bytes, the `n` bytes `buf` holds
afterwards and whether the stream is still good, that is whether all `n`
bytes were extracted from the file. -/
structure Ifstream where
  is_open : Bool
  tellg : Int
  read : (n : Nat) → { l : List Byte // l.length = n } × Bool

/-- What the code observes of a `std::filesystem::directory_entry`. -/
structure DirEntry where
  path : String
  is_regular_file : Bool

/-- The file operations the compressor calls, over a world `W`, and the
allocation of a buffer for what a file holds.

* `ifstream w path`: the input stream on `path`.
* `ofstream w path`: `std::ofstream file(path, std::ios::binary)`, the world
  afterwards and `is_open()`.
* `write w path data`: `file.write(data)` on the stream just opened, the
  world afterwards and `file.good()`.
* `QImage_load w path`: the image `QImage::load(path)` leaves in the object.
* `imread w path`: `cv::imread(path)`, `Except.error` when it throws.
* `create_directories w path`: `std::filesystem::create_directories(path)`,
  the world afterwards and the returned flag, `Except.error` with `what()`
  when it throws.
* `path_exists w path`: `std::filesystem::exists(path)`, likewise.
* `directory_iterator w path`: the entries a loop over
  `std::filesystem::directory_iterator(path)` visits, in the order it visits
  them, and `what()` of the exception that ends the loop, if one does.
* `vector_resize w n`: `what()` of the exception that
  `std::vector<unsigned char>::resize(n)` ends with (`std::length_error` for
  an `n` above `max_size()`, `std::bad_alloc` when the memory is not to be
  had), `none` when the vector is resized. -/
structure FileSystem (W : Type) where
  ifstream : W → String → Ifstream
  ofstream : W → String → W × Bool
  write : W → String → List Byte → W × Bool
  QImage_load : W → String → QImage
  imread : W → String → Except String Mat
  create_directories : W → String → W × Except String Bool
  path_exists : W → String → Except String Bool
  directory_iterator : W → String → List DirEntry × Option String
  vector_resize : W → Nat → Option String

/-! ## Paths

`std::filesystem::path` decomposition for the generic (POSIX) format, on the
characters of the path. -/

/-- Embeds `path::filename()`: what follows the last directory separator. -/
def pathFilename (p : List Char) : List Char :=
  (p.reverse.takeWhile (fun c => c != '/')).reverse

/-- Embeds `path::extension()`: empty for the names `.` and `..` and for a name
without a period after its first character, else the part of the name from
its rightmost period on. -/
def pathExtension (p : List Char) : List Char :=
  let name := pathFilename p
  if name = ['.'] ∨ name = ['.', '.'] then []
  else
    match name with
    | [] => []
    | _ :: rest =>
      if rest.contains '.' then '.' :: (rest.reverse.takeWhile (fun c => c != '.')).reverse
      else []

/-- Embeds `path::stem()`: the filename without its extension. -/
def pathStem (p : List Char) : List Char :=
  let name := pathFilename p
  name.take (name.length - (pathExtension p).length)

/-! ## The compressor object -/

/-- Data members of `class ImageCompressor`; `cctx` and `dctx` say whether
the pointers of `ZstdContext` are non-null. -/
structure ImageCompressor where
  m_level : Int
  m_num_threads : Int
  m_format : ImageFormat
  m_originalData : List Byte
  m_compressedData : List Byte
  m_decompressedData : List Byte
  m_qImage : QImage
  m_cvMat : Mat
  cctx : Bool
  dctx : Bool

/-- Outcome of a call of a member function that a `std::exception` can leave:
the compressor and the value returned, or the compressor as the exception
leaves it and `what()`. -/
inductive Outcome (α : Type) where
  | returns (compressor : ImageCompressor) (value : α)
  | throws (compressor : ImageCompressor) (what : String)

/-- The compressor after the call. -/
def Outcome.compressor {α : Type} : Outcome α → ImageCompressor
  | Outcome.returns c _ => c
  | Outcome.throws c _ => c

/-- The value the call returned, `none` when an exception left it. -/
def Outcome.value {α : Type} : Outcome α → Option α
  | Outcome.returns _ v => some v
  | Outcome.throws _ _ => none

/-- The `what()` of the exception that left the call, `none` when it
returned. -/
def Outcome.thrown {α : Type} : Outcome α → Option String
  | Outcome.returns _ _ => none
  | Outcome.throws _ what => some what

/-- Embeds `std::clamp(v, lo, hi)` on `int`. -/
def clamp (v lo hi : Int) : Int :=
  if v < lo then lo else if hi < v then hi else v

namespace ImageCompressor

/-- Embeds `explicit ImageCompressor(int level = 3)`. -/
def ctor (level : Int := 3) : ImageCompressor :=
  { m_level := clamp level 1 22
    m_num_threads := 4
    m_format := ImageFormat.FORMAT_BMP
    m_originalData := []
    m_compressedData := []
    m_decompressedData := []
    m_qImage := QImage.null
    m_cvMat := Mat.null
    cctx := false
    dctx := false }

def setCompressionLevel (s : ImageCompressor) (level : Int) : ImageCompressor :=
  { s with m_level := clamp level 1 22 }

def setImageFormat (s : ImageCompressor) (format : ImageFormat) : ImageCompressor :=
  { s with m_format := format }

def setNumThreads (s : ImageCompressor) (num_threads : Int) : ImageCompressor :=
  { s with m_num_threads := if num_threads > 0 then num_threads else 1 }

def clearResults (s : ImageCompressor) : ImageCompressor :=
  { s with
    m_compressedData := []
    m_decompressedData := []
    m_qImage := QImage.null
    m_cvMat := Mat.null }

/-- Embeds `getContext()`: each missing context is requested from the library. -/
def getContext (z : Zstd) (s : ImageCompressor) : ImageCompressor :=
  { s with
    cctx := if s.cctx then true else z.createCCtx
    dctx := if s.dctx then true else z.createDCtx }

def getCompressedData (s : ImageCompressor) : List Byte := s.m_compressedData

def getDecompressedData (s : ImageCompressor) : List Byte := s.m_decompressedData

/-! ### Loading -/

/-- What `loadImageFile(const std::string&)` returns once
`m_originalData.resize(size)` has returned (`loadImageFileOutcome` is the
function with the exception of that `resize`). On a good read all of the
resized `m_originalData` is overwritten with the file's bytes. The decoders
run inside `try { ... } catch (...) { }`: `m_qImage.load` comes first, so a
throwing `cv::imread` leaves `m_cvMat` as it was. -/
def loadImageFile {W : Type} (fs : FileSystem W) (w : W) (s : ImageCompressor)
    (filename : String) : ImageCompressor × Bool :=
  let file := fs.ifstream w filename
  if !file.is_open then (s, false)
  else
    let size := file.tellg
    if size ≤ 0 then (s, false)
    else
      let (bytes, good) := file.read size.toNat
      if !good then ({ s with m_originalData := [] }, false)
      else
        let s1 := { s with m_originalData := bytes.val, m_qImage := fs.QImage_load w filename }
        match fs.imread w filename with
        | Except.ok m => ({ s1 with m_cvMat := m }, true)
        | Except.error _ => (s1, true)

/-- What `loadImage(const std::string& filename)` returns once the `resize` of
`loadImageFile` has returned; the `QString` overload passes
`filename.toStdString()` to it. -/
def loadImage {W : Type} (fs : FileSystem W) (w : W) (s : ImageCompressor)
    (filename : String) : ImageCompressor × Bool :=
  loadImageFile fs w (clearResults s) filename

/-- Embeds `loadImageFile(const std::string&)`. `m_originalData.resize(size)` runs
before the read and outside the `try`: an exception of it leaves the
function with the vector as it was. On a good read all of the resized
`m_originalData` is overwritten with the file's bytes. The decoders run
inside `try { ... } catch (...) { }`: `m_qImage.load` comes first, so a
throwing `cv::imread` leaves `m_cvMat` as it was. -/
def loadImageFileOutcome {W : Type} (fs : FileSystem W) (w : W) (s : ImageCompressor)
    (filename : String) : Outcome Bool :=
  let file := fs.ifstream w filename
  if !file.is_open then Outcome.returns s false
  else
    let size := file.tellg
    if size ≤ 0 then Outcome.returns s false
    else
      match fs.vector_resize w size.toNat with
      | some what => Outcome.throws s what
      | none =>
        let (bytes, good) := file.read size.toNat
        if !good then Outcome.returns { s with m_originalData := [] } false
        else
          let s1 := { s with m_originalData := bytes.val, m_qImage := fs.QImage_load w filename }
          match fs.imread w filename with
          | Except.ok m => Outcome.returns { s1 with m_cvMat := m } true
          | Except.error _ => Outcome.returns s1 true

/-- Embeds `loadImage(const std::string& filename)`; the `QString` overload passes
`filename.toStdString()` to it. -/
def loadImageOutcome {W : Type} (fs : FileSystem W) (w : W) (s : ImageCompressor)
    (filename : String) : Outcome Bool :=
  loadImageFileOutcome fs w (clearResults s) filename

/-- The `format` string of `convertToImageData(const QImage&)`. -/
def qtFormatName : ImageFormat → String
  | ImageFormat.FORMAT_PNG => "PNG"
  | ImageFormat.FORMAT_JPEG => "JPEG"
  | _ => "BMP"

/-- The `extension` string of `convertToImageData(const cv::Mat&)`. -/
def cvExtension : ImageFormat → String
  | ImageFormat.FORMAT_PNG => ".png"
  | ImageFormat.FORMAT_JPEG => ".jpg"
  | _ => ".bmp"

/-- Embeds `convertToImageData(const QImage&)`. -/
def convertToImageDataQImage (s : ImageCompressor) (image : QImage) :
    ImageCompressor × Bool :=
  if image.isNull then (s, false)
  else
    match image.save (qtFormatName s.m_format) with
    | none => (s, false)
    | some byteArray => ({ s with m_originalData := byteArray }, true)

/-- Embeds `convertToImageData(const cv::Mat&)`. -/
def convertToImageDataMat (s : ImageCompressor) (image : Mat) :
    ImageCompressor × Bool :=
  if image.empty then (s, false)
  else
    match image.imencode (cvExtension s.m_format) with
    | none => (s, false)
    | some buffer => ({ s with m_originalData := buffer }, true)

/-- Embeds `loadImage(const QImage& image)`. -/
def loadImageQImage (s : ImageCompressor) (image : QImage) : ImageCompressor × Bool :=
  let s1 := clearResults s
  convertToImageDataQImage { s1 with m_qImage := image } image

/-- Embeds `loadImage(const cv::Mat& image)`. -/
def loadImageMat (s : ImageCompressor) (image : Mat) : ImageCompressor × Bool :=
  let s1 := clearResults s
  convertToImageDataMat { s1 with m_cvMat := image } image

/-- Embeds `loadImage(std::vector<unsigned char> data)`: the argument is a vector
of its own, copied or moved from the caller's before the body runs. -/
def loadImageData (s : ImageCompressor) (data : List Byte) : ImageCompressor × Bool :=
  let s1 := clearResults s
  let s2 := { s1 with m_originalData := data }
  (s2, !s2.m_originalData.isEmpty)

/-! ### Compression -/

/-- What `compressInternal()` returns once `m_compressedData.resize(maxSize)` has
returned (`compressInternalOutcome` is the function with the exception of
that `resize`). `m_compressedData` is resized to `maxSize`, handed to
`ZSTD_compress2` as destination and resized to the returned count: on
success it holds the bytes the primitive wrote. -/
def compressInternal (z : Zstd) (s : ImageCompressor) :
    ImageCompressor × CompressionResult :=
  let s1 := getContext z s
  if !s1.cctx then
    (s1, CompressionResult.ofCode CompressResult.ERROR_COMPRESS_FAILED
      "Failed to create compression context")
  else
    let maxSize := z.compressBound s1.m_originalData.length
    match z.compress2 s1.m_level s1.m_num_threads maxSize s1.m_originalData with
    | ZstdReturn.error name =>
      ({ s1 with m_compressedData := [] },
        CompressionResult.ofCode CompressResult.ERROR_COMPRESS_FAILED name)
    | ZstdReturn.ok written =>
      let compressedSize := written.length
      ({ s1 with m_compressedData := written },
        { original_size := s1.m_originalData.length
          compressed_size := compressedSize
          compression_ratio := divSizes compressedSize s1.m_originalData.length
          result_code := CompressResult.SUCCESS })

/-- Embeds `compressInternal()`, `resize n` being `what()` of the exception that
`m_compressedData.resize(n)` ends with, if it ends with one: the exception
leaves the function after the contexts were created and before the library
is called. -/
def compressInternalOutcome (resize : Nat → Option String) (z : Zstd)
    (s : ImageCompressor) : Outcome CompressionResult :=
  let s1 := getContext z s
  if !s1.cctx then
    Outcome.returns s1 (CompressionResult.ofCode CompressResult.ERROR_COMPRESS_FAILED
      "Failed to create compression context")
  else
    let maxSize := z.compressBound s1.m_originalData.length
    match resize maxSize with
    | some what => Outcome.throws s1 what
    | none =>
      match z.compress2 s1.m_level s1.m_num_threads maxSize s1.m_originalData with
      | ZstdReturn.error name =>
        Outcome.returns { s1 with m_compressedData := [] }
          (CompressionResult.ofCode CompressResult.ERROR_COMPRESS_FAILED name)
      | ZstdReturn.ok written =>
        let compressedSize := written.length
        Outcome.returns { s1 with m_compressedData := written }
          { original_size := s1.m_originalData.length
            compressed_size := compressedSize
            compression_ratio := divSizes compressedSize s1.m_originalData.length
            result_code := CompressResult.SUCCESS }

/-- Embeds `compress()`. -/
def compress (z : Zstd) (s : ImageCompressor) : ImageCompressor × CompressionResult :=
  if s.m_originalData.isEmpty then
    (s, CompressionResult.ofCode CompressResult.ERROR_EMPTY_DATA "No image data loaded")
  else compressInternal z s

/-- Embeds `compressImage(const QImage& image)`. -/
def compressImageQImage (z : Zstd) (s : ImageCompressor) (image : QImage) :
    ImageCompressor × CompressionResult :=
  let (s1, ok) := loadImageQImage s image
  if !ok then
    (s1, CompressionResult.ofCode CompressResult.ERROR_EMPTY_DATA "Failed to load QImage")
  else compress z s1

/-- Embeds `compressImage(const cv::Mat& image)`. -/
def compressImageMat (z : Zstd) (s : ImageCompressor) (image : Mat) :
    ImageCompressor × CompressionResult :=
  let (s1, ok) := loadImageMat s image
  if !ok then
    (s1, CompressionResult.ofCode CompressResult.ERROR_EMPTY_DATA "Failed to load cv::Mat")
  else compress z s1

/-- Embeds `compressData(const std::vector<unsigned char>& data)`: `loadImage(data)`
copies `data` into its by-value parameter before anything is cleared. -/
def compressData (z : Zstd) (s : ImageCompressor) (data : List Byte) :
    ImageCompressor × CompressionResult :=
  let (s1, ok) := loadImageData s data
  if !ok then
    (s1, CompressionResult.ofCode CompressResult.ERROR_EMPTY_DATA "Input data is empty")
  else compress z s1

/-! ### Decompression -/

/-- What `decompressInternal()` returns once
`m_decompressedData.resize(decompressedSize)` has returned
(`decompressInternalOutcome` is the function with the exception of that
`resize`). `m_decompressedData` is resized to the recorded content size and
handed to `ZSTD_decompressDCtx` as destination: when the returned count
equals that size, it holds the bytes the primitive wrote. -/
def decompressInternal (z : Zstd) (s : ImageCompressor) :
    ImageCompressor × CompressionResult :=
  let s1 := getContext z s
  if !s1.dctx then
    (s1, CompressionResult.ofCode CompressResult.ERROR_DECOMPRESS_FAILED
      "Failed to create decompression context")
  else if s1.m_compressedData.isEmpty then
    (s1, CompressionResult.ofCode CompressResult.ERROR_EMPTY_DATA "No compressed data")
  else
    let decompressedSize := z.getFrameContentSize s1.m_compressedData
    if decompressedSize = ZSTD_CONTENTSIZE_ERROR then
      (s1, CompressionResult.ofCode CompressResult.ERROR_DECOMPRESS_FAILED
        "Invalid compressed data")
    else if decompressedSize = ZSTD_CONTENTSIZE_UNKNOWN then
      (s1, CompressionResult.ofCode CompressResult.ERROR_DECOMPRESS_FAILED
        "Unknown content size")
    else
      match z.decompressDCtx decompressedSize s1.m_compressedData with
      | ZstdReturn.error name =>
        ({ s1 with m_decompressedData := [] },
          CompressionResult.ofCode CompressResult.ERROR_DECOMPRESS_FAILED name)
      | ZstdReturn.ok written =>
        let actualSize := written.length
        if actualSize ≠ decompressedSize then
          ({ s1 with m_decompressedData := [] },
            CompressionResult.ofCode CompressResult.ERROR_DECOMPRESS_FAILED
              "Decompressed size mismatch")
        else
          ({ s1 with m_decompressedData := written },
            { original_size := actualSize
              compressed_size := s1.m_compressedData.length
              compression_ratio := divSizes s1.m_compressedData.length actualSize
              result_code := CompressResult.SUCCESS })

/-- Embeds `decompressInternal()`, `resize n` being `what()` of the exception that
`m_decompressedData.resize(n)` ends with, if it ends with one: the
exception leaves the function after the contexts were created and before
the library is called. -/
def decompressInternalOutcome (resize : Nat → Option String) (z : Zstd)
    (s : ImageCompressor) : Outcome CompressionResult :=
  let s1 := getContext z s
  if !s1.dctx then
    Outcome.returns s1 (CompressionResult.ofCode CompressResult.ERROR_DECOMPRESS_FAILED
      "Failed to create decompression context")
  else if s1.m_compressedData.isEmpty then
    Outcome.returns s1 (CompressionResult.ofCode CompressResult.ERROR_EMPTY_DATA
      "No compressed data")
  else
    let decompressedSize := z.getFrameContentSize s1.m_compressedData
    if decompressedSize = ZSTD_CONTENTSIZE_ERROR then
      Outcome.returns s1 (CompressionResult.ofCode CompressResult.ERROR_DECOMPRESS_FAILED
        "Invalid compressed data")
    else if decompressedSize = ZSTD_CONTENTSIZE_UNKNOWN then
      Outcome.returns s1 (CompressionResult.ofCode CompressResult.ERROR_DECOMPRESS_FAILED
        "Unknown content size")
    else
      match resize decompressedSize with
      | some what => Outcome.throws s1 what
      | none =>
        match z.decompressDCtx decompressedSize s1.m_compressedData with
        | ZstdReturn.error name =>
          Outcome.returns { s1 with m_decompressedData := [] }
            (CompressionResult.ofCode CompressResult.ERROR_DECOMPRESS_FAILED name)
        | ZstdReturn.ok written =>
          let actualSize := written.length
          if actualSize ≠ decompressedSize then
            Outcome.returns { s1 with m_decompressedData := [] }
              (CompressionResult.ofCode CompressResult.ERROR_DECOMPRESS_FAILED
                "Decompressed size mismatch")
          else
            Outcome.returns { s1 with m_decompressedData := written }
              { original_size := actualSize
                compressed_size := s1.m_compressedData.length
                compression_ratio := divSizes s1.m_compressedData.length actualSize
                result_code := CompressResult.SUCCESS }

/-- What `decompress(const std::vector<unsigned char>& compressedData)` returns
once the `resize` of `decompressInternal` has returned, the argument being a
vector of the caller. -/
def decompress (z : Zstd) (s : ImageCompressor) (compressedData : List Byte) :
    ImageCompressor × CompressionResult :=
  let s1 := clearResults s
  decompressInternal z { s1 with m_compressedData := compressedData }

/-- The same body with the reference parameter bound to the compressor's own
`m_compressedData`, as in the call `c.decompress(c.getCompressedData())`:
`getCompressedData` returns a reference to the member, `clearResults()`
empties the member first, and the assignment then copies the member onto
itself. -/
def decompressOwnCompressedData (z : Zstd) (s : ImageCompressor) :
    ImageCompressor × CompressionResult :=
  let s1 := clearResults s
  decompressInternal z { s1 with m_compressedData := s1.m_compressedData }

/-- What `decompressFromFile(const std::string& filename)` returns once
`m_compressedData.resize(size)` and the `resize` of `decompressInternal`
have returned (`decompressFromFileOutcome` is the function with their
exceptions); the `QString` overload passes `filename.toStdString()` to it. -/
def decompressFromFile {W : Type} (fs : FileSystem W) (z : Zstd) (w : W)
    (s : ImageCompressor) (filename : String) : ImageCompressor × CompressionResult :=
  let s1 := clearResults s
  let file := fs.ifstream w filename
  if !file.is_open then
    (s1, CompressionResult.ofCode CompressResult.ERROR_DECOMPRESS_FAILED "Cannot open file")
  else
    let size := file.tellg
    if size ≤ 0 then
      (s1, CompressionResult.ofCode CompressResult.ERROR_DECOMPRESS_FAILED "File is empty")
    else
      let (bytes, good) := file.read size.toNat
      let s2 := { s1 with m_compressedData := bytes.val }
      if !good then
        (s2, CompressionResult.ofCode CompressResult.ERROR_DECOMPRESS_FAILED "Failed to read file")
      else decompressInternal z s2

/-- Embeds `decompressFromFile(const std::string& filename)`; the `QString`
overload passes `filename.toStdString()` to it. `m_compressedData.resize(size)`
runs before the read: an exception of it leaves the function with the
results cleared. -/
def decompressFromFileOutcome {W : Type} (fs : FileSystem W) (z : Zstd) (w : W)
    (s : ImageCompressor) (filename : String) : Outcome CompressionResult :=
  let s1 := clearResults s
  let file := fs.ifstream w filename
  if !file.is_open then
    Outcome.returns s1
      (CompressionResult.ofCode CompressResult.ERROR_DECOMPRESS_FAILED "Cannot open file")
  else
    let size := file.tellg
    if size ≤ 0 then
      Outcome.returns s1
        (CompressionResult.ofCode CompressResult.ERROR_DECOMPRESS_FAILED "File is empty")
    else
      match fs.vector_resize w size.toNat with
      | some what => Outcome.throws s1 what
      | none =>
        let (bytes, good) := file.read size.toNat
        let s2 := { s1 with m_compressedData := bytes.val }
        if !good then
          Outcome.returns s2
            (CompressionResult.ofCode CompressResult.ERROR_DECOMPRESS_FAILED
              "Failed to read file")
        else decompressInternalOutcome (fs.vector_resize w) z s2

/-! ### Saving -/

/-- Embeds `saveCompressedData(const std::string&) const`. -/
def saveCompressedData {W : Type} (fs : FileSystem W) (w : W) (s : ImageCompressor)
    (filename : String) : W × Bool :=
  if s.m_compressedData.isEmpty then (w, false)
  else
    let (w1, is_open) := fs.ofstream w filename
    if !is_open then (w1, false)
    else fs.write w1 filename s.m_compressedData

/-- Embeds `saveDecompressedImage(const std::string&) const`. -/
def saveDecompressedImage {W : Type} (fs : FileSystem W) (w : W) (s : ImageCompressor)
    (filename : String) : W × Bool :=
  if s.m_decompressedData.isEmpty then (w, false)
  else
    let (w1, is_open) := fs.ofstream w filename
    if !is_open then (w1, false)
    else fs.write w1 filename s.m_decompressedData

/-! ### Batches -/

/-- The `extensions` table of `isImageFile`. -/
def imageExtensions : List String :=
  [".bmp", ".png", ".jpg", ".jpeg", ".tiff", ".tif", ".webp"]

/-- Embeds `isImageFile(const std::string& filename)`. -/
def isImageFile (filename : String) : Bool :=
  let ext := String.mk (pathExtension filename.data)
  imageExtensions.contains ext

/-- Embeds `isCompressedFile(const std::string& filename)`. -/
def isCompressedFile (filename : String) : Bool :=
  let ext := String.mk (pathExtension filename.data)
  ext = ".zstd" || ext = ".zst"

/-- Embeds `getImageFiles(const std::string& folder)`: an exception of the
directory loop is swallowed, the files gathered before it are kept, and the
list is sorted with `std::sort`. -/
def getImageFiles {W : Type} (fs : FileSystem W) (w : W) (folder : String) : List String :=
  let entries := (fs.directory_iterator w folder).1
  let files := (entries.filter (fun entry => entry.is_regular_file && isImageFile entry.path)).map
    (fun entry => entry.path)
  files.insertionSort (fun a b => a ≤ b)

/-- Local variables of the loop of `compressFolder`, with the world and the
compressor. The `size_t` totals are kept as natural numbers: they are sums
of the sizes of files read into memory one after the other. `thrown` is
`what()` of the exception that left the body of the loop, `none` as long as
none did: no iteration runs after it. -/
structure CompressLoop (W : Type) where
  world : W
  compressor : ImageCompressor
  total_original : Nat
  total_compressed : Nat
  success_count : Nat
  thrown : Option String := none

/-- The `outputFile` of the iteration of `compressFolder` on `file`. -/
def compressOutputFile (outputFolder file : String) : String :=
  outputFolder ++ "/" ++ String.mk (pathStem file.data) ++ ".zstd"

/-- One iteration of the loop of `compressFolder`. -/
def compressFolderStep {W : Type} (fs : FileSystem W) (z : Zstd) (outputFolder : String)
    (st : CompressLoop W) (file : String) : CompressLoop W :=
  match st.thrown with
  | some _ => st
  | none =>
    let outputFile := compressOutputFile outputFolder file
    match loadImageOutcome fs st.world st.compressor file with
    | Outcome.throws s1 what => { st with compressor := s1, thrown := some what }
    | Outcome.returns s1 loaded =>
      if !loaded then { st with compressor := s1 }
      else
        match compressInternalOutcome (fs.vector_resize st.world) z s1 with
        | Outcome.throws s2 what => { st with compressor := s2, thrown := some what }
        | Outcome.returns s2 result =>
          if !result.success then { st with compressor := s2 }
          else
            let (w1, saved) := saveCompressedData fs st.world s2 outputFile
            if !saved then { st with world := w1, compressor := s2 }
            else
              { world := w1
                compressor := s2
                total_original := st.total_original + result.original_size
                total_compressed := st.total_compressed + result.compressed_size
                success_count := st.success_count + 1 }

/-- The test `!create_directories(outputFolder) && !exists(outputFolder)` of
both folder operations: the world afterwards and the value of the test, or
`what()` of the exception thrown. -/
def cannotCreate {W : Type} (fs : FileSystem W) (w : W) (outputFolder : String) :
    W × Except String Bool :=
  match fs.create_directories w outputFolder with
  | (w1, Except.error msg) => (w1, Except.error msg)
  | (w1, Except.ok true) => (w1, Except.ok false)
  | (w1, Except.ok false) =>
    match fs.path_exists w1 outputFolder with
    | Except.error msg => (w1, Except.error msg)
    | Except.ok found => (w1, Except.ok (!found))

/-- Embeds `compressFolder(inputFolder, outputFolder)`. An exception that leaves
the body of the loop is caught by `catch (const std::exception& e)`. -/
def compressFolder {W : Type} (fs : FileSystem W) (z : Zstd) (w : W) (s : ImageCompressor)
    (inputFolder outputFolder : String) : W × ImageCompressor × CompressionResult :=
  match cannotCreate fs w outputFolder with
  | (w1, Except.error msg) =>
    (w1, s, CompressionResult.ofCode CompressResult.ERROR_COMPRESS_FAILED msg)
  | (w1, Except.ok true) =>
    (w1, s, CompressionResult.ofCode CompressResult.ERROR_COMPRESS_FAILED
      "Cannot create output directory")
  | (w1, Except.ok false) =>
    let imageFiles := getImageFiles fs w1 inputFolder
    let st := imageFiles.foldl (compressFolderStep fs z outputFolder)
      { world := w1, compressor := s, total_original := 0, total_compressed := 0,
        success_count := 0 }
    match st.thrown with
    | some msg =>
      (st.world, st.compressor,
        CompressionResult.ofCode CompressResult.ERROR_COMPRESS_FAILED msg)
    | none =>
      if st.success_count = 0 then
        (st.world, st.compressor,
          CompressionResult.ofCode CompressResult.ERROR_COMPRESS_FAILED
            "No files processed successfully")
      else
        (st.world, st.compressor,
          { original_size := st.total_original
            compressed_size := st.total_compressed
            compression_ratio := divSizes st.total_compressed st.total_original
            result_code := CompressResult.SUCCESS })

/-- Local variable of the loop of `decompressFolder`, with the world and the
compressor. `thrown` is `what()` of the exception that left the body of the
loop, `none` as long as none did: no iteration runs after it. -/
structure DecompressLoop (W : Type) where
  world : W
  compressor : ImageCompressor
  success_count : Nat
  thrown : Option String := none

/-- The `outputFile` of the iteration of `decompressFolder` on the entry of path
`file`. -/
def decompressOutputFile (outputFolder file : String) : String :=
  outputFolder ++ "/" ++ String.mk (pathStem file.data) ++ ".bmp"

/-- One iteration of the loop of `decompressFolder`. -/
def decompressFolderStep {W : Type} (fs : FileSystem W) (z : Zstd) (outputFolder : String)
    (st : DecompressLoop W) (entry : DirEntry) : DecompressLoop W :=
  match st.thrown with
  | some _ => st
  | none =>
    if !(entry.is_regular_file && isCompressedFile entry.path) then st
    else
      let outputFile := decompressOutputFile outputFolder entry.path
      match decompressFromFileOutcome fs z st.world st.compressor entry.path with
      | Outcome.throws s1 what => { st with compressor := s1, thrown := some what }
      | Outcome.returns s1 result =>
        if !result.success then { st with compressor := s1 }
        else
          let (w1, saved) := saveDecompressedImage fs st.world s1 outputFile
          if !saved then { st with world := w1, compressor := s1 }
          else { world := w1, compressor := s1, success_count := st.success_count + 1 }

/-- Embeds `decompressFolder(inputFolder, outputFolder)`. The entries are those the
directory loop visits, listed when the loop starts. An exception that leaves
the body of the loop, or the loop over the directory after its last entry,
is caught by `catch (const std::exception& e)`. -/
def decompressFolder {W : Type} (fs : FileSystem W) (z : Zstd) (w : W) (s : ImageCompressor)
    (inputFolder outputFolder : String) : W × ImageCompressor × CompressionResult :=
  match cannotCreate fs w outputFolder with
  | (w1, Except.error msg) =>
    (w1, s, CompressionResult.ofCode CompressResult.ERROR_DECOMPRESS_FAILED msg)
  | (w1, Except.ok true) =>
    (w1, s, CompressionResult.ofCode CompressResult.ERROR_DECOMPRESS_FAILED
      "Cannot create output directory")
  | (w1, Except.ok false) =>
    let (entries, thrown) := fs.directory_iterator w1 inputFolder
    let st := entries.foldl (decompressFolderStep fs z outputFolder)
      { world := w1, compressor := s, success_count := 0 }
    match st.thrown with
    | some msg =>
      (st.world, st.compressor,
        CompressionResult.ofCode CompressResult.ERROR_DECOMPRESS_FAILED msg)
    | none =>
      match thrown with
      | some msg =>
        (st.world, st.compressor,
          CompressionResult.ofCode CompressResult.ERROR_DECOMPRESS_FAILED msg)
      | none =>
        if st.success_count = 0 then
          (st.world, st.compressor,
            CompressionResult.ofCode CompressResult.ERROR_DECOMPRESS_FAILED
              "No files processed successfully")
        else (st.world, st.compressor, CompressionResult.ofCode CompressResult.SUCCESS)

/-- Embeds `static_cast<int>(n)` for a `size_t` `n`, `int` being 32 bits wide. -/
def toInt32 (n : Nat) : Int :=
  (((n + 2 ^ 31) % 2 ^ 32 : Nat) : Int) - 2 ^ 31

/-- Embeds `getQImage() const`: `m_qImage` is `mutable`, and a null image is
replaced by what `loadFromData(data, static_cast<int>(size))` decodes from a
non-empty decompressed buffer. -/
def getQImage (loadFromData : List Byte → Int → QImage) (s : ImageCompressor) :
    ImageCompressor × QImage :=
  if s.m_qImage.isNull && !s.m_decompressedData.isEmpty then
    let image := loadFromData s.m_decompressedData (toInt32 s.m_decompressedData.length)
    ({ s with m_qImage := image }, image)
  else (s, s.m_qImage)

end ImageCompressor

/-! ## The worker

A shallow embedding of `src/demo/compressworker.cpp`. The worker is a record
of its compressor, the function-local `static int lastProgress` of
`updateProgress`, and the signals emitted so far. A call on the compressor
inside a `try` block either returns or throws. -/

/-- What a call throws: a `std::exception` with its `what()`, or an exception
of another type. -/
inductive Thrown where
  | exception (what : String)
  | other

/-- Outcome of a call on the compressor from inside a `try` block: the
compressor afterwards with the value returned, or the compressor as the
exception leaves it with what was thrown. -/
inductive Call (α : Type) where
  | returns (compressor : ImageCompressor) (value : α)
  | throws (compressor : ImageCompressor) (thrown : Thrown)

/-- What the code observes of a `QFileInfo`: `exists()`, `isFile()` and
`size()`. -/
structure QFileInfo where
  fileExists : Bool
  isFile : Bool
  size : Int

/-- The calls `CompressWorker` makes inside its `try` blocks, on its
compressor `m_compressor` (`getCompressedData` and `getDecompressedData`
stand for the copy taken with `auto x = ...`), and `QFileInfo(filename)`. -/
structure WorkerEnv where
  loadImage : ImageCompressor → QImage → Call Bool
  compress : ImageCompressor → Call CompressionResult
  getCompressedData : ImageCompressor → Call (List Byte)
  decompress : ImageCompressor → List Byte → Call CompressionResult
  decompressFromFile : ImageCompressor → String → Call CompressionResult
  getQImage : ImageCompressor → Call QImage
  getDecompressedData : ImageCompressor → Call (List Byte)
  fileInfo : String → QFileInfo

/-- The environment in which every call returns what the compressor of
`zstdBmpCompressor.cpp` computes and nothing throws. -/
def workerEnv {W : Type} (fs : FileSystem W) (z : Zstd) (w : W)
    (loadFromData : List Byte → Int → QImage) (fileInfo : String → QFileInfo) : WorkerEnv where
  loadImage := fun c image =>
    Call.returns (ImageCompressor.loadImageQImage c image).1
      (ImageCompressor.loadImageQImage c image).2
  compress := fun c =>
    Call.returns (ImageCompressor.compress z c).1 (ImageCompressor.compress z c).2
  getCompressedData := fun c => Call.returns c (ImageCompressor.getCompressedData c)
  decompress := fun c data =>
    Call.returns (ImageCompressor.decompress z c data).1 (ImageCompressor.decompress z c data).2
  decompressFromFile := fun c filename =>
    Call.returns (ImageCompressor.decompressFromFile fs z w c filename).1
      (ImageCompressor.decompressFromFile fs z w c filename).2
  getQImage := fun c =>
    Call.returns (ImageCompressor.getQImage loadFromData c).1
      (ImageCompressor.getQImage loadFromData c).2
  getDecompressedData := fun c => Call.returns c (ImageCompressor.getDecompressedData c)
  fileInfo := fileInfo

/-- The signals of `CompressWorker`, with their arguments. -/
inductive Signal where
  | compressionFinished (compressedData : List Byte) (originalSize compressedSize : Nat)
      (ratio : Ratio)
  | decompressionFinished (image : QImage) (compressedSize decompressedSize : Nat)
  | errorOccurred (errorMessage : String)
  | progressChanged (progress : Int)

/-- Whether the signal is `compressionFinished` or `decompressionFinished`. -/
def Signal.isFinished : Signal → Bool
  | Signal.compressionFinished _ _ _ _ => true
  | Signal.decompressionFinished _ _ _ => true
  | _ => false

/-- Whether the signal is `errorOccurred`. -/
def Signal.isError : Signal → Bool
  | Signal.errorOccurred _ => true
  | _ => false

/-- Whether the signal is `errorOccurred` with the given message. -/
def Signal.isErrorWith (message : String) : Signal → Bool
  | Signal.errorOccurred m => m = message
  | _ => false

/-- The values of the `progressChanged` signals of a list, in order. -/
def progressValues : List Signal → List Int
  | [] => []
  | Signal.progressChanged v :: rest => v :: progressValues rest
  | _ :: rest => progressValues rest

/-- Embeds `QByteArray(const char* data, int size)`: the first `size` bytes, or,
for a negative `size`, the bytes before the first zero byte. -/
def qByteArray (data : List Byte) (size : Int) : List Byte :=
  if size < 0 then data.takeWhile (fun b => b != 0) else data.take size.toNat

/-- Data of `class CompressWorker`: the compressor behind `m_compressor`, the
`static int lastProgress` of `updateProgress`, and the signals emitted so
far, the oldest first. -/
structure CompressWorker where
  m_compressor : ImageCompressor
  lastProgress : Int
  emitted : List Signal

namespace CompressWorker

/-- Embeds `CompressWorker(QObject* parent)`, in a program that has not called
`updateProgress` yet. -/
def ctor : CompressWorker :=
  { m_compressor := ImageCompressor.ctor 3, lastProgress := -1, emitted := [] }

/-- Embeds `emit signal`. -/
def emit (st : CompressWorker) (signal : Signal) : CompressWorker :=
  { st with emitted := st.emitted ++ [signal] }

/-- Number of `compressionFinished` and `decompressionFinished` signals
emitted so far. -/
def finishedCount (st : CompressWorker) : Nat := st.emitted.countP Signal.isFinished

/-- Number of `errorOccurred` signals emitted so far. -/
def errorCount (st : CompressWorker) : Nat := st.emitted.countP Signal.isError

/-- Between the worker `st` and the worker `st'` the signals emitted were
only added to, and what was added holds exactly one terminal notification:
one finished signal and no `errorOccurred`, or one `errorOccurred` and no
finished signal. -/
def OneTerminal (st st' : CompressWorker) : Prop :=
  st.emitted <+: st'.emitted ∧
  ((finishedCount st' = finishedCount st + 1 ∧ errorCount st' = errorCount st) ∨
    (finishedCount st' = finishedCount st ∧ errorCount st' = errorCount st + 1))

/-- Embeds `convertFormat(int format) const`. -/
def convertFormat (format : Int) : ImageFormat :=
  if format = 0 then ImageFormat.FORMAT_BMP
  else if format = 1 then ImageFormat.FORMAT_PNG
  else if format = 2 then ImageFormat.FORMAT_JPEG
  else ImageFormat.FORMAT_BMP

/-- Embeds `handleCompressionError(const QString& context, const QString& error)`. -/
def handleCompressionError (st : CompressWorker) (context : String) (error : String) :
    CompressWorker :=
  let errorMessage := if error.isEmpty then context else context ++ ": " ++ error
  emit st (Signal.errorOccurred errorMessage)

/-- Embeds `updateProgress(int value)`. -/
def updateProgress (st : CompressWorker) (value : Int) : CompressWorker :=
  if value ≠ st.lastProgress ∧ (value % 10 = 0 ∨ value = 100 ∨ value = 0) then
    { emit st (Signal.progressChanged value) with lastProgress := value }
  else st

/-- The `catch` clauses of a slot: `handleCompressionError(context, e.what())`
for a `std::exception`, `handleCompressionError(unknown)` for anything
else. -/
def catchClauses (st : CompressWorker) (context unknown : String) : Thrown → CompressWorker
  | Thrown.exception what => handleCompressionError st context what
  | Thrown.other => handleCompressionError st unknown ""

/-- Embeds `compressImage(const QImage& image, int level, int format)`. -/
def compressImage (env : WorkerEnv) (st : CompressWorker) (image : QImage)
    (level format : Int) : CompressWorker :=
  if image.isNull then handleCompressionError st "图像为空" ""
  else if level < 0 ∨ level > 22 then handleCompressionError st "压缩级别无效" ""
  else
    let st1 := { st with
      m_compressor := ImageCompressor.setImageFormat
        (ImageCompressor.setCompressionLevel st.m_compressor level) (convertFormat format) }
    let st2 := updateProgress st1 10
    match env.loadImage st2.m_compressor image with
    | Call.throws c t => catchClauses { st2 with m_compressor := c } "压缩异常" "未知压缩异常" t
    | Call.returns c loaded =>
      let st3 := { st2 with m_compressor := c }
      if !loaded then handleCompressionError st3 "无法加载图像" ""
      else
        let st4 := updateProgress st3 30
        match env.compress st4.m_compressor with
        | Call.throws c t =>
          catchClauses { st4 with m_compressor := c } "压缩异常" "未知压缩异常" t
        | Call.returns c result =>
          let st5 := { st4 with m_compressor := c }
          if !result.success then handleCompressionError st5 "压缩失败" ""
          else
            let st6 := updateProgress st5 70
            match env.getCompressedData st6.m_compressor with
            | Call.throws c t =>
              catchClauses { st6 with m_compressor := c } "压缩异常" "未知压缩异常" t
            | Call.returns c compressedData =>
              let compressedByteArray :=
                qByteArray compressedData (ImageCompressor.toInt32 compressedData.length)
              let st7 := updateProgress { st6 with m_compressor := c } 90
              if compressedByteArray.isEmpty then handleCompressionError st7 "压缩数据为空" ""
              else
                let st8 := emit st7
                  (Signal.compressionFinished compressedByteArray result.original_size
                    result.compressed_size result.compression_ratio)
                updateProgress st8 100

/-- Embeds `decompressData(const QByteArray& compressedData)`. -/
def decompressData (env : WorkerEnv) (st : CompressWorker) (compressedData : List Byte) :
    CompressWorker :=
  if compressedData.isEmpty then handleCompressionError st "压缩数据为空" ""
  else
    let st1 := updateProgress st 10
    let compressedVec := compressedData
    let st2 := updateProgress st1 30
    match env.decompress st2.m_compressor compressedVec with
    | Call.throws c t => catchClauses { st2 with m_compressor := c } "解压异常" "未知解压异常" t
    | Call.returns c result =>
      let st3 := { st2 with m_compressor := c }
      if !result.success then
        handleCompressionError st3 ("解压失败: " ++ result.error_message) ""
      else
        let st4 := updateProgress st3 70
        match env.getQImage st4.m_compressor with
        | Call.throws c t =>
          catchClauses { st4 with m_compressor := c } "解压异常" "未知解压异常" t
        | Call.returns c decompressedImage =>
          let st5 := { st4 with m_compressor := c }
          if decompressedImage.isNull then handleCompressionError st5 "解压后的图像无效" ""
          else
            let st6 := updateProgress st5 90
            match env.getDecompressedData st6.m_compressor with
            | Call.throws c t =>
              catchClauses { st6 with m_compressor := c } "解压异常" "未知解压异常" t
            | Call.returns c decompressedData =>
              let st7 := emit { st6 with m_compressor := c }
                (Signal.decompressionFinished decompressedImage compressedData.length
                  decompressedData.length)
              updateProgress st7 100

/-- Embeds `decompressFile(const QString& filename)`; `static_cast<size_t>` of
the `qint64` file size is taken modulo `2 ^ 64`. -/
def decompressFile (env : WorkerEnv) (st : CompressWorker) (filename : String) :
    CompressWorker :=
  if filename.isEmpty then handleCompressionError st "文件名为空" ""
  else
    let fileInfo := env.fileInfo filename
    if !fileInfo.fileExists || !fileInfo.isFile then
      handleCompressionError st "文件不存在或不是有效文件" ""
    else if fileInfo.size = 0 then handleCompressionError st "文件为空" ""
    else
      let st1 := updateProgress st 10
      match env.decompressFromFile st1.m_compressor filename with
      | Call.throws c t =>
        catchClauses { st1 with m_compressor := c } "文件解压异常" "未知文件解压异常" t
      | Call.returns c result =>
        let st2 := { st1 with m_compressor := c }
        if !result.success then
          handleCompressionError st2 ("文件解压失败: " ++ result.error_message) ""
        else
          let st3 := updateProgress st2 60
          match env.getQImage st3.m_compressor with
          | Call.throws c t =>
            catchClauses { st3 with m_compressor := c } "文件解压异常" "未知文件解压异常" t
          | Call.returns c decompressedImage =>
            let st4 := { st3 with m_compressor := c }
            if decompressedImage.isNull then handleCompressionError st4 "解压后的图像无效" ""
            else
              let st5 := updateProgress st4 80
              match env.getDecompressedData st5.m_compressor with
              | Call.throws c t =>
                catchClauses { st5 with m_compressor := c } "文件解压异常" "未知文件解压异常" t
              | Call.returns c decompressedData =>
                let st6 := { st5 with m_compressor := c }
                let compressedSize := (fileInfo.size % 2 ^ 64).toNat
                if decompressedData.isEmpty then handleCompressionError st6 "解压数据为空" ""
                else
                  let st7 := updateProgress st6 90
                  let st8 := emit st7
                    (Signal.decompressionFinished decompressedImage compressedSize
                      decompressedData.length)
                  updateProgress st8 100

end CompressWorker

/-! ## Sequences of calls on a compressor -/

/-- A call of a member function of `ImageCompressor` that can change the
object, with its arguments; `w` is the world in which a call that reads or
writes files runs, `loadFromData` the decoder `getQImage` uses. -/
inductive Operation (W : Type) where
  | setCompressionLevel (level : Int)
  | setNumThreads (num_threads : Int)
  | setImageFormat (format : ImageFormat)
  | loadImage (w : W) (filename : String)
  | loadImageQImage (image : QImage)
  | loadImageMat (image : Mat)
  | loadImageData (data : List Byte)
  | compress
  | compressImageQImage (image : QImage)
  | compressImageMat (image : Mat)
  | compressData (data : List Byte)
  | decompress (compressedData : List Byte)
  | decompressOwnCompressedData
  | decompressFromFile (w : W) (filename : String)
  | getQImage (loadFromData : List Byte → Int → QImage)
  | compressFolder (w : W) (inputFolder outputFolder : String)
  | decompressFolder (w : W) (inputFolder outputFolder : String)

/-- Whether the call is `setCompressionLevel` or `setNumThreads`. -/
def Operation.isSetter {W : Type} : Operation W → Bool
  | Operation.setCompressionLevel _ => true
  | Operation.setNumThreads _ => true
  | _ => false

/-- The compressor after the call. -/
def Operation.apply {W : Type} (fs : FileSystem W) (z : Zstd) :
    Operation W → ImageCompressor → ImageCompressor
  | Operation.setCompressionLevel level, s => ImageCompressor.setCompressionLevel s level
  | Operation.setNumThreads num_threads, s => ImageCompressor.setNumThreads s num_threads
  | Operation.setImageFormat format, s => ImageCompressor.setImageFormat s format
  | Operation.loadImage w filename, s => (ImageCompressor.loadImage fs w s filename).1
  | Operation.loadImageQImage image, s => (ImageCompressor.loadImageQImage s image).1
  | Operation.loadImageMat image, s => (ImageCompressor.loadImageMat s image).1
  | Operation.loadImageData data, s => (ImageCompressor.loadImageData s data).1
  | Operation.compress, s => (ImageCompressor.compress z s).1
  | Operation.compressImageQImage image, s => (ImageCompressor.compressImageQImage z s image).1
  | Operation.compressImageMat image, s => (ImageCompressor.compressImageMat z s image).1
  | Operation.compressData data, s => (ImageCompressor.compressData z s data).1
  | Operation.decompress compressedData, s => (ImageCompressor.decompress z s compressedData).1
  | Operation.decompressOwnCompressedData, s =>
    (ImageCompressor.decompressOwnCompressedData z s).1
  | Operation.decompressFromFile w filename, s =>
    (ImageCompressor.decompressFromFile fs z w s filename).1
  | Operation.getQImage loadFromData, s => (ImageCompressor.getQImage loadFromData s).1
  | Operation.compressFolder w inputFolder outputFolder, s =>
    (ImageCompressor.compressFolder fs z w s inputFolder outputFolder).2.1
  | Operation.decompressFolder w inputFolder outputFolder, s =>
    (ImageCompressor.decompressFolder fs z w s inputFolder outputFolder).2.1

/-- The compressor built by `ImageCompressor(level)` after the calls `ops`,
made in this order. -/
def runOperations {W : Type} (fs : FileSystem W) (z : Zstd) (level : Int)
    (ops : List (Operation W)) : ImageCompressor :=
  ops.foldl (fun s op => op.apply fs z s) (ImageCompressor.ctor level)

/-- The zstd primitives form a correct codec pair whose frames record the
content size: whatever `compress2` writes for `src` into a destination of
`compressBound` bytes, at any level and worker count, is a frame (not empty)
for which `getFrameContentSize` answers `src.length` and which
`decompressDCtx` turns back into `src` in a destination of `src.length`
bytes. -/
def Zstd.CorrectCodec (z : Zstd) : Prop :=
  ∀ (level nbWorkers : Int) (src frame : List Byte),
    z.compress2 level nbWorkers (z.compressBound src.length) src = ZstdReturn.ok frame →
    frame ≠ [] ∧ z.getFrameContentSize frame = src.length ∧
      z.decompressDCtx src.length frame = ZstdReturn.ok src

/-- The contract of `ZSTD_compress2` on its destination: a count it returns
without error is at most `dstCapacity`. -/
def Zstd.RespectsCapacity (z : Zstd) : Prop :=
  ∀ (level nbWorkers : Int) (dstCapacity : Nat) (src written : List Byte),
    z.compress2 level nbWorkers dstCapacity src = ZstdReturn.ok written →
    written.length ≤ dstCapacity

/-! ## Concrete collaborators, used to evaluate the definitions -/

/-- A stored-block codec. A frame is a tag byte followed by the content;
tag `0` stands for a header that records the content size, any other tag for
a header without it. -/
def storedZstd (cctxOk dctxOk : Bool) : Zstd where
  createCCtx := cctxOk
  createDCtx := dctxOk
  compressBound := fun n => n + 1
  compress2 := fun _ _ dstCapacity src =>
    if src.length + 1 ≤ dstCapacity then ZstdReturn.ok (0 :: src)
    else ZstdReturn.error "Destination buffer is too small"
  getFrameContentSize := fun frame =>
    match frame with
    | [] => ZSTD_CONTENTSIZE_ERROR
    | tag :: content => if tag = 0 then content.length else ZSTD_CONTENTSIZE_UNKNOWN
  decompressDCtx := fun dstCapacity frame =>
    match frame with
    | [] => ZstdReturn.error "Src size is incorrect"
    | _ :: content =>
      if content.length ≤ dstCapacity then ZstdReturn.ok content
      else ZstdReturn.error "Destination buffer is too small"

/-- A buffer of `n` bytes after `l` was stored at its start. -/
def storeInto (n : Nat) (l : List Byte) : { b : List Byte // b.length = n } :=
  ⟨(l ++ List.replicate n 0).take n, by simp⟩

/-- The directory part of a path: what precedes the last separator. -/
def pathParent (p : List Char) : List Char :=
  p.take (p.length - (pathFilename p).length - 1)

/-- Files in memory: the paths that exist, each with its content. -/
abbrev MemFiles := List (String × List Byte)

/-- A file system on `MemFiles` where every existing file can be opened and
read in full, every write succeeds, every folder exists, the image decoders
find no image, and every buffer can be resized. -/
def memFs : FileSystem MemFiles where
  ifstream := fun w path =>
    match w.lookup path with
    | none => { is_open := false, tellg := -1, read := fun n => (storeInto n [], false) }
    | some content =>
      { is_open := true
        tellg := content.length
        read := fun n => (storeInto n content, decide (n ≤ content.length)) }
  ofstream := fun w path => ((path, []) :: w.filter (fun f => f.1 != path), true)
  write := fun w path data => ((path, data) :: w.filter (fun f => f.1 != path), true)
  QImage_load := fun _ _ => QImage.null
  imread := fun _ _ => Except.ok Mat.null
  create_directories := fun w _ => (w, Except.ok false)
  path_exists := fun _ _ => Except.ok true
  directory_iterator := fun w folder =>
    ((w.filter (fun f => pathParent f.1.data = folder.data)).map
      (fun f => { path := f.1, is_regular_file := true }), none)
  vector_resize := fun _ _ => none

/-- A decoded image whose encoding in every format is the two bytes `66 77`. -/
def sampleQImage : QImage := { isNull := false, save := fun _ => some [66, 77] }

/-- A decoded matrix whose encoding in every format is the two bytes `66 77`. -/
def sampleMat : Mat := { empty := false, imencode := fun _ => some [66, 77] }

/-- The file system `memFs` with a directory loop that visits every entry
and then ends with an exception. -/
def memFsBrokenIteration : FileSystem MemFiles :=
  { memFs with
    directory_iterator := fun w folder =>
      ((memFs.directory_iterator w folder).1, some "directory iterator cannot advance") }

/-- The stored-block codec with one more tag: a frame of tag `255` has a
header that declares a content of `2 ^ 63` bytes. -/
def hugeFrameZstd : Zstd :=
  { storedZstd true true with
    getFrameContentSize := fun frame =>
      match frame with
      | [] => ZSTD_CONTENTSIZE_ERROR
      | tag :: content =>
        if tag = 0 then content.length
        else if tag = 255 then 2 ^ 63
        else ZSTD_CONTENTSIZE_UNKNOWN }

/-- The file system `memFs` on a machine whose vectors hold at most
`2 ^ 63 - 1` bytes, the `max_size()` of `std::vector<unsigned char>` with a
64-bit `ptrdiff_t`: `resize(n)` throws `std::length_error` for a larger
`n`. -/
def memFsMaxSize : FileSystem MemFiles :=
  { memFs with
    vector_resize := fun _ n => if n < 2 ^ 63 then none else some "vector::_M_default_append" }

/-- The file system `memFs` with a directory at the path `dir`, on a machine
with less than `2 ^ 40` bytes of memory: the stream on the directory opens,
`tellg()` reports `2 ^ 63 - 1` and nothing can be read from it; `resize(n)`
throws `std::bad_alloc` from `2 ^ 40` bytes on and `std::length_error` above
`max_size()`. -/
def memFsDirectory : FileSystem MemFiles :=
  { memFs with
    ifstream := fun w path =>
      if path = "dir" then
        { is_open := true, tellg := 2 ^ 63 - 1, read := fun n => (storeInto n [], false) }
      else memFs.ifstream w path
    vector_resize := fun _ n =>
      if 2 ^ 63 ≤ n then some "vector::_M_default_append"
      else if 2 ^ 40 ≤ n then some "std::bad_alloc"
      else none }

/-- A folder `in` with two image files, a text file and an empty image
file. -/
def sampleFolder : MemFiles :=
  [("in/b.bmp", [1, 2, 3]), ("in/a.png", [4, 5]), ("in/c.txt", [9]), ("in/e.bmp", [])]

/-- The file system `memFs` with folders that do not exist and cannot be
created: `create_directories` throws. -/
def memFsNoOutput : FileSystem MemFiles :=
  { memFs with
    create_directories := fun w _ =>
      (w, Except.error "filesystem error: cannot create directories: Permission denied")
    path_exists := fun _ _ => Except.ok false }

/-- A decoded image that is not null and that no format can encode. -/
def unencodableQImage : QImage := { isNull := false, save := fun _ => none }

/-- A worker environment on `memFs` and the stored-block codec, in which
every non-empty buffer decodes to `sampleQImage`. -/
def sampleEnv (w : MemFiles) : WorkerEnv :=
  workerEnv memFs (storedZstd true true) w
    (fun data _ => if data.isEmpty then QImage.null else sampleQImage)
    (fun path =>
      match w.lookup path with
      | none => { fileExists := false, isFile := false, size := 0 }
      | some content => { fileExists := true, isFile := true, size := content.length })

/-! ## Theorems -/

open ImageCompressor

/-! ### Level clamping -/

theorem clamp_eq_max_min (L : Int) : clamp L 1 22 = max 1 (min 22 L) := by
  unfold clamp
  split_ifs <;> omega

/-- C3. For every integer level `L`, the constructor and
`setCompressionLevel` return a compressor (no rejection) whose stored level
is `max 1 (min 22 L)`: `1` when `L < 1`, `22` when `L > 22`, `L` itself when
`1 ≤ L ≤ 22`. -/
theorem level_is_clamped (L : Int) (s : ImageCompressor) :
    ((ctor L).m_level = max 1 (min 22 L) ∧
      (setCompressionLevel s L).m_level = max 1 (min 22 L)) ∧
    (L < 1 → (ctor L).m_level = 1 ∧ (setCompressionLevel s L).m_level = 1) ∧
    (22 < L → (ctor L).m_level = 22 ∧ (setCompressionLevel s L).m_level = 22) ∧
    (1 ≤ L → L ≤ 22 → (ctor L).m_level = L ∧ (setCompressionLevel s L).m_level = L) := by
  have h1 : (ctor L).m_level = max 1 (min 22 L) := clamp_eq_max_min L
  have h2 : (setCompressionLevel s L).m_level = max 1 (min 22 L) := clamp_eq_max_min L
  rw [h1, h2]
  refine ⟨⟨rfl, rfl⟩, ?_, ?_, ?_⟩ <;> intros <;> constructor <;> omega

theorem level_is_clamped_witness :
    ((ctor (-5)).m_level = 1 ∧ (setCompressionLevel (ctor 3) (-5)).m_level = 1) ∧
    ((ctor 40).m_level = 22 ∧ (setCompressionLevel (ctor 3) 40).m_level = 22) ∧
    ((ctor 7).m_level = 7 ∧ (setCompressionLevel (ctor 3) 7).m_level = 7) :=
  ⟨(level_is_clamped (-5) (ctor 3)).2.1 (by decide),
   (level_is_clamped 40 (ctor 3)).2.2.1 (by decide),
   (level_is_clamped 7 (ctor 3)).2.2.2 (by decide) (by decide)⟩

/-! ### Empty input to compression -/

@[simp] theorem getContext_m_originalData (z : Zstd) (s : ImageCompressor) :
    (getContext z s).m_originalData = s.m_originalData := rfl

@[simp] theorem getContext_m_compressedData (z : Zstd) (s : ImageCompressor) :
    (getContext z s).m_compressedData = s.m_compressedData := rfl

@[simp] theorem getContext_m_decompressedData (z : Zstd) (s : ImageCompressor) :
    (getContext z s).m_decompressedData = s.m_decompressedData := rfl

@[simp] theorem getContext_m_level (z : Zstd) (s : ImageCompressor) :
    (getContext z s).m_level = s.m_level := rfl

@[simp] theorem getContext_m_num_threads (z : Zstd) (s : ImageCompressor) :
    (getContext z s).m_num_threads = s.m_num_threads := rfl

theorem compressInternal_success_sizes (z : Zstd) (s : ImageCompressor)
    (h : (compressInternal z s).2.result_code = CompressResult.SUCCESS) :
    (compressInternal z s).2.original_size = s.m_originalData.length ∧
    (compressInternal z s).2.compressed_size = (compressInternal z s).1.m_compressedData.length ∧
    (compressInternal z s).2.compression_ratio =
      divSizes (compressInternal z s).2.compressed_size (compressInternal z s).2.original_size := by
  cases hc : (getContext z s).cctx
  · simp [compressInternal, hc, CompressionResult.ofCode] at h
  · cases hw : z.compress2 s.m_level s.m_num_threads (z.compressBound s.m_originalData.length)
        s.m_originalData
    · simp [compressInternal, hc, hw, CompressionResult.ofCode] at h
    · simp [compressInternal, hc, hw]

theorem compress_success_nonempty (z : Zstd) (s : ImageCompressor)
    (h : (compress z s).2.result_code = CompressResult.SUCCESS) :
    s.m_originalData ≠ [] ∧ compress z s = compressInternal z s := by
  unfold compress at h ⊢
  by_cases he : s.m_originalData.isEmpty
  · simp [he, CompressionResult.ofCode] at h
  · simp only [he] at h ⊢
    simp only [List.isEmpty_iff] at he
    exact ⟨he, by simp⟩

theorem loadImageData_fst (s : ImageCompressor) (data : List Byte) :
    (loadImageData s data).1 = { clearResults s with m_originalData := data } := rfl

theorem loadImageData_snd (s : ImageCompressor) (data : List Byte) :
    (loadImageData s data).2 = !data.isEmpty := rfl

theorem compressData_nonempty (z : Zstd) (s : ImageCompressor) (data : List Byte)
    (h : data ≠ []) :
    compressData z s data = compressInternal z { clearResults s with m_originalData := data } := by
  have he : data.isEmpty = false := by
    cases data with
    | nil => exact absurd rfl h
    | cons _ _ => rfl
  simp [compressData, loadImageData, compress, he]

theorem compressData_empty (z : Zstd) (s : ImageCompressor) :
    (compressData z s []).2 =
      CompressionResult.ofCode CompressResult.ERROR_EMPTY_DATA "Input data is empty" := by
  simp [compressData, loadImageData]

/-- C2. Compressing an input of size 0 yields `EmptyInput`: in every
compressor state `compressData` of the empty vector returns
`ERROR_EMPTY_DATA`, and so does `compress()` when the held original data is
empty; neither ever returns `SUCCESS` with `original_size = 0`. -/
theorem empty_input_is_rejected (z : Zstd) (s : ImageCompressor) :
    (compressData z s []).2.result_code = CompressResult.ERROR_EMPTY_DATA ∧
    (s.m_originalData = [] →
      (compress z s).2.result_code = CompressResult.ERROR_EMPTY_DATA) ∧
    (∀ data : List Byte,
      ¬ ((compressData z s data).2.result_code = CompressResult.SUCCESS ∧
        (compressData z s data).2.original_size = 0)) ∧
    ¬ ((compress z s).2.result_code = CompressResult.SUCCESS ∧
        (compress z s).2.original_size = 0) := by
  refine ⟨?_, ?_, ?_, ?_⟩
  · rw [compressData_empty]; rfl
  · intro h
    simp [compress, h, CompressionResult.ofCode]
  · rintro data ⟨hs, h0⟩
    by_cases hd : data = []
    · subst hd
      rw [compressData_empty] at hs
      simp [CompressionResult.ofCode] at hs
    · rw [compressData_nonempty z s data hd] at hs h0
      have := (compressInternal_success_sizes z _ hs).1
      rw [this] at h0
      simp at h0
      exact hd h0
  · rintro ⟨hs, h0⟩
    obtain ⟨hne, heq⟩ := compress_success_nonempty z s hs
    rw [heq] at hs h0
    rw [(compressInternal_success_sizes z s hs).1] at h0
    simp at h0
    exact hne h0

theorem empty_input_is_rejected_witness :
    (compress (storedZstd true true) (ctor 3)).2.result_code = CompressResult.ERROR_EMPTY_DATA :=
  (empty_input_is_rejected (storedZstd true true) (ctor 3)).2.1 rfl

/-! ### Decompression without a usable frame -/

theorem decompress_eq (z : Zstd) (s : ImageCompressor) (bytes : List Byte) :
    decompress z s bytes =
      decompressInternal z { clearResults s with m_compressedData := bytes } := rfl

theorem decompressInternal_no_dctx (z : Zstd) (s : ImageCompressor)
    (h : (getContext z s).dctx = false) :
    decompressInternal z s =
      (getContext z s, CompressionResult.ofCode CompressResult.ERROR_DECOMPRESS_FAILED
        "Failed to create decompression context") := by
  simp [decompressInternal, h]

theorem decompressInternal_empty (z : Zstd) (s : ImageCompressor)
    (h : (getContext z s).dctx = true) (he : s.m_compressedData = []) :
    decompressInternal z s =
      (getContext z s, CompressionResult.ofCode CompressResult.ERROR_EMPTY_DATA
        "No compressed data") := by
  simp [decompressInternal, h, he]

theorem decompressInternal_no_hint (z : Zstd) (s : ImageCompressor)
    (h : (getContext z s).dctx = true) (hne : s.m_compressedData ≠ [])
    (hhint : z.getFrameContentSize s.m_compressedData = ZSTD_CONTENTSIZE_UNKNOWN ∨
      z.getFrameContentSize s.m_compressedData = ZSTD_CONTENTSIZE_ERROR) :
    decompressInternal z s =
      (getContext z s, CompressionResult.ofCode CompressResult.ERROR_DECOMPRESS_FAILED
        (if z.getFrameContentSize s.m_compressedData = ZSTD_CONTENTSIZE_ERROR
          then "Invalid compressed data" else "Unknown content size")) := by
  have hne2 : s.m_compressedData.isEmpty = false := by
    cases hc : s.m_compressedData with
    | nil => exact absurd hc hne
    | cons _ _ => rfl
  rcases hhint with hu | he
  · have : ¬ ZSTD_CONTENTSIZE_UNKNOWN = ZSTD_CONTENTSIZE_ERROR := by decide
    simp [decompressInternal, h, hne2, hu, this]
  · simp [decompressInternal, h, hne2, he]

/-- C7. In every compressor state in which the decompression context is
available (held already, or handed out by the library when `getContext` asks
for it), `decompress` of the empty buffer returns `ERROR_EMPTY_DATA`, which is
neither `ERROR_DECOMPRESS_FAILED` nor `SUCCESS`. -/
theorem decompress_empty_buffer (z : Zstd) (s : ImageCompressor)
    (h : (getContext z s).dctx = true) :
    (decompress z s []).2.result_code = CompressResult.ERROR_EMPTY_DATA ∧
    (decompress z s []).2.result_code ≠ CompressResult.ERROR_DECOMPRESS_FAILED ∧
    (decompress z s []).2.result_code ≠ CompressResult.SUCCESS := by
  have hd : (getContext z { clearResults s with m_compressedData := [] }).dctx = true := h
  rw [decompress_eq, decompressInternal_empty z _ hd rfl]
  simp [CompressionResult.ofCode]

theorem decompress_empty_buffer_witness :
    (decompress (storedZstd true true) (ctor 3) []).2.result_code =
      CompressResult.ERROR_EMPTY_DATA :=
  (decompress_empty_buffer (storedZstd true true) (ctor 3) rfl).1

/-- C4. For every non-empty compressed buffer for which
`ZSTD_getFrameContentSize` answers `ZSTD_CONTENTSIZE_UNKNOWN` or
`ZSTD_CONTENTSIZE_ERROR`, `decompress` returns `ERROR_DECOMPRESS_FAILED`,
leaves the decompressed buffer empty, and its outcome is the same whatever
function stands for `ZSTD_decompressDCtx`: the primitive is not consulted. -/
theorem decompress_without_size_hint (z : Zstd) (s : ImageCompressor) (bytes : List Byte)
    (hne : bytes ≠ [])
    (hhint : z.getFrameContentSize bytes = ZSTD_CONTENTSIZE_UNKNOWN ∨
      z.getFrameContentSize bytes = ZSTD_CONTENTSIZE_ERROR) :
    (decompress z s bytes).2.result_code = CompressResult.ERROR_DECOMPRESS_FAILED ∧
    (decompress z s bytes).1.m_decompressedData = [] ∧
    ∀ prim : Nat → List Byte → ZstdReturn,
      decompress { z with decompressDCtx := prim } s bytes = decompress z s bytes := by
  have key : ∀ z' : Zstd, z'.createCCtx = z.createCCtx → z'.createDCtx = z.createDCtx →
      z'.getFrameContentSize = z.getFrameContentSize →
      decompress z' s bytes =
        (getContext z { clearResults s with m_compressedData := bytes },
          CompressionResult.ofCode CompressResult.ERROR_DECOMPRESS_FAILED
            (if (getContext z (clearResults s)).dctx = false
              then "Failed to create decompression context"
              else if z.getFrameContentSize bytes = ZSTD_CONTENTSIZE_ERROR
                then "Invalid compressed data" else "Unknown content size")) := by
    intro z' hc hd hf
    have hctx : ∀ t : ImageCompressor, getContext z' t = getContext z t := by
      intro t; simp [getContext, hc, hd]
    rw [decompress_eq]
    cases hdc : (getContext z (clearResults s)).dctx
    · have hd' : (getContext z' { clearResults s with m_compressedData := bytes }).dctx = false := by
        rw [hctx]; exact hdc
      rw [decompressInternal_no_dctx z' _ hd', hctx]
      simp
    · have hd' : (getContext z' { clearResults s with m_compressedData := bytes }).dctx = true := by
        rw [hctx]; exact hdc
      rw [decompressInternal_no_hint z' _ hd' hne (by rw [hf]; exact hhint), hctx, hf]
      simp
  refine ⟨?_, ?_, ?_⟩
  · rw [key z rfl rfl rfl]; rfl
  · rw [key z rfl rfl rfl]; rfl
  · intro prim
    rw [key { z with decompressDCtx := prim } rfl rfl rfl, key z rfl rfl rfl]

theorem decompress_without_size_hint_witness :
    (decompress (storedZstd true true) (ctor 3) [1, 66, 77]).2.result_code =
      CompressResult.ERROR_DECOMPRESS_FAILED :=
  (decompress_without_size_hint (storedZstd true true) (ctor 3) [1, 66, 77]
    (by decide) (Or.inl rfl)).1

/-! ### Files that cannot be decompressed -/

/-- C8. For every path whose stream cannot be opened `decompressFromFile`
returns `ERROR_DECOMPRESS_FAILED` with the message "Cannot open file", and
for every path naming a zero-length file (the stream opens and `tellg()`
reports 0) it returns `ERROR_DECOMPRESS_FAILED` with the message "File is
empty"; in both cases the code is neither `ERROR_EMPTY_DATA` nor `SUCCESS`. -/
theorem decompressFromFile_unusable_file {W : Type} (fs : FileSystem W) (z : Zstd) (w : W)
    (s : ImageCompressor) (filename : String) :
    ((fs.ifstream w filename).is_open = false →
      (decompressFromFile fs z w s filename).2.result_code =
          CompressResult.ERROR_DECOMPRESS_FAILED ∧
        (decompressFromFile fs z w s filename).2.error_message = "Cannot open file") ∧
    ((fs.ifstream w filename).is_open = true → (fs.ifstream w filename).tellg = 0 →
      (decompressFromFile fs z w s filename).2.result_code =
          CompressResult.ERROR_DECOMPRESS_FAILED ∧
        (decompressFromFile fs z w s filename).2.error_message = "File is empty") ∧
    (((fs.ifstream w filename).is_open = false ∨ (fs.ifstream w filename).tellg = 0) →
      (decompressFromFile fs z w s filename).2.result_code ≠ CompressResult.ERROR_EMPTY_DATA ∧
        (decompressFromFile fs z w s filename).2.result_code ≠ CompressResult.SUCCESS) := by
  refine ⟨?_, ?_, ?_⟩
  · intro h
    simp [decompressFromFile, h, CompressionResult.ofCode]
  · intro h h0
    simp [decompressFromFile, h, h0, CompressionResult.ofCode]
  · intro h
    cases ho : (fs.ifstream w filename).is_open
    · simp [decompressFromFile, ho, CompressionResult.ofCode]
    · rcases h with h | h
      · rw [ho] at h; cases h
      · simp [decompressFromFile, ho, h, CompressionResult.ofCode]

theorem decompressFromFile_unusable_file_witness :
    ((decompressFromFile memFs (storedZstd true true) [("empty.zstd", [])] (ctor 3)
        "missing.zstd").2.result_code = CompressResult.ERROR_DECOMPRESS_FAILED ∧
      (decompressFromFile memFs (storedZstd true true) [("empty.zstd", [])] (ctor 3)
        "missing.zstd").2.error_message = "Cannot open file") ∧
    ((decompressFromFile memFs (storedZstd true true) [("empty.zstd", [])] (ctor 3)
        "empty.zstd").2.result_code = CompressResult.ERROR_DECOMPRESS_FAILED ∧
      (decompressFromFile memFs (storedZstd true true) [("empty.zstd", [])] (ctor 3)
        "empty.zstd").2.error_message = "File is empty") :=
  ⟨(decompressFromFile_unusable_file memFs (storedZstd true true) [("empty.zstd", [])] (ctor 3)
      "missing.zstd").1 (by decide),
   (decompressFromFile_unusable_file memFs (storedZstd true true) [("empty.zstd", [])] (ctor 3)
      "empty.zstd").2.1 (by decide) (by decide)⟩

/-! ### Exceptions of `resize` -/

theorem loadImageFileOutcome_returns {W : Type} (fs : FileSystem W) (w : W)
    (s : ImageCompressor) (filename : String)
    (h : (fs.ifstream w filename).is_open = true → 0 < (fs.ifstream w filename).tellg →
      fs.vector_resize w (fs.ifstream w filename).tellg.toNat = none) :
    loadImageFileOutcome fs w s filename =
      Outcome.returns (loadImageFile fs w s filename).1 (loadImageFile fs w s filename).2 := by
  unfold loadImageFileOutcome loadImageFile
  by_cases ho : (fs.ifstream w filename).is_open = true
  · by_cases hs : (fs.ifstream w filename).tellg ≤ 0
    · simp [ho, hs]
    · have hr := h ho (not_le.1 hs)
      simp only [ho, hs, hr, Bool.not_true, if_false]
      repeat' (first | split | dsimp only)
  · simp [ho]

theorem loadImageFileOutcome_throws {W : Type} (fs : FileSystem W) (w : W)
    (s : ImageCompressor) (filename what : String)
    (ho : (fs.ifstream w filename).is_open = true) (hs : 0 < (fs.ifstream w filename).tellg)
    (hr : fs.vector_resize w (fs.ifstream w filename).tellg.toNat = some what) :
    loadImageFileOutcome fs w s filename = Outcome.throws s what := by
  unfold loadImageFileOutcome
  simp [ho, not_le.2 hs, hr]

theorem loadImageOutcome_cases {W : Type} (fs : FileSystem W) (w : W) (s : ImageCompressor)
    (filename : String) :
    loadImageOutcome fs w s filename =
        Outcome.returns (loadImage fs w s filename).1 (loadImage fs w s filename).2 ∨
      ∃ what, loadImageOutcome fs w s filename = Outcome.throws (clearResults s) what := by
  by_cases ho : (fs.ifstream w filename).is_open = true
  · by_cases hs : 0 < (fs.ifstream w filename).tellg
    · cases hr : fs.vector_resize w (fs.ifstream w filename).tellg.toNat with
      | none =>
        exact Or.inl (loadImageFileOutcome_returns fs w _ filename (fun _ _ => hr))
      | some what =>
        exact Or.inr ⟨what, loadImageFileOutcome_throws fs w _ filename what ho hs hr⟩
    · exact Or.inl (loadImageFileOutcome_returns fs w _ filename (fun _ h => absurd h hs))
  · exact Or.inl (loadImageFileOutcome_returns fs w _ filename (fun h _ => absurd h ho))

theorem compressInternalOutcome_returns (resize : Nat → Option String) (z : Zstd)
    (s : ImageCompressor)
    (h : resize (z.compressBound s.m_originalData.length) = none) :
    compressInternalOutcome resize z s =
      Outcome.returns (compressInternal z s).1 (compressInternal z s).2 := by
  unfold compressInternalOutcome compressInternal
  simp only [getContext_m_originalData, h]
  repeat' (first | split | dsimp only)

theorem compressInternalOutcome_cases (resize : Nat → Option String) (z : Zstd)
    (s : ImageCompressor) :
    compressInternalOutcome resize z s =
        Outcome.returns (compressInternal z s).1 (compressInternal z s).2 ∨
      ∃ what, compressInternalOutcome resize z s = Outcome.throws (getContext z s) what ∧
        resize (z.compressBound s.m_originalData.length) = some what := by
  cases hr : resize (z.compressBound s.m_originalData.length) with
  | none => exact Or.inl (compressInternalOutcome_returns resize z s hr)
  | some what =>
    unfold compressInternalOutcome compressInternal
    simp only [getContext_m_originalData, hr]
    repeat' (first | split | dsimp only)
    all_goals simp_all

theorem decompressInternalOutcome_returns (resize : Nat → Option String) (z : Zstd)
    (s : ImageCompressor)
    (h : resize (z.getFrameContentSize s.m_compressedData) = none) :
    decompressInternalOutcome resize z s =
      Outcome.returns (decompressInternal z s).1 (decompressInternal z s).2 := by
  unfold decompressInternalOutcome decompressInternal
  simp only [getContext_m_compressedData, h]
  repeat' (first | split | dsimp only)

theorem decompressInternalOutcome_cases (resize : Nat → Option String) (z : Zstd)
    (s : ImageCompressor) :
    decompressInternalOutcome resize z s =
        Outcome.returns (decompressInternal z s).1 (decompressInternal z s).2 ∨
      ∃ what, decompressInternalOutcome resize z s = Outcome.throws (getContext z s) what ∧
        resize (z.getFrameContentSize s.m_compressedData) = some what := by
  cases hr : resize (z.getFrameContentSize s.m_compressedData) with
  | none => exact Or.inl (decompressInternalOutcome_returns resize z s hr)
  | some what =>
    unfold decompressInternalOutcome decompressInternal
    simp only [getContext_m_compressedData, hr]
    repeat' (first | split | dsimp only)
    all_goals simp_all

theorem decompressFromFileOutcome_returns {W : Type} (fs : FileSystem W) (z : Zstd) (w : W)
    (s : ImageCompressor) (filename : String)
    (h : ∀ n, fs.vector_resize w n = none) :
    decompressFromFileOutcome fs z w s filename =
      Outcome.returns (decompressFromFile fs z w s filename).1
        (decompressFromFile fs z w s filename).2 := by
  unfold decompressFromFileOutcome decompressFromFile
  by_cases ho : (fs.ifstream w filename).is_open = true
  · by_cases hs : (fs.ifstream w filename).tellg ≤ 0
    · simp [ho, hs]
    · simp only [ho, hs, h, Bool.not_true, if_false]
      cases hg : ((fs.ifstream w filename).read (fs.ifstream w filename).tellg.toNat).2
      · simp
      · simp only [Bool.not_true, if_false]
        exact decompressInternalOutcome_returns _ z _ (h _)
  · simp [ho]

theorem decompressFromFileOutcome_cases {W : Type} (fs : FileSystem W) (z : Zstd) (w : W)
    (s : ImageCompressor) (filename : String) :
    decompressFromFileOutcome fs z w s filename =
        Outcome.returns (decompressFromFile fs z w s filename).1
          (decompressFromFile fs z w s filename).2 ∨
      ∃ c what, decompressFromFileOutcome fs z w s filename = Outcome.throws c what ∧
        c.m_level = s.m_level ∧ c.m_num_threads = s.m_num_threads := by
  unfold decompressFromFileOutcome decompressFromFile
  by_cases ho : (fs.ifstream w filename).is_open = true
  · by_cases hs : (fs.ifstream w filename).tellg ≤ 0
    · simp [ho, hs]
    · simp only [ho, hs, Bool.not_true, if_false]
      cases hr : fs.vector_resize w (fs.ifstream w filename).tellg.toNat with
      | some what => exact Or.inr ⟨_, what, rfl, rfl, rfl⟩
      | none =>
        cases hg : ((fs.ifstream w filename).read (fs.ifstream w filename).tellg.toNat).2
        · simp
        · simp only [Bool.not_true, if_false]
          rcases decompressInternalOutcome_cases (fs.vector_resize w) z
            { clearResults s with
              m_compressedData :=
                ((fs.ifstream w filename).read (fs.ifstream w filename).tellg.toNat).1.val }
            with h | ⟨what, h, _⟩
          · exact Or.inl h
          · exact Or.inr ⟨_, what, h, rfl, rfl⟩
  · simp [ho]

theorem loadImageOutcome_config {W : Type} (fs : FileSystem W) (w : W) (s : ImageCompressor)
    (filename : String) :
    (loadImageOutcome fs w s filename).compressor.m_level = s.m_level ∧
    (loadImageOutcome fs w s filename).compressor.m_num_threads = s.m_num_threads := by
  rcases loadImageOutcome_cases fs w s filename with h | ⟨what, h⟩
  · rw [h]
    unfold loadImage loadImageFile
    repeat' (first | split | dsimp only [Outcome.compressor])
    all_goals exact ⟨rfl, rfl⟩
  · rw [h]
    exact ⟨rfl, rfl⟩

/-- The exceptions at work. The stream on a directory opens and reports
`2 ^ 63 - 1` bytes: the `resize` to that size throws `std::bad_alloc`, which
leaves `loadImage` and `decompressFromFile`. A frame that declares `2 ^ 63`
bytes of content: the `resize` to that size throws `std::length_error`,
which leaves `decompressInternal`. -/
theorem resize_exceptions_leave_the_call :
    (loadImageOutcome memFsDirectory [] (ctor 3) "dir").thrown = some "std::bad_alloc" ∧
    (decompressFromFileOutcome memFsDirectory (storedZstd true true) [] (ctor 3) "dir").thrown =
      some "std::bad_alloc" ∧
    (decompressInternalOutcome (memFsMaxSize.vector_resize []) hugeFrameZstd
      { ctor 3 with m_compressedData := [255, 1] }).thrown =
      some "vector::_M_default_append" := by
  refine ⟨?_, ?_, ?_⟩ <;> decide

/-! ### Loading -/

theorem isEmpty_eq_false_iff (l : List Byte) : l.isEmpty = false ↔ l ≠ [] := by
  cases l <;> simp

theorem loadImageFile_false {W : Type} (fs : FileSystem W) (w : W) (s : ImageCompressor)
    (filename : String)
    (h : (fs.ifstream w filename).is_open = false ∨ (fs.ifstream w filename).tellg ≤ 0 ∨
      ((fs.ifstream w filename).read (fs.ifstream w filename).tellg.toNat).2 = false) :
    (loadImageFile fs w s filename).2 = false := by
  cases ho : (fs.ifstream w filename).is_open
  · simp [loadImageFile, ho]
  · by_cases ht : (fs.ifstream w filename).tellg ≤ 0
    · simp [loadImageFile, ho, ht]
    · rcases h with h | h | h
      · rw [ho] at h; cases h
      · exact absurd h ht
      · simp [loadImageFile, ho, ht, h]

theorem loadImageFile_true {W : Type} (fs : FileSystem W) (w : W) (s : ImageCompressor)
    (filename : String)
    (ho : (fs.ifstream w filename).is_open = true) (ht : 0 < (fs.ifstream w filename).tellg)
    (hr : ((fs.ifstream w filename).read (fs.ifstream w filename).tellg.toNat).2 = true) :
    (loadImageFile fs w s filename).2 = true ∧
    (loadImageFile fs w s filename).1.m_originalData =
      ((fs.ifstream w filename).read (fs.ifstream w filename).tellg.toNat).1.val ∧
    (loadImageFile fs w s filename).1.m_compressedData = s.m_compressedData ∧
    (loadImageFile fs w s filename).1.m_decompressedData = s.m_decompressedData := by
  have ht' : ¬ (fs.ifstream w filename).tellg ≤ 0 := by omega
  cases hi : fs.imread w filename <;> simp [loadImageFile, ho, ht', hr, hi]

theorem convertToImageDataQImage_results (s : ImageCompressor) (image : QImage) :
    (convertToImageDataQImage s image).1.m_compressedData = s.m_compressedData ∧
    (convertToImageDataQImage s image).1.m_decompressedData = s.m_decompressedData := by
  cases hn : image.isNull
  · cases hs : image.save (qtFormatName s.m_format) <;>
      simp [convertToImageDataQImage, hn, hs]
  · simp [convertToImageDataQImage, hn]

theorem convertToImageDataMat_results (s : ImageCompressor) (image : Mat) :
    (convertToImageDataMat s image).1.m_compressedData = s.m_compressedData ∧
    (convertToImageDataMat s image).1.m_decompressedData = s.m_decompressedData := by
  cases hn : image.empty
  · cases hs : image.imencode (cvExtension s.m_format) <;>
      simp [convertToImageDataMat, hn, hs]
  · simp [convertToImageDataMat, hn]

theorem loadImageFile_results {W : Type} (fs : FileSystem W) (w : W) (s : ImageCompressor)
    (filename : String) :
    (loadImageFile fs w s filename).1.m_compressedData = s.m_compressedData ∧
    (loadImageFile fs w s filename).1.m_decompressedData = s.m_decompressedData := by
  cases ho : (fs.ifstream w filename).is_open
  · simp [loadImageFile, ho]
  · by_cases ht : (fs.ifstream w filename).tellg ≤ 0
    · simp [loadImageFile, ho, ht]
    · cases hr : ((fs.ifstream w filename).read (fs.ifstream w filename).tellg.toNat).2
      · simp [loadImageFile, ho, ht, hr]
      · cases hi : fs.imread w filename <;> simp [loadImageFile, ho, ht, hr, hi]

/-- C9, as amended. `loadImage(bytes)` returns true exactly when `bytes` is not
empty, and the held original data is then `bytes`. `loadImage(path)`, when
the `resize` of the buffer to the size of an opened, non-empty file does not
throw, returns; it returns false exactly when the stream cannot be opened,
when `tellg()` reports no positive size (a zero-length file) or when the
read fails, and returns true otherwise, the held original data being the
bytes read from the file. `loadImage(decodedImage)` returns false exactly
when the `QImage` is null or `save` fails for the configured format,
respectively when the `cv::Mat` is empty or `imencode` fails, and returns
true otherwise, the held original data being the encoded image. -/
theorem loadImage_outcome {W : Type} (fs : FileSystem W) (w : W) (s : ImageCompressor)
    (data : List Byte) (filename : String) (image : QImage) (mat : Mat)
    (hresize : (fs.ifstream w filename).is_open = true → 0 < (fs.ifstream w filename).tellg →
      fs.vector_resize w (fs.ifstream w filename).tellg.toNat = none) :
    (((loadImageData s data).2 = true ↔ data ≠ []) ∧
      ((loadImageData s data).2 = true → (loadImageData s data).1.m_originalData = data)) ∧
    ((loadImageOutcome fs w s filename).thrown = none ∧
      ((loadImageOutcome fs w s filename).value = some false ↔
        ((fs.ifstream w filename).is_open = false ∨ (fs.ifstream w filename).tellg ≤ 0 ∨
          ((fs.ifstream w filename).read (fs.ifstream w filename).tellg.toNat).2 = false)) ∧
      ((loadImageOutcome fs w s filename).value = some true ↔
        ¬ ((fs.ifstream w filename).is_open = false ∨ (fs.ifstream w filename).tellg ≤ 0 ∨
          ((fs.ifstream w filename).read (fs.ifstream w filename).tellg.toNat).2 = false)) ∧
      ((loadImageOutcome fs w s filename).value = some true →
        (loadImageOutcome fs w s filename).compressor.m_originalData =
          ((fs.ifstream w filename).read (fs.ifstream w filename).tellg.toNat).1.val)) ∧
    (((loadImageQImage s image).2 = false ↔
        (image.isNull = true ∨ image.save (qtFormatName s.m_format) = none)) ∧
      ((loadImageQImage s image).2 = true →
        image.save (qtFormatName s.m_format) =
          some (loadImageQImage s image).1.m_originalData)) ∧
    (((loadImageMat s mat).2 = false ↔
        (mat.empty = true ∨ mat.imencode (cvExtension s.m_format) = none)) ∧
      ((loadImageMat s mat).2 = true →
        mat.imencode (cvExtension s.m_format) =
          some (loadImageMat s mat).1.m_originalData)) := by
  refine ⟨⟨?_, fun _ => rfl⟩, ?_, ?_, ?_⟩
  · rw [loadImageData_snd]
    cases data <;> simp
  · have hret : loadImageOutcome fs w s filename =
        Outcome.returns (loadImage fs w s filename).1 (loadImage fs w s filename).2 :=
      loadImageFileOutcome_returns fs w (clearResults s) filename hresize
    rw [hret]
    simp only [Outcome.thrown, Outcome.value, Outcome.compressor, Option.some.injEq, true_and]
    by_cases hf : (fs.ifstream w filename).is_open = false ∨
        (fs.ifstream w filename).tellg ≤ 0 ∨
        ((fs.ifstream w filename).read (fs.ifstream w filename).tellg.toNat).2 = false
    · have h0 : (loadImage fs w s filename).2 = false :=
        loadImageFile_false fs w (clearResults s) filename hf
      simp [h0, hf]
    · have hf' := hf
      simp only [not_or, Bool.not_eq_false, not_le] at hf'
      obtain ⟨ho, ht, hr⟩ := hf'
      have h1 := loadImageFile_true fs w (clearResults s) filename ho ht hr
      have h2 : (loadImage fs w s filename).2 = true := h1.1
      refine ⟨?_, ?_, fun _ => h1.2.1⟩
      · simp [h2, hf]
      · simp [h2, hf]
  · cases hn : image.isNull
    · cases hs : image.save (qtFormatName s.m_format) <;>
        simp [loadImageQImage, convertToImageDataQImage, clearResults, hn, hs]
    · simp [loadImageQImage, convertToImageDataQImage, hn]
  · cases hn : mat.empty
    · cases hs : mat.imencode (cvExtension s.m_format) <;>
        simp [loadImageMat, convertToImageDataMat, clearResults, hn, hs]
    · simp [loadImageMat, convertToImageDataMat, hn]

theorem loadImage_outcome_witness :
    (loadImageData (ctor 3) [66, 77]).1.m_originalData = [66, 77] ∧
    (loadImageOutcome memFs [("a.bmp", [66, 77]), ("empty.bmp", [])] (ctor 3)
      "empty.bmp").value = some false ∧
    (loadImageOutcome memFs [("a.bmp", [66, 77]), ("empty.bmp", [])] (ctor 3)
      "a.bmp").value = some true ∧
    (loadImageQImage (ctor 3) unencodableQImage).2 = false ∧
    sampleMat.imencode (cvExtension (ctor 3).m_format) =
      some (loadImageMat (ctor 3) sampleMat).1.m_originalData :=
  ⟨(loadImage_outcome memFs [] (ctor 3) [66, 77] "a.bmp" QImage.null Mat.null
      (fun _ _ => rfl)).1.2 rfl,
   (loadImage_outcome memFs [("a.bmp", [66, 77]), ("empty.bmp", [])] (ctor 3) [] "empty.bmp"
      QImage.null Mat.null (fun _ _ => rfl)).2.1.2.1.2 (Or.inr (Or.inl (by decide))),
   (loadImage_outcome memFs [("a.bmp", [66, 77]), ("empty.bmp", [])] (ctor 3) [] "a.bmp"
      QImage.null Mat.null (fun _ _ => rfl)).2.1.2.2.1.2 (by decide),
   (loadImage_outcome memFs [] (ctor 3) [] "a.bmp" unencodableQImage Mat.null
      (fun _ _ => rfl)).2.2.1.1.2 (Or.inr rfl),
   (loadImage_outcome memFs [] (ctor 3) [] "a.bmp" QImage.null sampleMat
      (fun _ _ => rfl)).2.2.2.2 rfl⟩

/-- C9, as stated, fails in two ways. A decoded image that is not null and that
no format can encode: `loadImage(decodedImage)` returns false although the
image is neither null nor empty. A path that is a directory: the stream
opens, `tellg()` reports `2 ^ 63 - 1`, and `loadImage(path)` returns neither
false nor true, the `resize` of the buffer to that size throws
`std::bad_alloc` and the exception leaves `loadImage`. -/
theorem loadImage_fails_outside_stated_cases :
    (unencodableQImage.isNull = false ∧
      (loadImageQImage (ctor 3) unencodableQImage).2 = false) ∧
    ((memFsDirectory.ifstream [] "dir").is_open = true ∧
      (memFsDirectory.ifstream [] "dir").tellg = 2 ^ 63 - 1 ∧
      (loadImageOutcome memFsDirectory [] (ctor 3) "dir").value = none ∧
      (loadImageOutcome memFsDirectory [] (ctor 3) "dir").thrown = some "std::bad_alloc") := by
  refine ⟨⟨rfl, rfl⟩, rfl, rfl, ?_, ?_⟩ <;> decide

/-- C10. In every compressor state, after a `loadImage` call that returns
true (by path, by decoded `QImage` or `cv::Mat`, or by bytes) both
`getCompressedData()` and `getDecompressedData()` are empty, whatever they held
before. -/
theorem loadImage_clears_results {W : Type} (fs : FileSystem W) (w : W) (s : ImageCompressor)
    (data : List Byte) (filename : String) (image : QImage) (mat : Mat) :
    ((loadImage fs w s filename).2 = true →
      getCompressedData (loadImage fs w s filename).1 = [] ∧
      getDecompressedData (loadImage fs w s filename).1 = []) ∧
    ((loadImageQImage s image).2 = true →
      getCompressedData (loadImageQImage s image).1 = [] ∧
      getDecompressedData (loadImageQImage s image).1 = []) ∧
    ((loadImageMat s mat).2 = true →
      getCompressedData (loadImageMat s mat).1 = [] ∧
      getDecompressedData (loadImageMat s mat).1 = []) ∧
    ((loadImageData s data).2 = true →
      getCompressedData (loadImageData s data).1 = [] ∧
      getDecompressedData (loadImageData s data).1 = []) := by
  refine ⟨fun _ => ?_, fun _ => ?_, fun _ => ?_, fun _ => ⟨rfl, rfl⟩⟩
  · exact loadImageFile_results fs w (clearResults s) filename
  · exact convertToImageDataQImage_results { clearResults s with m_qImage := image } image
  · exact convertToImageDataMat_results { clearResults s with m_cvMat := mat } mat

theorem loadImage_clears_results_witness :
    (getCompressedData
        (loadImage memFs [("a.bmp", [66, 77])]
          { ctor 3 with m_compressedData := [1, 2], m_decompressedData := [3] } "a.bmp").1 = [] ∧
      getDecompressedData
        (loadImage memFs [("a.bmp", [66, 77])]
          { ctor 3 with m_compressedData := [1, 2], m_decompressedData := [3] } "a.bmp").1 = []) ∧
    (getCompressedData
        (loadImageQImage { ctor 3 with m_compressedData := [1, 2], m_decompressedData := [3] }
          sampleQImage).1 = [] ∧
      getDecompressedData
        (loadImageQImage { ctor 3 with m_compressedData := [1, 2], m_decompressedData := [3] }
          sampleQImage).1 = []) ∧
    (getCompressedData
        (loadImageMat { ctor 3 with m_compressedData := [1, 2], m_decompressedData := [3] }
          sampleMat).1 = [] ∧
      getDecompressedData
        (loadImageMat { ctor 3 with m_compressedData := [1, 2], m_decompressedData := [3] }
          sampleMat).1 = []) ∧
    (getCompressedData
        (loadImageData { ctor 3 with m_compressedData := [1, 2], m_decompressedData := [3] }
          [66, 77]).1 = [] ∧
      getDecompressedData
        (loadImageData { ctor 3 with m_compressedData := [1, 2], m_decompressedData := [3] }
          [66, 77]).1 = []) :=
  ⟨(loadImage_clears_results memFs [("a.bmp", [66, 77])]
      { ctor 3 with m_compressedData := [1, 2], m_decompressedData := [3] } [66, 77] "a.bmp"
      sampleQImage sampleMat).1 (by decide),
   (loadImage_clears_results memFs [("a.bmp", [66, 77])]
      { ctor 3 with m_compressedData := [1, 2], m_decompressedData := [3] } [66, 77] "a.bmp"
      sampleQImage sampleMat).2.1 rfl,
   (loadImage_clears_results memFs [("a.bmp", [66, 77])]
      { ctor 3 with m_compressedData := [1, 2], m_decompressedData := [3] } [66, 77] "a.bmp"
      sampleQImage sampleMat).2.2.1 rfl,
   (loadImage_clears_results memFs [("a.bmp", [66, 77])]
      { ctor 3 with m_compressedData := [1, 2], m_decompressedData := [3] } [66, 77] "a.bmp"
      sampleQImage sampleMat).2.2.2 rfl⟩

/-! ### Round trip -/

theorem storedZstd_correct (cctxOk dctxOk : Bool) : (storedZstd cctxOk dctxOk).CorrectCodec := by
  intro level nbWorkers src frame h
  simp only [storedZstd] at h ⊢
  split_ifs at h with hcap
  cases h
  simp

theorem compressInternal_success_frame (z : Zstd) (s : ImageCompressor)
    (h : (compressInternal z s).2.result_code = CompressResult.SUCCESS) :
    z.compress2 s.m_level s.m_num_threads (z.compressBound s.m_originalData.length)
      s.m_originalData = ZstdReturn.ok (compressInternal z s).1.m_compressedData ∧
    (compressInternal z s).1.dctx = (getContext z s).dctx := by
  cases hc : (getContext z s).cctx
  · simp [compressInternal, hc, CompressionResult.ofCode] at h
  · cases hw : z.compress2 s.m_level s.m_num_threads (z.compressBound s.m_originalData.length)
        s.m_originalData
    · simp [compressInternal, hc, hw, CompressionResult.ofCode] at h
    · simp [compressInternal, hc, hw]

theorem decompressInternal_success (z : Zstd) (s : ImageCompressor) (out : List Byte)
    (hd : (getContext z s).dctx = true) (hne : s.m_compressedData ≠ [])
    (hsize : z.getFrameContentSize s.m_compressedData = out.length)
    (hlt : out.length < 2 ^ 64 - 2)
    (hdec : z.decompressDCtx out.length s.m_compressedData = ZstdReturn.ok out) :
    decompressInternal z s =
      ({ getContext z s with m_decompressedData := out },
        { original_size := out.length
          compressed_size := s.m_compressedData.length
          compression_ratio := divSizes s.m_compressedData.length out.length
          result_code := CompressResult.SUCCESS }) := by
  have hne2 : s.m_compressedData.isEmpty = false := (isEmpty_eq_false_iff _).2 hne
  have h1 : ¬ out.length = ZSTD_CONTENTSIZE_ERROR := by
    simp only [ZSTD_CONTENTSIZE_ERROR]; omega
  have h2 : ¬ out.length = ZSTD_CONTENTSIZE_UNKNOWN := by
    simp only [ZSTD_CONTENTSIZE_UNKNOWN]; omega
  simp [decompressInternal, hd, hne2, hsize, h1, h2, hdec]

/-- C1, as amended. With the zstd primitives a correct codec pair whose
frames record the content size, for every compressor state (so every
configured level and thread count) and every non-empty byte vector `b` (of a
size below `SIZE_MAX - 1`, as every vector is): if `compressData(b)` returns
`SUCCESS` and the decompression context is available, then `decompress`,
given the bytes of `getCompressedData()` in a buffer of the caller, returns
`SUCCESS` and `getDecompressedData()` equals `b`. -/
theorem compress_decompress_roundtrip (z : Zstd) (hz : z.CorrectCodec) (s : ImageCompressor)
    (b : List Byte) (hb : b ≠ []) (hlt : b.length < 2 ^ 64 - 2)
    (hs : (compressData z s b).2.result_code = CompressResult.SUCCESS)
    (hd : (getContext z (compressData z s b).1).dctx = true) :
    (decompress z (compressData z s b).1
        (getCompressedData (compressData z s b).1)).2.result_code = CompressResult.SUCCESS ∧
    getDecompressedData
      (decompress z (compressData z s b).1 (getCompressedData (compressData z s b).1)).1 = b := by
  rw [compressData_nonempty z s b hb] at hs hd ⊢
  obtain ⟨hframe, -⟩ := compressInternal_success_frame z _ hs
  obtain ⟨hne, hsize, hdec⟩ := hz _ _ _ _ hframe
  have key := decompressInternal_success z
    { clearResults (compressInternal z { clearResults s with m_originalData := b }).1 with
      m_compressedData :=
        (compressInternal z { clearResults s with m_originalData := b }).1.m_compressedData }
    b hd hne hsize hlt hdec
  simp only [decompress_eq, getCompressedData, getDecompressedData]
  rw [key]
  exact ⟨rfl, rfl⟩

theorem compress_decompress_roundtrip_witness :
    (decompress (storedZstd true true) (compressData (storedZstd true true) (ctor 3) [66, 77]).1
        (getCompressedData (compressData (storedZstd true true) (ctor 3) [66, 77]).1)).2.result_code
      = CompressResult.SUCCESS ∧
    getDecompressedData
      (decompress (storedZstd true true) (compressData (storedZstd true true) (ctor 3) [66, 77]).1
        (getCompressedData (compressData (storedZstd true true) (ctor 3) [66, 77]).1)).1
      = [66, 77] :=
  compress_decompress_roundtrip (storedZstd true true) (storedZstd_correct true true) (ctor 3)
    [66, 77] (by decide) (by decide) rfl rfl

/-- C1, as stated, fails when the library hands out a compression context but
no decompression context: with a correct codec pair, `compressData` of the
bytes `66 77` returns `SUCCESS`, and `decompress` of `getCompressedData()`
returns `ERROR_DECOMPRESS_FAILED` and leaves `getDecompressedData()` empty. -/
theorem roundtrip_fails_without_decompression_context :
    (storedZstd true false).CorrectCodec ∧
    (compressData (storedZstd true false) (ctor 3) [66, 77]).2.result_code =
      CompressResult.SUCCESS ∧
    (decompress (storedZstd true false) (compressData (storedZstd true false) (ctor 3) [66, 77]).1
        (getCompressedData
          (compressData (storedZstd true false) (ctor 3) [66, 77]).1)).2.result_code
      = CompressResult.ERROR_DECOMPRESS_FAILED ∧
    getDecompressedData
      (decompress (storedZstd true false) (compressData (storedZstd true false) (ctor 3) [66, 77]).1
        (getCompressedData (compressData (storedZstd true false) (ctor 3) [66, 77]).1)).1
      = [] :=
  ⟨storedZstd_correct true false, rfl, rfl, rfl⟩

/-- The call `c.decompress(c.getCompressedData())`, whose argument is a
reference to the compressor's own buffer, returns `ERROR_EMPTY_DATA` in every
state in which the decompression context is available, whatever the buffer
held: the buffer is cleared before it is read. -/
theorem decompress_of_own_buffer_sees_no_data (z : Zstd) (s : ImageCompressor)
    (h : (getContext z s).dctx = true) :
    (decompressOwnCompressedData z s).2.result_code = CompressResult.ERROR_EMPTY_DATA := by
  have hd : (getContext z
      { clearResults s with m_compressedData := (clearResults s).m_compressedData }).dctx = true := h
  unfold decompressOwnCompressedData
  rw [decompressInternal_empty z _ hd rfl]
  rfl

/-! ### Sizes and ratio of a successful result -/

theorem divSizes_of_pos (c o : Nat) (h : 0 < o) :
    divSizes c o = Ratio.finite ((c : ℚ) / (o : ℚ)) := by
  have : o ≠ 0 := by omega
  simp [divSizes, this]

theorem foldl_invariant {α β : Type} (P : β → Prop) (f : β → α → β)
    (hstep : ∀ st x, P st → P (f st x)) (l : List α) (init : β) (h : P init) :
    P (l.foldl f init) := by
  induction l generalizing init with
  | nil => exact h
  | cons x xs ih => exact ih (f init x) (hstep init x h)

/-- A successful `compress()` reports a positive `original_size` and the
exact quotient as ratio. -/
theorem compress_success_ratio (z : Zstd) (s : ImageCompressor)
    (h : (compress z s).2.result_code = CompressResult.SUCCESS) :
    0 < (compress z s).2.original_size ∧
    (compress z s).2.compression_ratio =
      Ratio.finite (((compress z s).2.compressed_size : ℚ) / ((compress z s).2.original_size : ℚ)) := by
  obtain ⟨hne, heq⟩ := compress_success_nonempty z s h
  rw [heq] at h ⊢
  obtain ⟨ho, -, hr⟩ := compressInternal_success_sizes z s h
  have hpos : 0 < (compressInternal z s).2.original_size := by
    rw [ho]; exact List.length_pos.2 hne
  exact ⟨hpos, by rw [hr, divSizes_of_pos _ _ hpos]⟩

/-- A successful `compressData(data)` reports a positive `original_size` and
the exact quotient as ratio. -/
theorem compressData_success_ratio (z : Zstd) (s : ImageCompressor) (data : List Byte)
    (h : (compressData z s data).2.result_code = CompressResult.SUCCESS) :
    0 < (compressData z s data).2.original_size ∧
    (compressData z s data).2.compression_ratio =
      Ratio.finite (((compressData z s data).2.compressed_size : ℚ) /
        ((compressData z s data).2.original_size : ℚ)) := by
  by_cases hd : data = []
  · subst hd
    rw [compressData_empty] at h
    simp [CompressionResult.ofCode] at h
  · rw [compressData_nonempty z s data hd] at h ⊢
    obtain ⟨ho, -, hr⟩ := compressInternal_success_sizes z _ h
    have hpos : 0 < (compressInternal z
        { clearResults s with m_originalData := data }).2.original_size := by
      rw [ho]; exact List.length_pos.2 hd
    exact ⟨hpos, by rw [hr, divSizes_of_pos _ _ hpos]⟩

/-- A successful `decompressInternal()` reports the recorded content size as
`original_size`, which is the length of the decompressed buffer, the length
of the compressed buffer as `compressed_size`, and their `double` quotient as
ratio. -/
theorem decompressInternal_success_shape (z : Zstd) (s : ImageCompressor)
    (h : (decompressInternal z s).2.result_code = CompressResult.SUCCESS) :
    (decompressInternal z s).2.original_size = z.getFrameContentSize s.m_compressedData ∧
    (decompressInternal z s).2.original_size =
      (decompressInternal z s).1.m_decompressedData.length ∧
    (decompressInternal z s).2.compressed_size = s.m_compressedData.length ∧
    (decompressInternal z s).2.compression_ratio =
      divSizes (decompressInternal z s).2.compressed_size
        (decompressInternal z s).2.original_size := by
  cases hd : (getContext z s).dctx
  · rw [decompressInternal_no_dctx z s hd] at h
    simp [CompressionResult.ofCode] at h
  · by_cases he : s.m_compressedData = []
    · rw [decompressInternal_empty z s hd he] at h
      simp [CompressionResult.ofCode] at h
    · by_cases hh : z.getFrameContentSize s.m_compressedData = ZSTD_CONTENTSIZE_UNKNOWN ∨
          z.getFrameContentSize s.m_compressedData = ZSTD_CONTENTSIZE_ERROR
      · rw [decompressInternal_no_hint z s hd he hh] at h
        simp [CompressionResult.ofCode] at h
      · simp only [not_or] at hh
        have he2 : s.m_compressedData.isEmpty = false := (isEmpty_eq_false_iff _).2 he
        cases hw : z.decompressDCtx (z.getFrameContentSize s.m_compressedData) s.m_compressedData
        · simp [decompressInternal, hd, he2, hh.1, hh.2, hw, CompressionResult.ofCode] at h
        · next written =>
          by_cases hl : written.length = z.getFrameContentSize s.m_compressedData
          · simp [decompressInternal, hd, he2, hh.1, hh.2, hw, hl]
          · simp [decompressInternal, hd, he2, hh.1, hh.2, hw, hl, CompressionResult.ofCode] at h

theorem loadImageFile_true_nonempty {W : Type} (fs : FileSystem W) (w : W) (s : ImageCompressor)
    (filename : String) (h : (loadImageFile fs w s filename).2 = true) :
    (loadImageFile fs w s filename).1.m_originalData ≠ [] := by
  by_cases hf : (fs.ifstream w filename).is_open = false ∨ (fs.ifstream w filename).tellg ≤ 0 ∨
      ((fs.ifstream w filename).read (fs.ifstream w filename).tellg.toNat).2 = false
  · rw [loadImageFile_false fs w s filename hf] at h
    cases h
  · simp only [not_or, Bool.not_eq_false, not_le] at hf
    obtain ⟨ho, ht, hr⟩ := hf
    rw [(loadImageFile_true fs w s filename ho ht hr).2.1]
    intro hnil
    have hlen := ((fs.ifstream w filename).read (fs.ifstream w filename).tellg.toNat).1.property
    rw [hnil] at hlen
    simp only [List.length_nil] at hlen
    omega

theorem loadImageOutcome_true_nonempty {W : Type} (fs : FileSystem W) (w : W)
    (s c : ImageCompressor) (filename : String)
    (h : loadImageOutcome fs w s filename = Outcome.returns c true) :
    c.m_originalData ≠ [] := by
  rcases loadImageOutcome_cases fs w s filename with h1 | ⟨what, h1⟩
  · rw [h1] at h
    injection h with hc hv
    rw [← hc]
    exact loadImageFile_true_nonempty fs w (clearResults s) filename hv
  · rw [h1] at h
    cases h

/-- One iteration of the loop of `compressFolder` keeps the total of original
sizes positive once a file was counted. -/
theorem compressFolderStep_invariant {W : Type} (fs : FileSystem W) (z : Zstd)
    (outputFolder : String) (st : CompressLoop W) (file : String)
    (h : 0 < st.success_count → 0 < st.total_original) :
    0 < (compressFolderStep fs z outputFolder st file).success_count →
      0 < (compressFolderStep fs z outputFolder st file).total_original := by
  cases ht : st.thrown with
  | some msg => simpa [compressFolderStep, ht] using h
  | none =>
    rcases hL : loadImageOutcome fs st.world st.compressor file with ⟨s1, loaded⟩ | ⟨s1, what⟩
    · cases loaded
      · simpa [compressFolderStep, ht, hL] using h
      · rcases hC : compressInternalOutcome (fs.vector_resize st.world) z s1
          with ⟨s2, result⟩ | ⟨s2, what⟩
        · by_cases hs : result.result_code = CompressResult.SUCCESS
          · rcases hS : saveCompressedData fs st.world s2
                (compressOutputFile outputFolder file) with ⟨w1, saved⟩
            cases saved
            · simpa [compressFolderStep, ht, hL, hC, hS, CompressionResult.success, hs] using h
            · have hne : s1.m_originalData ≠ [] :=
                loadImageOutcome_true_nonempty fs st.world st.compressor s1 file hL
              have hres : (compressInternal z s1).2 = result := by
                rcases compressInternalOutcome_cases (fs.vector_resize st.world) z s1
                  with h1 | ⟨what, h1, _⟩
                · rw [h1] at hC
                  injection hC
                · rw [h1] at hC
                  cases hC
              have hsz : result.original_size = s1.m_originalData.length := by
                have := (compressInternal_success_sizes z s1 (by rw [hres]; exact hs)).1
                rwa [hres] at this
              have hpos : 0 < result.original_size := by
                rw [hsz]; exact List.length_pos.2 hne
              intro _
              simp [compressFolderStep, ht, hL, hC, hS, CompressionResult.success, hs]
              omega
          · simpa [compressFolderStep, ht, hL, hC, CompressionResult.success, hs] using h
        · simpa [compressFolderStep, ht, hL, hC] using h
    · simpa [compressFolderStep, ht, hL] using h

/-- A successful `compressFolder` reports a positive `original_size` and the
exact quotient of its totals as ratio. -/
theorem compressFolder_success_ratio {W : Type} (fs : FileSystem W) (z : Zstd) (w : W)
    (s : ImageCompressor) (inputFolder outputFolder : String)
    (h : (compressFolder fs z w s inputFolder outputFolder).2.2.result_code =
      CompressResult.SUCCESS) :
    0 < (compressFolder fs z w s inputFolder outputFolder).2.2.original_size ∧
    (compressFolder fs z w s inputFolder outputFolder).2.2.compression_ratio =
      Ratio.finite
        (((compressFolder fs z w s inputFolder outputFolder).2.2.compressed_size : ℚ) /
          ((compressFolder fs z w s inputFolder outputFolder).2.2.original_size : ℚ)) := by
  rcases hcc : cannotCreate fs w outputFolder with ⟨w1, r⟩
  rcases r with msg | b
  · simp [compressFolder, hcc, CompressionResult.ofCode] at h
  · cases b
    · have inv := foldl_invariant
        (fun st : CompressLoop W => 0 < st.success_count → 0 < st.total_original)
        (compressFolderStep fs z outputFolder)
        (fun st x hst => compressFolderStep_invariant fs z outputFolder st x hst)
        (getImageFiles fs w1 inputFolder)
        { world := w1, compressor := s, total_original := 0, total_compressed := 0,
          success_count := 0 }
        (fun h0 => absurd h0 (Nat.lt_irrefl 0))
      cases ht : ((getImageFiles fs w1 inputFolder).foldl
          (compressFolderStep fs z outputFolder)
          { world := w1, compressor := s, total_original := 0, total_compressed := 0,
            success_count := 0 }).thrown with
      | some msg => simp [compressFolder, hcc, ht, CompressionResult.ofCode] at h
      | none =>
        by_cases hcount : ((getImageFiles fs w1 inputFolder).foldl
            (compressFolderStep fs z outputFolder)
            { world := w1, compressor := s, total_original := 0, total_compressed := 0,
              success_count := 0 }).success_count = 0
        · simp [compressFolder, hcc, ht, hcount, CompressionResult.ofCode] at h
        · have hpos := inv (Nat.pos_of_ne_zero hcount)
          simp only [compressFolder, hcc, ht, hcount, if_false]
          exact ⟨hpos, divSizes_of_pos _ _ hpos⟩
    · simp [compressFolder, hcc, CompressionResult.ofCode] at h

/-- A successful `decompressFolder` returns `CompressionResult(SUCCESS)`:
both sizes are 0 and the ratio is the initial `0.0`. -/
theorem decompressFolder_success_shape {W : Type} (fs : FileSystem W) (z : Zstd) (w : W)
    (s : ImageCompressor) (inputFolder outputFolder : String)
    (h : (decompressFolder fs z w s inputFolder outputFolder).2.2.result_code =
      CompressResult.SUCCESS) :
    (decompressFolder fs z w s inputFolder outputFolder).2.2 =
      CompressionResult.ofCode CompressResult.SUCCESS := by
  rcases hcc : cannotCreate fs w outputFolder with ⟨w1, r⟩
  rcases r with msg | b
  · simp [decompressFolder, hcc, CompressionResult.ofCode] at h
  · cases b
    · rcases hdi : fs.directory_iterator w1 inputFolder with ⟨entries, thrown⟩
      cases ht : (entries.foldl (decompressFolderStep fs z outputFolder)
          { world := w1, compressor := s, success_count := 0 }).thrown with
      | some msg => simp [decompressFolder, hcc, hdi, ht, CompressionResult.ofCode] at h
      | none =>
        cases thrown
        · by_cases hcount : (entries.foldl (decompressFolderStep fs z outputFolder)
              { world := w1, compressor := s, success_count := 0 }).success_count = 0
          · simp [decompressFolder, hcc, hdi, ht, hcount, CompressionResult.ofCode] at h
          · simp [decompressFolder, hcc, hdi, ht, hcount]
        · simp [decompressFolder, hcc, hdi, ht, CompressionResult.ofCode] at h
    · simp [decompressFolder, hcc, CompressionResult.ofCode] at h

/-- A successful `decompress` reports the recorded content size as
`original_size`, the length of the buffer as `compressed_size`, and their
`double` quotient as ratio. -/
theorem decompress_success_shape (z : Zstd) (s : ImageCompressor) (bytes : List Byte)
    (h : (decompress z s bytes).2.result_code = CompressResult.SUCCESS) :
    (decompress z s bytes).2.original_size = z.getFrameContentSize bytes ∧
    (decompress z s bytes).2.compressed_size = bytes.length ∧
    (decompress z s bytes).2.compression_ratio =
      divSizes (decompress z s bytes).2.compressed_size (decompress z s bytes).2.original_size := by
  rw [decompress_eq] at h ⊢
  obtain ⟨h1, -, h3, h4⟩ := decompressInternal_success_shape z _ h
  exact ⟨h1, h3, h4⟩

/-- A frame whose header records the content size 0 and which the library
decompresses to nothing: `decompress` returns `SUCCESS` with
`original_size = 0`, and the ratio is a positive size divided by zero. -/
theorem decompress_zero_content_frame (z : Zstd) (s : ImageCompressor) (bytes : List Byte)
    (hd : (getContext z s).dctx = true) (hne : bytes ≠ [])
    (hsize : z.getFrameContentSize bytes = 0)
    (hdec : z.decompressDCtx 0 bytes = ZstdReturn.ok []) :
    (decompress z s bytes).2.result_code = CompressResult.SUCCESS ∧
    (decompress z s bytes).2.original_size = 0 ∧
    (decompress z s bytes).2.compression_ratio = Ratio.infinite := by
  have key := decompressInternal_success z { clearResults s with m_compressedData := bytes } []
    hd hne hsize (by decide) hdec
  rw [decompress_eq, key]
  refine ⟨rfl, rfl, ?_⟩
  have : bytes.length ≠ 0 := fun h0 => hne (List.length_eq_zero.1 h0)
  simp [divSizes, this]

/-- C6 at a failing input. The one-byte frame `0` of the stored-block codec
records the content size 0: `decompress` returns `SUCCESS` with
`original_size = 0` and `compressed_size = 1`, the ratio being 1 divided by
zero. -/
theorem decompress_success_with_zero_original_size :
    (decompress (storedZstd true true) (ctor 3) [0]).2.result_code = CompressResult.SUCCESS ∧
    (decompress (storedZstd true true) (ctor 3) [0]).2.original_size = 0 ∧
    (decompress (storedZstd true true) (ctor 3) [0]).2.compressed_size = 1 ∧
    (decompress (storedZstd true true) (ctor 3) [0]).2.compression_ratio = Ratio.infinite ∧
    getDecompressedData (decompress (storedZstd true true) (ctor 3) [0]).1 = [] :=
  ⟨rfl, rfl, rfl, rfl, rfl⟩

/-- C5 at two failing inputs. A folder holding one file, a frame of the
stored-block codec for the bytes `66 77`: `decompressFromFile` on the file
returns `SUCCESS` with sizes 2 and 3, `decompressFolder` on the folder
writes the decompressed file and returns `SUCCESS` with both sizes 0 and the
ratio `0.0`, which is not the quotient of the sizes it reports (zero by
zero). The one-byte frame `0`, which records the content size 0: `decompress`
returns `SUCCESS` with a ratio that is no rational number. -/
theorem success_without_rational_ratio :
    ((decompressFromFile memFs (storedZstd true true) [("z/a.zstd", [0, 66, 77])] (ctor 3)
        "z/a.zstd").2.original_size = 2 ∧
      (decompressFromFile memFs (storedZstd true true) [("z/a.zstd", [0, 66, 77])] (ctor 3)
        "z/a.zstd").2.compressed_size = 3 ∧
      (decompressFolder memFs (storedZstd true true) [("z/a.zstd", [0, 66, 77])] (ctor 3)
        "z" "out").1 = [("out/a.bmp", [66, 77]), ("z/a.zstd", [0, 66, 77])] ∧
      (decompressFolder memFs (storedZstd true true) [("z/a.zstd", [0, 66, 77])] (ctor 3)
        "z" "out").2.2.result_code = CompressResult.SUCCESS ∧
      (decompressFolder memFs (storedZstd true true) [("z/a.zstd", [0, 66, 77])] (ctor 3)
        "z" "out").2.2.original_size = 0 ∧
      (decompressFolder memFs (storedZstd true true) [("z/a.zstd", [0, 66, 77])] (ctor 3)
        "z" "out").2.2.compressed_size = 0 ∧
      (decompressFolder memFs (storedZstd true true) [("z/a.zstd", [0, 66, 77])] (ctor 3)
        "z" "out").2.2.compression_ratio = Ratio.finite 0 ∧
      (decompressFolder memFs (storedZstd true true) [("z/a.zstd", [0, 66, 77])] (ctor 3)
        "z" "out").2.2.compression_ratio ≠
        divSizes
          (decompressFolder memFs (storedZstd true true) [("z/a.zstd", [0, 66, 77])] (ctor 3)
            "z" "out").2.2.compressed_size
          (decompressFolder memFs (storedZstd true true) [("z/a.zstd", [0, 66, 77])] (ctor 3)
            "z" "out").2.2.original_size) ∧
    ((decompress (storedZstd true true) (ctor 3) [0]).2.result_code = CompressResult.SUCCESS ∧
      ∀ q : ℚ, (decompress (storedZstd true true) (ctor 3) [0]).2.compression_ratio ≠
        Ratio.finite q) := by
  refine ⟨⟨by decide, by decide, by decide, by decide, by decide, by decide, rfl, ?_⟩, rfl, ?_⟩
  · intro h
    have h2 : (decompressFolder memFs (storedZstd true true) [("z/a.zstd", [0, 66, 77])] (ctor 3)
        "z" "out").2.2.compression_ratio = Ratio.finite 0 := rfl
    have h3 : divSizes
        (decompressFolder memFs (storedZstd true true) [("z/a.zstd", [0, 66, 77])] (ctor 3)
          "z" "out").2.2.compressed_size
        (decompressFolder memFs (storedZstd true true) [("z/a.zstd", [0, 66, 77])] (ctor 3)
          "z" "out").2.2.original_size = Ratio.nan := rfl
    rw [h2, h3] at h
    cases h
  · intro q h
    have h2 : (decompress (storedZstd true true) (ctor 3) [0]).2.compression_ratio =
        Ratio.infinite := rfl
    rw [h2] at h
    cases h

/-! ### Output of a decompression -/

theorem decompressInternal_output (z : Zstd) (s : ImageCompressor)
    (hempty : s.m_decompressedData = []) :
    ((decompressInternal z s).2.result_code ≠ CompressResult.SUCCESS →
      (decompressInternal z s).1.m_decompressedData = []) ∧
    ((decompressInternal z s).2.result_code = CompressResult.SUCCESS →
      (decompressInternal z s).1.m_decompressedData.length =
        (decompressInternal z s).2.original_size) := by
  refine ⟨?_, fun h => ((decompressInternal_success_shape z s h).2.1).symm⟩
  intro h
  cases hd : (getContext z s).dctx
  · rw [decompressInternal_no_dctx z s hd]; exact hempty
  · by_cases he : s.m_compressedData = []
    · rw [decompressInternal_empty z s hd he]; exact hempty
    · by_cases hh : z.getFrameContentSize s.m_compressedData = ZSTD_CONTENTSIZE_UNKNOWN ∨
          z.getFrameContentSize s.m_compressedData = ZSTD_CONTENTSIZE_ERROR
      · rw [decompressInternal_no_hint z s hd he hh]; exact hempty
      · simp only [not_or] at hh
        have he2 : s.m_compressedData.isEmpty = false := (isEmpty_eq_false_iff _).2 he
        cases hw : z.decompressDCtx (z.getFrameContentSize s.m_compressedData) s.m_compressedData
        · simp [decompressInternal, hd, he2, hh.1, hh.2, hw]
        · next written =>
          by_cases hl : written.length = z.getFrameContentSize s.m_compressedData
          · simp [decompressInternal, hd, he2, hh.1, hh.2, hw, hl] at h
          · simp [decompressInternal, hd, he2, hh.1, hh.2, hw, hl]

theorem decompressFromFile_output {W : Type} (fs : FileSystem W) (z : Zstd) (w : W)
    (s : ImageCompressor) (filename : String) :
    ((decompressFromFile fs z w s filename).2.result_code ≠ CompressResult.SUCCESS →
      (decompressFromFile fs z w s filename).1.m_decompressedData = []) ∧
    ((decompressFromFile fs z w s filename).2.result_code = CompressResult.SUCCESS →
      (decompressFromFile fs z w s filename).1.m_decompressedData.length =
        (decompressFromFile fs z w s filename).2.original_size) := by
  cases ho : (fs.ifstream w filename).is_open
  · simp [decompressFromFile, ho, clearResults, CompressionResult.ofCode]
  · by_cases ht : (fs.ifstream w filename).tellg ≤ 0
    · simp [decompressFromFile, ho, ht, clearResults, CompressionResult.ofCode]
    · cases hr : ((fs.ifstream w filename).read (fs.ifstream w filename).tellg.toNat).2
      · simp [decompressFromFile, ho, ht, hr, clearResults, CompressionResult.ofCode]
      · have key := decompressInternal_output z
          { clearResults s with
            m_compressedData :=
              ((fs.ifstream w filename).read (fs.ifstream w filename).tellg.toNat).1.val } rfl
        simpa [decompressFromFile, ho, ht, hr] using key

/-- C20. In every compressor state and for every input, when `decompress` or
`decompressFromFile` returns a code other than `SUCCESS`,
`getDecompressedData()` is empty afterwards, and when it returns `SUCCESS`,
the length of `getDecompressedData()` is the `original_size` of the result. -/
theorem decompression_output {W : Type} (fs : FileSystem W) (z : Zstd) (w : W)
    (s : ImageCompressor) (bytes : List Byte) (filename : String) :
    ((decompress z s bytes).2.result_code ≠ CompressResult.SUCCESS →
      getDecompressedData (decompress z s bytes).1 = []) ∧
    ((decompress z s bytes).2.result_code = CompressResult.SUCCESS →
      (getDecompressedData (decompress z s bytes).1).length =
        (decompress z s bytes).2.original_size) ∧
    ((decompressFromFile fs z w s filename).2.result_code ≠ CompressResult.SUCCESS →
      getDecompressedData (decompressFromFile fs z w s filename).1 = []) ∧
    ((decompressFromFile fs z w s filename).2.result_code = CompressResult.SUCCESS →
      (getDecompressedData (decompressFromFile fs z w s filename).1).length =
        (decompressFromFile fs z w s filename).2.original_size) :=
  ⟨(decompressInternal_output z { clearResults s with m_compressedData := bytes } rfl).1,
   (decompressInternal_output z { clearResults s with m_compressedData := bytes } rfl).2,
   (decompressFromFile_output fs z w s filename).1,
   (decompressFromFile_output fs z w s filename).2⟩

theorem decompression_output_witness :
    (getDecompressedData
        (decompress (storedZstd true true) { ctor 3 with m_decompressedData := [9, 9] }
          [1, 66, 77]).1 = [] ∧
      (getDecompressedData
        (decompress (storedZstd true true) { ctor 3 with m_decompressedData := [9, 9] }
          [0, 66, 77]).1).length =
        (decompress (storedZstd true true) { ctor 3 with m_decompressedData := [9, 9] }
          [0, 66, 77]).2.original_size) ∧
    (getDecompressedData
        (decompressFromFile memFs (storedZstd true true) [("a.zstd", [1, 66, 77])]
          { ctor 3 with m_decompressedData := [9, 9] } "a.zstd").1 = [] ∧
      (getDecompressedData
        (decompressFromFile memFs (storedZstd true true) [("b.zstd", [0, 66, 77])]
          { ctor 3 with m_decompressedData := [9, 9] } "b.zstd").1).length =
        (decompressFromFile memFs (storedZstd true true) [("b.zstd", [0, 66, 77])]
          { ctor 3 with m_decompressedData := [9, 9] } "b.zstd").2.original_size) :=
  ⟨⟨(decompression_output memFs (storedZstd true true) []
        { ctor 3 with m_decompressedData := [9, 9] } [1, 66, 77] "a.zstd").1 (by decide),
    (decompression_output memFs (storedZstd true true) []
        { ctor 3 with m_decompressedData := [9, 9] } [0, 66, 77] "a.zstd").2.1 (by decide)⟩,
   ⟨(decompression_output memFs (storedZstd true true) [("a.zstd", [1, 66, 77])]
        { ctor 3 with m_decompressedData := [9, 9] } [] "a.zstd").2.2.1 (by decide),
    (decompression_output memFs (storedZstd true true) [("b.zstd", [0, 66, 77])]
        { ctor 3 with m_decompressedData := [9, 9] } [] "b.zstd").2.2.2 (by decide)⟩⟩

/-! ### Sizes reported by a compression -/

theorem storedZstd_respects_capacity (cctxOk dctxOk : Bool) :
    (storedZstd cctxOk dctxOk).RespectsCapacity := by
  intro level nbWorkers dstCapacity src written h
  simp only [storedZstd] at h
  split_ifs at h with hcap
  cases h
  simpa using hcap

theorem compressInternal_keeps_original (z : Zstd) (s : ImageCompressor) :
    (compressInternal z s).1.m_originalData = s.m_originalData := by
  cases hc : (getContext z s).cctx
  · simp [compressInternal, hc]
  · cases hw : z.compress2 s.m_level s.m_num_threads (z.compressBound s.m_originalData.length)
        s.m_originalData <;> simp [compressInternal, hc, hw]

/-- C16. Whenever `compress()` returns `SUCCESS`, `original_size` is the
length of the loaded original data, `compressed_size` is the length of
`getCompressedData()`, which holds the bytes the compression primitive
reported as written, and, the primitive keeping within its destination
capacity, `compressed_size` is at most `ZSTD_compressBound` of the input
size. -/
theorem compress_reports_buffer_lengths (z : Zstd) (hcap : z.RespectsCapacity)
    (s : ImageCompressor) (h : (compress z s).2.result_code = CompressResult.SUCCESS) :
    (compress z s).2.original_size = s.m_originalData.length ∧
    (compress z s).1.m_originalData = s.m_originalData ∧
    (compress z s).2.compressed_size = (getCompressedData (compress z s).1).length ∧
    z.compress2 s.m_level s.m_num_threads (z.compressBound s.m_originalData.length)
      s.m_originalData = ZstdReturn.ok (getCompressedData (compress z s).1) ∧
    (compress z s).2.compressed_size ≤ z.compressBound s.m_originalData.length := by
  obtain ⟨-, heq⟩ := compress_success_nonempty z s h
  rw [heq] at h ⊢
  obtain ⟨ho, hc, -⟩ := compressInternal_success_sizes z s h
  obtain ⟨hframe, -⟩ := compressInternal_success_frame z s h
  refine ⟨ho, compressInternal_keeps_original z s, hc, hframe, ?_⟩
  rw [hc]
  exact hcap _ _ _ _ _ hframe

theorem compress_reports_buffer_lengths_witness :
    (compress (storedZstd true true) { ctor 3 with m_originalData := [66, 77] }).2.original_size
      = 2 ∧
    (compress (storedZstd true true) { ctor 3 with m_originalData := [66, 77] }).2.compressed_size
      = (getCompressedData
          (compress (storedZstd true true) { ctor 3 with m_originalData := [66, 77] }).1).length ∧
    (compress (storedZstd true true) { ctor 3 with m_originalData := [66, 77] }).2.compressed_size
      ≤ 3 :=
  ⟨(compress_reports_buffer_lengths (storedZstd true true) (storedZstd_respects_capacity true true)
      { ctor 3 with m_originalData := [66, 77] } rfl).1,
   (compress_reports_buffer_lengths (storedZstd true true) (storedZstd_respects_capacity true true)
      { ctor 3 with m_originalData := [66, 77] } rfl).2.2.1,
   (compress_reports_buffer_lengths (storedZstd true true) (storedZstd_respects_capacity true true)
      { ctor 3 with m_originalData := [66, 77] } rfl).2.2.2.2⟩

/-! ### Compressing after a failed load -/

/-- A `loadImage` that fails before it reads anything (the stream does not
open or reports no positive size; the decoded image is null or empty, or
cannot be encoded) returns false and leaves the held original data as it
was. -/
theorem failed_load_keeps_original_data {W : Type} (fs : FileSystem W) (w : W)
    (s : ImageCompressor) (filename : String) (image : QImage) (mat : Mat) :
    (((fs.ifstream w filename).is_open = false ∨ (fs.ifstream w filename).tellg ≤ 0) →
      (loadImage fs w s filename).2 = false ∧
      (loadImage fs w s filename).1.m_originalData = s.m_originalData) ∧
    ((loadImageQImage s image).2 = false →
      (loadImageQImage s image).1.m_originalData = s.m_originalData) ∧
    ((loadImageMat s mat).2 = false →
      (loadImageMat s mat).1.m_originalData = s.m_originalData) := by
  refine ⟨?_, ?_, ?_⟩
  · intro h
    cases ho : (fs.ifstream w filename).is_open
    · simp [loadImage, loadImageFile, ho, clearResults]
    · rcases h with h | h
      · rw [ho] at h; cases h
      · simp [loadImage, loadImageFile, ho, h, clearResults]
  · cases hn : image.isNull
    · cases hs : image.save (qtFormatName s.m_format) <;>
        simp [loadImageQImage, convertToImageDataQImage, hn, hs, clearResults]
    · simp [loadImageQImage, convertToImageDataQImage, hn, clearResults]
  · cases hn : mat.empty
    · cases hs : mat.imencode (cvExtension s.m_format) <;>
        simp [loadImageMat, convertToImageDataMat, hn, hs, clearResults]
    · simp [loadImageMat, convertToImageDataMat, hn, clearResults]

/-- A `loadImage` that returns false after it emptied the held data (the
bytes given are empty; the read of the file fails) is followed by a
`compress()` that returns `ERROR_EMPTY_DATA`. -/
theorem compress_after_emptying_load {W : Type} (fs : FileSystem W) (z : Zstd) (w : W)
    (s : ImageCompressor) (filename : String) :
    (compress z (loadImageData s []).1).2.result_code = CompressResult.ERROR_EMPTY_DATA ∧
    ((fs.ifstream w filename).is_open = true → 0 < (fs.ifstream w filename).tellg →
      ((fs.ifstream w filename).read (fs.ifstream w filename).tellg.toNat).2 = false →
      (compress z (loadImage fs w s filename).1).2.result_code =
        CompressResult.ERROR_EMPTY_DATA) := by
  refine ⟨by simp [compress, loadImageData, CompressionResult.ofCode], ?_⟩
  intro ho ht hr
  have ht' : ¬ (fs.ifstream w filename).tellg ≤ 0 := by omega
  simp [compress, loadImage, loadImageFile, ho, ht', hr, CompressionResult.ofCode]

/-- C15 at two failing inputs. The bytes `66 77` are loaded, then a
`loadImage` returns false, for a null `QImage` and for a path that cannot be
opened; the `compress()` that follows returns `SUCCESS` and has compressed
the two bytes of the earlier load. -/
theorem compress_after_failed_load_uses_stale_data :
    ((loadImageQImage (loadImageData (ctor 3) [66, 77]).1 QImage.null).2 = false ∧
      (compress (storedZstd true true)
        (loadImageQImage (loadImageData (ctor 3) [66, 77]).1 QImage.null).1).2.result_code =
        CompressResult.SUCCESS ∧
      (compress (storedZstd true true)
        (loadImageQImage (loadImageData (ctor 3) [66, 77]).1 QImage.null).1).2.original_size = 2 ∧
      getCompressedData (compress (storedZstd true true)
        (loadImageQImage (loadImageData (ctor 3) [66, 77]).1 QImage.null).1).1 = [0, 66, 77]) ∧
    ((loadImage memFs [] (loadImageData (ctor 3) [66, 77]).1 "missing.bmp").2 = false ∧
      (compress (storedZstd true true)
        (loadImage memFs [] (loadImageData (ctor 3) [66, 77]).1 "missing.bmp").1).2.result_code =
        CompressResult.SUCCESS ∧
      (compress (storedZstd true true)
        (loadImage memFs [] (loadImageData (ctor 3) [66, 77]).1 "missing.bmp").1).2.original_size
        = 2 ∧
      getCompressedData (compress (storedZstd true true)
        (loadImage memFs [] (loadImageData (ctor 3) [66, 77]).1 "missing.bmp").1).1
        = [0, 66, 77]) := by
  refine ⟨⟨rfl, rfl, rfl, rfl⟩, ⟨?_, ?_, ?_, ?_⟩⟩ <;> decide

/-! ### Iterations of a batch -/

theorem compressFolderStep_of_thrown {W : Type} (fs : FileSystem W) (z : Zstd)
    (outputFolder : String) (st : CompressLoop W) (file : String) (h : st.thrown ≠ none) :
    compressFolderStep fs z outputFolder st file = st := by
  cases ht : st.thrown with
  | none => exact absurd ht h
  | some msg => simp [compressFolderStep, ht]

theorem decompressFolderStep_of_thrown {W : Type} (fs : FileSystem W) (z : Zstd)
    (outputFolder : String) (st : DecompressLoop W) (entry : DirEntry) (h : st.thrown ≠ none) :
    decompressFolderStep fs z outputFolder st entry = st := by
  cases ht : st.thrown with
  | none => exact absurd ht h
  | some msg => simp [decompressFolderStep, ht]

/-- The exception that leaves an iteration of the loop of `compressFolder` is
the one that leaves `loadImage` or, when `loadImage` returned true, the one
that leaves `compressInternal`. -/
theorem compressFolderStep_thrown {W : Type} (fs : FileSystem W) (z : Zstd)
    (outputFolder : String) (st : CompressLoop W) (file : String) :
    (compressFolderStep fs z outputFolder st file).thrown =
      if st.thrown = none then
        (if (loadImageOutcome fs st.world st.compressor file).value = some true then
          (compressInternalOutcome (fs.vector_resize st.world) z
            (loadImageOutcome fs st.world st.compressor file).compressor).thrown
        else (loadImageOutcome fs st.world st.compressor file).thrown)
      else st.thrown := by
  cases ht : st.thrown with
  | some msg => simp [compressFolderStep, ht]
  | none =>
    rcases hL : loadImageOutcome fs st.world st.compressor file with ⟨s1, loaded⟩ | ⟨s1, what⟩
    · cases loaded
      · simp [compressFolderStep, ht, hL, Outcome.value, Outcome.compressor, Outcome.thrown]
      · rcases hC : compressInternalOutcome (fs.vector_resize st.world) z s1
          with ⟨s2, result⟩ | ⟨s2, what⟩
        · cases hs : result.success
          · simp [compressFolderStep, ht, hL, hC, hs, Outcome.value, Outcome.compressor,
              Outcome.thrown]
          · rcases hS : saveCompressedData fs st.world s2
                (compressOutputFile outputFolder file) with ⟨w1, saved⟩
            cases saved <;>
              simp [compressFolderStep, ht, hL, hC, hs, hS, Outcome.value, Outcome.compressor,
                Outcome.thrown]
        · simp [compressFolderStep, ht, hL, hC, Outcome.value, Outcome.compressor,
            Outcome.thrown]
    · simp [compressFolderStep, ht, hL, Outcome.value, Outcome.compressor, Outcome.thrown]

/-- The exception that leaves an iteration of the loop of `decompressFolder`
is the one that leaves `decompressFromFile`. -/
theorem decompressFolderStep_thrown {W : Type} (fs : FileSystem W) (z : Zstd)
    (outputFolder : String) (st : DecompressLoop W) (entry : DirEntry) :
    (decompressFolderStep fs z outputFolder st entry).thrown =
      if st.thrown = none ∧ (entry.is_regular_file && isCompressedFile entry.path) = true then
        (decompressFromFileOutcome fs z st.world st.compressor entry.path).thrown
      else st.thrown := by
  cases ht : st.thrown with
  | some msg => simp [decompressFolderStep, ht]
  | none =>
    cases hsel : (entry.is_regular_file && isCompressedFile entry.path)
    · simp [decompressFolderStep, ht, hsel]
    · rcases hD : decompressFromFileOutcome fs z st.world st.compressor entry.path
        with ⟨s1, result⟩ | ⟨s1, what⟩
      · cases hs : result.success
        · simp [decompressFolderStep, ht, hsel, hD, hs, Outcome.thrown]
        · rcases hS : saveDecompressedImage fs st.world s1
              (decompressOutputFile outputFolder entry.path) with ⟨w1, saved⟩
          cases saved <;> simp [decompressFolderStep, ht, hsel, hD, hs, hS, Outcome.thrown]
      · simp [decompressFolderStep, ht, hsel, hD, Outcome.thrown]

/-- The compressor after an iteration of the loop of `compressFolder`: the one
`loadImage` leaves, or the one `compressInternal` leaves when `loadImage`
returned true. -/
theorem compressFolderStep_compressor {W : Type} (fs : FileSystem W) (z : Zstd)
    (outputFolder : String) (st : CompressLoop W) (file : String) (h : st.thrown = none) :
    (compressFolderStep fs z outputFolder st file).compressor =
      if (loadImageOutcome fs st.world st.compressor file).value = some true then
        (compressInternalOutcome (fs.vector_resize st.world) z
          (loadImageOutcome fs st.world st.compressor file).compressor).compressor
      else (loadImageOutcome fs st.world st.compressor file).compressor := by
  cases ht : st.thrown with
  | some msg => rw [h] at ht; cases ht
  | none =>
    rcases hL : loadImageOutcome fs st.world st.compressor file with ⟨s1, loaded⟩ | ⟨s1, what⟩
    · cases loaded
      · simp [compressFolderStep, ht, hL, Outcome.value, Outcome.compressor, Outcome.thrown]
      · rcases hC : compressInternalOutcome (fs.vector_resize st.world) z s1
          with ⟨s2, result⟩ | ⟨s2, what⟩
        · cases hs : result.success
          · simp [compressFolderStep, ht, hL, hC, hs, Outcome.value, Outcome.compressor,
              Outcome.thrown]
          · rcases hS : saveCompressedData fs st.world s2
                (compressOutputFile outputFolder file) with ⟨w1, saved⟩
            cases saved <;>
              simp [compressFolderStep, ht, hL, hC, hs, hS, Outcome.value, Outcome.compressor,
                Outcome.thrown]
        · simp [compressFolderStep, ht, hL, hC, Outcome.value, Outcome.compressor,
            Outcome.thrown]
    · simp [compressFolderStep, ht, hL, Outcome.value, Outcome.compressor, Outcome.thrown]

/-- The world after an iteration of the loop of `compressFolder`: the one
`saveCompressedData(outputFile)` leaves when the file was loaded and
compressed, the one before the iteration otherwise. -/
theorem compressFolderStep_world {W : Type} (fs : FileSystem W) (z : Zstd)
    (outputFolder : String) (st : CompressLoop W) (file : String) :
    (compressFolderStep fs z outputFolder st file).world =
      if st.thrown = none ∧
          (loadImageOutcome fs st.world st.compressor file).value = some true ∧
          (compressInternalOutcome (fs.vector_resize st.world) z
            (loadImageOutcome fs st.world st.compressor file).compressor).value.map
              CompressionResult.success = some true
      then
        (saveCompressedData fs st.world
            (compressInternalOutcome (fs.vector_resize st.world) z
              (loadImageOutcome fs st.world st.compressor file).compressor).compressor
            (compressOutputFile outputFolder file)).1
      else st.world := by
  cases ht : st.thrown with
  | some msg => simp [compressFolderStep, ht]
  | none =>
    rcases hL : loadImageOutcome fs st.world st.compressor file with ⟨s1, loaded⟩ | ⟨s1, what⟩
    · cases loaded
      · simp [compressFolderStep, ht, hL, Outcome.value, Outcome.compressor, Outcome.thrown]
      · rcases hC : compressInternalOutcome (fs.vector_resize st.world) z s1
          with ⟨s2, result⟩ | ⟨s2, what⟩
        · cases hs : result.success
          · simp [compressFolderStep, ht, hL, hC, hs, Outcome.value, Outcome.compressor,
              Outcome.thrown]
          · rcases hS : saveCompressedData fs st.world s2
                (compressOutputFile outputFolder file) with ⟨w1, saved⟩
            cases saved <;>
              simp [compressFolderStep, ht, hL, hC, hs, hS, Outcome.value, Outcome.compressor,
                Outcome.thrown]
        · simp [compressFolderStep, ht, hL, hC, Outcome.value, Outcome.compressor,
            Outcome.thrown]
    · simp [compressFolderStep, ht, hL, Outcome.value, Outcome.compressor, Outcome.thrown]

/-- One iteration of the loop of `compressFolder` adds one to `success_count`
when the file was loaded, compressed and saved, and leaves it alone
otherwise. -/
theorem compressFolderStep_count {W : Type} (fs : FileSystem W) (z : Zstd)
    (outputFolder : String) (st : CompressLoop W) (file : String) :
    (compressFolderStep fs z outputFolder st file).success_count =
      if st.thrown = none ∧
          (loadImageOutcome fs st.world st.compressor file).value = some true ∧
          (compressInternalOutcome (fs.vector_resize st.world) z
            (loadImageOutcome fs st.world st.compressor file).compressor).value.map
              CompressionResult.success = some true ∧
          (saveCompressedData fs st.world
            (compressInternalOutcome (fs.vector_resize st.world) z
              (loadImageOutcome fs st.world st.compressor file).compressor).compressor
            (compressOutputFile outputFolder file)).2 = true
      then st.success_count + 1 else st.success_count := by
  cases ht : st.thrown with
  | some msg => simp [compressFolderStep, ht]
  | none =>
    rcases hL : loadImageOutcome fs st.world st.compressor file with ⟨s1, loaded⟩ | ⟨s1, what⟩
    · cases loaded
      · simp [compressFolderStep, ht, hL, Outcome.value, Outcome.compressor, Outcome.thrown]
      · rcases hC : compressInternalOutcome (fs.vector_resize st.world) z s1
          with ⟨s2, result⟩ | ⟨s2, what⟩
        · cases hs : result.success
          · simp [compressFolderStep, ht, hL, hC, hs, Outcome.value, Outcome.compressor,
              Outcome.thrown]
          · rcases hS : saveCompressedData fs st.world s2
                (compressOutputFile outputFolder file) with ⟨w1, saved⟩
            cases saved <;>
              simp [compressFolderStep, ht, hL, hC, hs, hS, Outcome.value, Outcome.compressor,
                Outcome.thrown]
        · simp [compressFolderStep, ht, hL, hC, Outcome.value, Outcome.compressor,
            Outcome.thrown]
    · simp [compressFolderStep, ht, hL, Outcome.value, Outcome.compressor, Outcome.thrown]

/-- One iteration of the loop of `decompressFolder` adds one to
`success_count` when the entry is a compressed file that was decompressed
and saved, and leaves it alone otherwise. -/
theorem decompressFolderStep_count {W : Type} (fs : FileSystem W) (z : Zstd)
    (outputFolder : String) (st : DecompressLoop W) (entry : DirEntry) :
    (decompressFolderStep fs z outputFolder st entry).success_count =
      if st.thrown = none ∧ (entry.is_regular_file && isCompressedFile entry.path) = true ∧
          (decompressFromFileOutcome fs z st.world st.compressor entry.path).value.map
            CompressionResult.success = some true ∧
          (saveDecompressedImage fs st.world
            (decompressFromFileOutcome fs z st.world st.compressor entry.path).compressor
            (decompressOutputFile outputFolder entry.path)).2 = true
      then st.success_count + 1 else st.success_count := by
  cases ht : st.thrown with
  | some msg => simp [decompressFolderStep, ht]
  | none =>
    cases hsel : (entry.is_regular_file && isCompressedFile entry.path)
    · simp [decompressFolderStep, ht, hsel]
    · rcases hD : decompressFromFileOutcome fs z st.world st.compressor entry.path
        with ⟨s1, result⟩ | ⟨s1, what⟩
      · cases hs : result.success
        · simp [decompressFolderStep, ht, hsel, hD, hs, Outcome.value, Outcome.compressor]
        · rcases hS : saveDecompressedImage fs st.world s1
              (decompressOutputFile outputFolder entry.path) with ⟨w1, saved⟩
          cases saved <;>
            simp [decompressFolderStep, ht, hsel, hD, hs, hS, Outcome.value, Outcome.compressor]
      · simp [decompressFolderStep, ht, hsel, hD, Outcome.value, Outcome.compressor]

/-- One iteration of the loop of `compressFolder` adds the sizes of the
file's result to the totals when the file was compressed and saved, and
leaves the totals alone otherwise. -/
theorem compressFolderStep_totals {W : Type} (fs : FileSystem W) (z : Zstd)
    (outputFolder : String) (st : CompressLoop W) (file : String) :
    (compressFolderStep fs z outputFolder st file).total_original =
      (if st.thrown = none ∧
          (loadImageOutcome fs st.world st.compressor file).value = some true ∧
          (compressInternalOutcome (fs.vector_resize st.world) z
            (loadImageOutcome fs st.world st.compressor file).compressor).value.map
              CompressionResult.success = some true ∧
          (saveCompressedData fs st.world
            (compressInternalOutcome (fs.vector_resize st.world) z
              (loadImageOutcome fs st.world st.compressor file).compressor).compressor
            (compressOutputFile outputFolder file)).2 = true
      then st.total_original +
        (compressInternal z
          (loadImageOutcome fs st.world st.compressor file).compressor).2.original_size
      else st.total_original) ∧
    (compressFolderStep fs z outputFolder st file).total_compressed =
      (if st.thrown = none ∧
          (loadImageOutcome fs st.world st.compressor file).value = some true ∧
          (compressInternalOutcome (fs.vector_resize st.world) z
            (loadImageOutcome fs st.world st.compressor file).compressor).value.map
              CompressionResult.success = some true ∧
          (saveCompressedData fs st.world
            (compressInternalOutcome (fs.vector_resize st.world) z
              (loadImageOutcome fs st.world st.compressor file).compressor).compressor
            (compressOutputFile outputFolder file)).2 = true
      then st.total_compressed +
        (compressInternal z
          (loadImageOutcome fs st.world st.compressor file).compressor).2.compressed_size
      else st.total_compressed) := by
  cases ht : st.thrown with
  | some msg => simp [compressFolderStep, ht]
  | none =>
    rcases hL : loadImageOutcome fs st.world st.compressor file with ⟨s1, loaded⟩ | ⟨s1, what⟩
    · cases loaded
      · simp [compressFolderStep, ht, hL, Outcome.value, Outcome.compressor]
      · rcases hC : compressInternalOutcome (fs.vector_resize st.world) z s1
          with ⟨s2, result⟩ | ⟨s2, what⟩
        · have hres : (compressInternal z s1).2 = result := by
            rcases compressInternalOutcome_cases (fs.vector_resize st.world) z s1
              with h1 | ⟨what, h1, _⟩
            · rw [h1] at hC
              injection hC
            · rw [h1] at hC
              cases hC
          cases hs : result.success
          · simp [compressFolderStep, ht, hL, hC, hs, Outcome.value, Outcome.compressor]
          · rcases hS : saveCompressedData fs st.world s2
                (compressOutputFile outputFolder file) with ⟨w1, saved⟩
            cases saved <;>
              simp [compressFolderStep, ht, hL, hC, hs, hS, hres, Outcome.value,
                Outcome.compressor]
        · simp [compressFolderStep, ht, hL, hC, Outcome.value, Outcome.compressor]
    · simp [compressFolderStep, ht, hL, Outcome.value, Outcome.compressor]

/-- Once an exception has left the body of the loop of `compressFolder` it
stays recorded: when none is recorded after the files `l`, none was before
them. -/
theorem compressLoop_thrown_none {W : Type} (fs : FileSystem W) (z : Zstd)
    (outputFolder : String) (l : List String) (st : CompressLoop W)
    (h : (l.foldl (compressFolderStep fs z outputFolder) st).thrown = none) :
    st.thrown = none := by
  induction l generalizing st with
  | nil => exact h
  | cons x xs ih =>
    have h1 := ih (compressFolderStep fs z outputFolder st x) h
    rw [compressFolderStep_thrown] at h1
    by_cases hst : st.thrown = none
    · exact hst
    · rw [if_neg hst] at h1
      exact h1

theorem decompressLoop_thrown_none {W : Type} (fs : FileSystem W) (z : Zstd)
    (outputFolder : String) (l : List DirEntry) (st : DecompressLoop W)
    (h : (l.foldl (decompressFolderStep fs z outputFolder) st).thrown = none) :
    st.thrown = none := by
  induction l generalizing st with
  | nil => exact h
  | cons x xs ih =>
    have h1 := ih (decompressFolderStep fs z outputFolder st x) h
    rw [decompressFolderStep_thrown] at h1
    by_cases hst : st.thrown = none
    · exact hst
    · rw [if_neg (fun hc => hst hc.1)] at h1
      exact h1

/-- The loop of `compressFolder` counts at most one file for each iteration. -/
theorem compressLoop_count_le {W : Type} (fs : FileSystem W) (z : Zstd)
    (outputFolder : String) (l : List String) (st : CompressLoop W) :
    (l.foldl (compressFolderStep fs z outputFolder) st).success_count ≤
      st.success_count + l.length := by
  induction l generalizing st with
  | nil => simp
  | cons x xs ih =>
    have h1 := ih (compressFolderStep fs z outputFolder st x)
    have h2 : (compressFolderStep fs z outputFolder st x).success_count ≤
        st.success_count + 1 := by
      rw [compressFolderStep_count]
      split_ifs <;> omega
    simp only [List.foldl_cons, List.length_cons]
    omega

/-- On a machine where no `resize` throws, no exception leaves the body of
the loop of `compressFolder`. -/
theorem compressLoop_never_thrown {W : Type} (fs : FileSystem W) (z : Zstd)
    (outputFolder : String) (hmem : ∀ w n, fs.vector_resize w n = none) (l : List String)
    (st : CompressLoop W) (h : st.thrown = none) :
    (l.foldl (compressFolderStep fs z outputFolder) st).thrown = none := by
  refine foldl_invariant (fun st : CompressLoop W => st.thrown = none)
    (compressFolderStep fs z outputFolder) ?_ l st h
  intro st x hst
  rw [compressFolderStep_thrown, if_pos hst]
  have hl : loadImageOutcome fs st.world st.compressor x =
      Outcome.returns (loadImage fs st.world st.compressor x).1
        (loadImage fs st.world st.compressor x).2 :=
    loadImageFileOutcome_returns fs st.world _ x (fun _ _ => hmem _ _)
  rw [hl, compressInternalOutcome_returns _ z _ (hmem _ _)]
  split_ifs <;> rfl

/-- On a machine where no `resize` throws, no exception leaves the body of
the loop of `decompressFolder`. -/
theorem decompressLoop_never_thrown {W : Type} (fs : FileSystem W) (z : Zstd)
    (outputFolder : String) (hmem : ∀ w n, fs.vector_resize w n = none) (l : List DirEntry)
    (st : DecompressLoop W) (h : st.thrown = none) :
    (l.foldl (decompressFolderStep fs z outputFolder) st).thrown = none := by
  refine foldl_invariant (fun st : DecompressLoop W => st.thrown = none)
    (decompressFolderStep fs z outputFolder) ?_ l st h
  intro st x hst
  rw [decompressFolderStep_thrown]
  split_ifs
  · rw [decompressFromFileOutcome_returns fs z st.world _ x.path (hmem st.world)]
    rfl
  · exact hst

/-! ### The in-memory file system -/

theorem lookup_filter_ne (w : MemFiles) (p q : String) (h : q ≠ p) :
    (w.filter (fun f => f.1 != p)).lookup q = w.lookup q := by
  induction w with
  | nil => rfl
  | cons f rest ih =>
    rcases f with ⟨name, content⟩
    by_cases hn : name = p
    · subst hn
      have hq : (q == name) = false := by simpa using h
      simp [List.filter_cons, List.lookup_cons, hq, ih]
    · have hne : (name != p) = true := by simpa using hn
      simp only [List.filter_cons, hne, if_true, List.lookup_cons, ih]

/-- On `memFs` a save that returns true leaves the saved bytes at the path. -/
theorem memFs_save_lookup (w : MemFiles) (path : String) (data : List Byte) :
    (memFs.write (memFs.ofstream w path).1 path data).1.lookup path = some data := by
  simp [memFs, List.lookup_cons]

/-- On `memFs` opening a path for writing and writing to it leave every other
path as it was. -/
theorem memFs_save_lookup_ne (w : MemFiles) (path other : String) (data : List Byte)
    (h : other ≠ path) :
    (memFs.ofstream w path).1.lookup other = w.lookup other ∧
    (memFs.write (memFs.ofstream w path).1 path data).1.lookup other = w.lookup other := by
  have hq : (other == path) = false := by simpa using h
  constructor
  · simp only [memFs, List.lookup_cons, hq]
    exact lookup_filter_ne w path other h
  · simp only [memFs, List.lookup_cons, hq]
    rw [List.filter_cons]
    simp only [bne_self_eq_false, Bool.false_eq_true, if_false]
    rw [lookup_filter_ne _ path other h, lookup_filter_ne w path other h]

theorem saveCompressedData_memFs (w : MemFiles) (c : ImageCompressor) (path : String) :
    ((saveCompressedData memFs w c path).2 = true →
      (saveCompressedData memFs w c path).1.lookup path = some c.m_compressedData) ∧
    (∀ other : String, other ≠ path →
      (saveCompressedData memFs w c path).1.lookup other = w.lookup other) := by
  cases he : c.m_compressedData.isEmpty
  · have e : saveCompressedData memFs w c path =
        memFs.write (memFs.ofstream w path).1 path c.m_compressedData := by
      simp [saveCompressedData, he, memFs]
    rw [e]
    exact ⟨fun _ => memFs_save_lookup w path _,
      fun other h => (memFs_save_lookup_ne w path other _ h).2⟩
  · simp [saveCompressedData, he]

/-- On `memFs`, an iteration of the loop of `compressFolder` that counts its
file leaves the file's frame at `outputFile`, and every iteration leaves
every other path as it was. -/
theorem compressFolderStep_memFs (z : Zstd) (outputFolder : String)
    (st : CompressLoop MemFiles) (file : String) :
    ((compressFolderStep memFs z outputFolder st file).success_count = st.success_count + 1 →
      (compressFolderStep memFs z outputFolder st file).world.lookup
          (compressOutputFile outputFolder file) =
        some (compressFolderStep memFs z outputFolder st file).compressor.m_compressedData) ∧
    (∀ other : String, other ≠ compressOutputFile outputFolder file →
      (compressFolderStep memFs z outputFolder st file).world.lookup other =
        st.world.lookup other) := by
  cases ht : st.thrown with
  | some msg => simp [compressFolderStep, ht]
  | none =>
    rcases hL : loadImageOutcome memFs st.world st.compressor file
      with ⟨s1, loaded⟩ | ⟨s1, what⟩
    · cases loaded
      · simp [compressFolderStep, ht, hL]
      · rcases hC : compressInternalOutcome (memFs.vector_resize st.world) z s1
          with ⟨s2, result⟩ | ⟨s2, what⟩
        · cases hs : result.success
          · simp [compressFolderStep, ht, hL, hC, hs]
          · have hm := saveCompressedData_memFs st.world s2
              (compressOutputFile outputFolder file)
            rcases hS : saveCompressedData memFs st.world s2
                (compressOutputFile outputFolder file) with ⟨w1, saved⟩
            rw [hS] at hm
            cases saved
            · simpa [compressFolderStep, ht, hL, hC, hs, hS] using hm.2
            · simpa [compressFolderStep, ht, hL, hC, hs, hS] using hm
        · simp [compressFolderStep, ht, hL, hC]
    · simp [compressFolderStep, ht, hL]

/-- On `memFs`, the loop of `compressFolder` over the files `l` leaves every
path that is the `outputFile` of none of them as it was. -/
theorem compressLoop_memFs_untouched (z : Zstd) (outputFolder : String) (l : List String)
    (st : CompressLoop MemFiles) (other : String)
    (h : ∀ file ∈ l, other ≠ compressOutputFile outputFolder file) :
    (l.foldl (compressFolderStep memFs z outputFolder) st).world.lookup other =
      st.world.lookup other := by
  induction l generalizing st with
  | nil => rfl
  | cons x xs ih =>
    rw [List.foldl_cons, ih _ (fun file hf => h file (List.mem_cons_of_mem x hf))]
    exact (compressFolderStep_memFs z outputFolder st x).2 other
      (h x (List.mem_cons_self x xs))

/-! ### Files of a batch -/

theorem isImageFile_iff (filename : String) :
    isImageFile filename = true ↔
      String.mk (pathExtension filename.data) ∈
        [".bmp", ".png", ".jpg", ".jpeg", ".tiff", ".tif", ".webp"] := by
  simp [isImageFile, imageExtensions]

theorem getImageFiles_perm {W : Type} (fs : FileSystem W) (w : W) (folder : String) :
    (getImageFiles fs w folder).Perm
      (((fs.directory_iterator w folder).1.filter
        (fun entry => entry.is_regular_file && isImageFile entry.path)).map
        (fun entry => entry.path)) :=
  List.perm_insertionSort _ _

theorem compressFolder_loop {W : Type} (fs : FileSystem W) (z : Zstd) (w w1 : W)
    (s : ImageCompressor) (inputFolder outputFolder : String)
    (hdir : cannotCreate fs w outputFolder = (w1, Except.ok false)) :
    (compressFolder fs z w s inputFolder outputFolder).1 =
      ((getImageFiles fs w1 inputFolder).foldl (compressFolderStep fs z outputFolder)
        { world := w1, compressor := s, total_original := 0, total_compressed := 0,
          success_count := 0 }).world ∧
    (compressFolder fs z w s inputFolder outputFolder).2.1 =
      ((getImageFiles fs w1 inputFolder).foldl (compressFolderStep fs z outputFolder)
        { world := w1, compressor := s, total_original := 0, total_compressed := 0,
          success_count := 0 }).compressor := by
  cases ht : ((getImageFiles fs w1 inputFolder).foldl
      (compressFolderStep fs z outputFolder)
      { world := w1, compressor := s, total_original := 0, total_compressed := 0,
        success_count := 0 }).thrown with
  | some msg => simp [compressFolder, hdir, ht]
  | none =>
    by_cases hcount : ((getImageFiles fs w1 inputFolder).foldl
        (compressFolderStep fs z outputFolder)
        { world := w1, compressor := s, total_original := 0, total_compressed := 0,
          success_count := 0 }).success_count = 0
    · simp [compressFolder, hdir, ht, hcount]
    · simp [compressFolder, hdir, ht, hcount]

theorem decompressFolder_loop {W : Type} (fs : FileSystem W) (z : Zstd) (w w1 : W)
    (s : ImageCompressor) (inputFolder outputFolder : String)
    (hdir : cannotCreate fs w outputFolder = (w1, Except.ok false)) :
    (decompressFolder fs z w s inputFolder outputFolder).1 =
      ((fs.directory_iterator w1 inputFolder).1.foldl (decompressFolderStep fs z outputFolder)
        { world := w1, compressor := s, success_count := 0 }).world ∧
    (decompressFolder fs z w s inputFolder outputFolder).2.1 =
      ((fs.directory_iterator w1 inputFolder).1.foldl (decompressFolderStep fs z outputFolder)
        { world := w1, compressor := s, success_count := 0 }).compressor := by
  rcases hdi : fs.directory_iterator w1 inputFolder with ⟨entries, thrown⟩
  cases ht : (entries.foldl (decompressFolderStep fs z outputFolder)
      { world := w1, compressor := s, success_count := 0 }).thrown with
  | some msg => simp [decompressFolder, hdir, hdi, ht]
  | none =>
    cases thrown
    · by_cases hcount : (entries.foldl (decompressFolderStep fs z outputFolder)
          { world := w1, compressor := s, success_count := 0 }).success_count = 0
      · simp [decompressFolder, hdir, hdi, ht, hcount]
      · simp [decompressFolder, hdir, hdi, ht, hcount]
    · simp [decompressFolder, hdir, hdi, ht]

/-- C11, as amended. When the output directory exists or can be created, and the
directory loop lists each path once: `isImageFile` holds exactly for the
names whose extension is one of `.bmp .png .jpg .jpeg .tiff .tif .webp`;
`getImageFiles` lists exactly the paths of the regular files among the
entries for which `isImageFile` holds, each once, so as many as there are
such entries (N), none of the others (M); the loop of `compressFolder` runs
once for each file of that list, in the order of the list, and for nothing
else; an iteration that no exception precedes calls `loadImage` on its file,
`compressInternal` on what was loaded when `loadImage` returned true, and
`saveCompressedData` on `outputFolder/stem.zstd` when the compression
succeeded, and the exception that leaves it, if one does, is that of these
calls; after an exception no iteration does anything; when no exception has
left the loop at its end, none had left it before any file of the list, nor
left the iteration on that file; at most N files are counted; and on the
in-memory file system, whatever the folder holds, `compressFolder` leaves
every path that is not `outputFolder/stem.zstd` for a file of the list as it
was. -/
theorem compressFolder_processes_image_files {W : Type} (fs : FileSystem W) (z : Zstd)
    (w w1 : W) (s : ImageCompressor) (inputFolder outputFolder : String)
    (hdir : cannotCreate fs w outputFolder = (w1, Except.ok false))
    (hnodup : ((fs.directory_iterator w1 inputFolder).1.map (fun entry => entry.path)).Nodup) :
    (∀ filename : String, isImageFile filename = true ↔
      String.mk (pathExtension filename.data) ∈
        [".bmp", ".png", ".jpg", ".jpeg", ".tiff", ".tif", ".webp"]) ∧
    (∀ path : String, path ∈ getImageFiles fs w1 inputFolder ↔
      ∃ entry ∈ (fs.directory_iterator w1 inputFolder).1,
        entry.path = path ∧ entry.is_regular_file = true ∧ isImageFile entry.path = true) ∧
    (getImageFiles fs w1 inputFolder).Nodup ∧
    (getImageFiles fs w1 inputFolder).length =
      (fs.directory_iterator w1 inputFolder).1.countP
        (fun entry => entry.is_regular_file && isImageFile entry.path) ∧
    (compressFolder fs z w s inputFolder outputFolder).1 =
      ((getImageFiles fs w1 inputFolder).foldl (compressFolderStep fs z outputFolder)
        { world := w1, compressor := s, total_original := 0, total_compressed := 0,
          success_count := 0 }).world ∧
    (compressFolder fs z w s inputFolder outputFolder).2.1 =
      ((getImageFiles fs w1 inputFolder).foldl (compressFolderStep fs z outputFolder)
        { world := w1, compressor := s, total_original := 0, total_compressed := 0,
          success_count := 0 }).compressor ∧
    (∀ (st : CompressLoop W) (file : String), st.thrown = none →
      (compressFolderStep fs z outputFolder st file).thrown =
        (if (loadImageOutcome fs st.world st.compressor file).value = some true then
          (compressInternalOutcome (fs.vector_resize st.world) z
            (loadImageOutcome fs st.world st.compressor file).compressor).thrown
        else (loadImageOutcome fs st.world st.compressor file).thrown) ∧
      (compressFolderStep fs z outputFolder st file).compressor =
        (if (loadImageOutcome fs st.world st.compressor file).value = some true then
          (compressInternalOutcome (fs.vector_resize st.world) z
            (loadImageOutcome fs st.world st.compressor file).compressor).compressor
        else (loadImageOutcome fs st.world st.compressor file).compressor) ∧
      (compressFolderStep fs z outputFolder st file).world =
        (if (loadImageOutcome fs st.world st.compressor file).value = some true ∧
            (compressInternalOutcome (fs.vector_resize st.world) z
              (loadImageOutcome fs st.world st.compressor file).compressor).value.map
                CompressionResult.success = some true
        then
          (saveCompressedData fs st.world
            (compressInternalOutcome (fs.vector_resize st.world) z
              (loadImageOutcome fs st.world st.compressor file).compressor).compressor
            (outputFolder ++ "/" ++ String.mk (pathStem file.data) ++ ".zstd")).1
        else st.world)) ∧
    (∀ (st : CompressLoop W) (file : String), st.thrown ≠ none →
      compressFolderStep fs z outputFolder st file = st) ∧
    (((getImageFiles fs w1 inputFolder).foldl (compressFolderStep fs z outputFolder)
        { world := w1, compressor := s, total_original := 0, total_compressed := 0,
          success_count := 0 }).thrown = none →
      ∀ (before after : List String) (file : String),
        getImageFiles fs w1 inputFolder = before ++ file :: after →
        (before.foldl (compressFolderStep fs z outputFolder)
          { world := w1, compressor := s, total_original := 0, total_compressed := 0,
            success_count := 0 }).thrown = none ∧
        (compressFolderStep fs z outputFolder
          (before.foldl (compressFolderStep fs z outputFolder)
            { world := w1, compressor := s, total_original := 0, total_compressed := 0,
              success_count := 0 }) file).thrown = none) ∧
    ((getImageFiles fs w1 inputFolder).foldl (compressFolderStep fs z outputFolder)
        { world := w1, compressor := s, total_original := 0, total_compressed := 0,
          success_count := 0 }).success_count ≤
      (fs.directory_iterator w1 inputFolder).1.countP
        (fun entry => entry.is_regular_file && isImageFile entry.path) ∧
    (∀ (files : MemFiles) (c : ImageCompressor) (other : String),
      (∀ file ∈ getImageFiles memFs files inputFolder,
        other ≠ outputFolder ++ "/" ++ String.mk (pathStem file.data) ++ ".zstd") →
      (compressFolder memFs z files c inputFolder outputFolder).1.lookup other =
        files.lookup other) := by
  have hperm := getImageFiles_perm fs w1 inputFolder
  have hlen : (getImageFiles fs w1 inputFolder).length =
      (fs.directory_iterator w1 inputFolder).1.countP
        (fun entry => entry.is_regular_file && isImageFile entry.path) := by
    rw [hperm.length_eq, List.length_map, List.countP_eq_length_filter]
  refine ⟨isImageFile_iff, ?_, ?_, hlen,
    (compressFolder_loop fs z w w1 s inputFolder outputFolder hdir).1,
    (compressFolder_loop fs z w w1 s inputFolder outputFolder hdir).2, ?_, ?_, ?_, ?_, ?_⟩
  · intro path
    rw [hperm.mem_iff]
    simp only [List.mem_map, List.mem_filter, Bool.and_eq_true]
    constructor
    · rintro ⟨entry, ⟨hmem, hreg, himg⟩, hpath⟩
      exact ⟨entry, hmem, hpath, hreg, himg⟩
    · rintro ⟨entry, hmem, hpath, hreg, himg⟩
      exact ⟨entry, ⟨hmem, hreg, himg⟩, hpath⟩
  · rw [hperm.nodup_iff]
    exact hnodup.sublist ((List.filter_sublist _).map _)
  · intro st file hst
    refine ⟨?_, compressFolderStep_compressor fs z outputFolder st file hst, ?_⟩
    · rw [compressFolderStep_thrown, if_pos hst]
    · rw [compressFolderStep_world]
      simp only [hst, true_and]
      rfl
  · exact fun st file hst => compressFolderStep_of_thrown fs z outputFolder st file hst
  · intro hend before after file hsplit
    rw [hsplit, List.foldl_append, List.foldl_cons] at hend
    have h1 := compressLoop_thrown_none fs z outputFolder after _ hend
    have h0 : (before.foldl (compressFolderStep fs z outputFolder)
        { world := w1, compressor := s, total_original := 0, total_compressed := 0,
          success_count := 0 }).thrown = none := by
      by_contra hne
      rw [compressFolderStep_thrown, if_neg hne] at h1
      exact hne h1
    exact ⟨h0, h1⟩
  · rw [← hlen]
    have hb := compressLoop_count_le fs z outputFolder (getImageFiles fs w1 inputFolder)
      { world := w1, compressor := s, total_original := 0, total_compressed := 0,
        success_count := 0 }
    simpa using hb
  · intro files c other hother
    rw [(compressFolder_loop memFs z files files c inputFolder outputFolder rfl).1]
    exact compressLoop_memFs_untouched z outputFolder _ _ other hother

theorem compressFolder_processes_image_files_witness :
    (getImageFiles memFs sampleFolder "in").Nodup ∧
    (getImageFiles memFs sampleFolder "in").length =
      (memFs.directory_iterator sampleFolder "in").1.countP
        (fun entry => entry.is_regular_file && isImageFile entry.path) ∧
    (compressFolder memFs (storedZstd true true) sampleFolder (ctor 3) "in" "out").1 =
      ((getImageFiles memFs sampleFolder "in").foldl
        (compressFolderStep memFs (storedZstd true true) "out")
        { world := sampleFolder, compressor := ctor 3, total_original := 0,
          total_compressed := 0, success_count := 0 }).world ∧
    (compressFolder memFs (storedZstd true true) sampleFolder (ctor 3) "in" "out").1.lookup
        "out/c.zstd" = sampleFolder.lookup "out/c.zstd" :=
  ⟨(compressFolder_processes_image_files memFs (storedZstd true true) sampleFolder sampleFolder
      (ctor 3) "in" "out" rfl (by decide)).2.2.1,
   (compressFolder_processes_image_files memFs (storedZstd true true) sampleFolder sampleFolder
      (ctor 3) "in" "out" rfl (by decide)).2.2.2.1,
   (compressFolder_processes_image_files memFs (storedZstd true true) sampleFolder sampleFolder
      (ctor 3) "in" "out" rfl (by decide)).2.2.2.2.1,
   (compressFolder_processes_image_files memFs (storedZstd true true) sampleFolder sampleFolder
      (ctor 3) "in" "out" rfl (by decide)).2.2.2.2.2.2.2.2.2.2 sampleFolder (ctor 3) "out/c.zstd"
      (by
        intro file hmem
        rw [(getImageFiles_perm memFs sampleFolder "in").mem_iff] at hmem
        revert file
        decide)⟩

/-- C11, as stated, fails when the output directory does not exist and cannot
be created: the folder `in` holds three image files, `getImageFiles` lists
three files, and `compressFolder` returns `ERROR_COMPRESS_FAILED` without loading
any of them or writing anything. -/
theorem compressFolder_without_output_directory_attempts_nothing :
    (getImageFiles memFsNoOutput sampleFolder "in").length = 3 ∧
    (compressFolder memFsNoOutput (storedZstd true true) sampleFolder (ctor 3) "in" "out").1 =
      sampleFolder ∧
    (compressFolder memFsNoOutput (storedZstd true true) sampleFolder (ctor 3)
      "in" "out").2.1.m_originalData = [] ∧
    (compressFolder memFsNoOutput (storedZstd true true) sampleFolder (ctor 3)
      "in" "out").2.2.result_code = CompressResult.ERROR_COMPRESS_FAILED ∧
    (compressFolder memFsNoOutput (storedZstd true true) sampleFolder (ctor 3)
      "in" "out").2.2.error_message =
      "filesystem error: cannot create directories: Permission denied" := by
  refine ⟨?_, ?_, ?_, ?_, ?_⟩
  · rw [(getImageFiles_perm memFsNoOutput sampleFolder "in").length_eq]
    decide
  all_goals decide

/-! ### Outcome of a batch -/

theorem compressFolder_code {W : Type} (fs : FileSystem W) (z : Zstd) (w w1 : W)
    (s : ImageCompressor) (inputFolder outputFolder : String)
    (hdir : cannotCreate fs w outputFolder = (w1, Except.ok false))
    (hnone : ((getImageFiles fs w1 inputFolder).foldl (compressFolderStep fs z outputFolder)
      { world := w1, compressor := s, total_original := 0, total_compressed := 0,
        success_count := 0 }).thrown = none) :
    (compressFolder fs z w s inputFolder outputFolder).2.2.result_code =
      if ((getImageFiles fs w1 inputFolder).foldl (compressFolderStep fs z outputFolder)
          { world := w1, compressor := s, total_original := 0, total_compressed := 0,
            success_count := 0 }).success_count = 0
      then CompressResult.ERROR_COMPRESS_FAILED else CompressResult.SUCCESS := by
  by_cases hcount : ((getImageFiles fs w1 inputFolder).foldl
      (compressFolderStep fs z outputFolder)
      { world := w1, compressor := s, total_original := 0, total_compressed := 0,
        success_count := 0 }).success_count = 0
  · simp [compressFolder, hdir, hnone, hcount, CompressionResult.ofCode]
  · simp [compressFolder, hdir, hnone, hcount]

/-- An exception that leaves the body of the loop of `compressFolder` is
reported as `ERROR_COMPRESS_FAILED` with its `what()`. -/
theorem compressFolder_of_thrown {W : Type} (fs : FileSystem W) (z : Zstd) (w w1 : W)
    (s : ImageCompressor) (inputFolder outputFolder msg : String)
    (hdir : cannotCreate fs w outputFolder = (w1, Except.ok false))
    (hsome : ((getImageFiles fs w1 inputFolder).foldl (compressFolderStep fs z outputFolder)
      { world := w1, compressor := s, total_original := 0, total_compressed := 0,
        success_count := 0 }).thrown = some msg) :
    (compressFolder fs z w s inputFolder outputFolder).2.2 =
      CompressionResult.ofCode CompressResult.ERROR_COMPRESS_FAILED msg := by
  simp [compressFolder, hdir, hsome]

theorem decompressFolder_code {W : Type} (fs : FileSystem W) (z : Zstd) (w w1 : W)
    (s : ImageCompressor) (inputFolder outputFolder : String)
    (hdir : cannotCreate fs w outputFolder = (w1, Except.ok false))
    (hnone : ((fs.directory_iterator w1 inputFolder).1.foldl
      (decompressFolderStep fs z outputFolder)
      { world := w1, compressor := s, success_count := 0 }).thrown = none)
    (hiter : (fs.directory_iterator w1 inputFolder).2 = none) :
    (decompressFolder fs z w s inputFolder outputFolder).2.2.result_code =
      if ((fs.directory_iterator w1 inputFolder).1.foldl
          (decompressFolderStep fs z outputFolder)
          { world := w1, compressor := s, success_count := 0 }).success_count = 0
      then CompressResult.ERROR_DECOMPRESS_FAILED else CompressResult.SUCCESS := by
  rcases hdi : fs.directory_iterator w1 inputFolder with ⟨entries, thrown⟩
  rw [hdi] at hnone hiter
  simp only at hnone hiter
  subst hiter
  by_cases hcount : (entries.foldl (decompressFolderStep fs z outputFolder)
      { world := w1, compressor := s, success_count := 0 }).success_count = 0
  · simp [decompressFolder, hdir, hdi, hnone, hcount, CompressionResult.ofCode]
  · simp [decompressFolder, hdir, hdi, hnone, hcount, CompressionResult.ofCode]

/-- An exception that leaves the body of the loop of `decompressFolder` is
reported as `ERROR_DECOMPRESS_FAILED` with its `what()`. -/
theorem decompressFolder_of_thrown {W : Type} (fs : FileSystem W) (z : Zstd) (w w1 : W)
    (s : ImageCompressor) (inputFolder outputFolder msg : String)
    (hdir : cannotCreate fs w outputFolder = (w1, Except.ok false))
    (hsome : ((fs.directory_iterator w1 inputFolder).1.foldl
      (decompressFolderStep fs z outputFolder)
      { world := w1, compressor := s, success_count := 0 }).thrown = some msg) :
    (decompressFolder fs z w s inputFolder outputFolder).2.2 =
      CompressionResult.ofCode CompressResult.ERROR_DECOMPRESS_FAILED msg := by
  rcases hdi : fs.directory_iterator w1 inputFolder with ⟨entries, thrown⟩
  rw [hdi] at hsome
  simp only at hsome
  simp [decompressFolder, hdir, hdi, hsome]

/-- An exception that ends the loop of `decompressFolder` over the directory
is reported as `ERROR_DECOMPRESS_FAILED` with its `what()`. -/
theorem decompressFolder_of_iterator {W : Type} (fs : FileSystem W) (z : Zstd) (w w1 : W)
    (s : ImageCompressor) (inputFolder outputFolder msg : String)
    (hdir : cannotCreate fs w outputFolder = (w1, Except.ok false))
    (hnone : ((fs.directory_iterator w1 inputFolder).1.foldl
      (decompressFolderStep fs z outputFolder)
      { world := w1, compressor := s, success_count := 0 }).thrown = none)
    (hiter : (fs.directory_iterator w1 inputFolder).2 = some msg) :
    (decompressFolder fs z w s inputFolder outputFolder).2.2 =
      CompressionResult.ofCode CompressResult.ERROR_DECOMPRESS_FAILED msg := by
  rcases hdi : fs.directory_iterator w1 inputFolder with ⟨entries, thrown⟩
  rw [hdi] at hnone hiter
  simp only at hnone hiter
  subst hiter
  simp [decompressFolder, hdir, hdi, hnone]

/-- C12, as amended. When the output directory exists or can be created:
each iteration of either loop adds one to `success_count` exactly when no
exception has left the loop and the file was transformed and saved, and
leaves it alone otherwise; the exception that leaves an iteration is the one
that leaves `loadImage` or `compressInternal`, respectively
`decompressFromFile`, and it stays recorded; when no exception has left the loop, `compressFolder` returns
`SUCCESS` if and only if `success_count` is not zero at the end of the loop,
and `ERROR_COMPRESS_FAILED` if and only if it is zero, and `decompressFolder`
does the same with `ERROR_DECOMPRESS_FAILED` when no exception ends the loop
over the directory either; an exception that leaves the body of either loop,
or that ends the loop of `decompressFolder` over the directory, is reported
as `ERROR_COMPRESS_FAILED`, respectively `ERROR_DECOMPRESS_FAILED`, with its
`what()` as message. -/
theorem batch_fails_only_without_success {W : Type} (fs : FileSystem W) (z : Zstd)
    (w w1 : W) (s : ImageCompressor) (inputFolder outputFolder : String)
    (hdir : cannotCreate fs w outputFolder = (w1, Except.ok false)) :
    (∀ (st : CompressLoop W) (file : String),
      (compressFolderStep fs z outputFolder st file).success_count =
        (if st.thrown = none ∧
            (loadImageOutcome fs st.world st.compressor file).value = some true ∧
            (compressInternalOutcome (fs.vector_resize st.world) z
              (loadImageOutcome fs st.world st.compressor file).compressor).value.map
                CompressionResult.success = some true ∧
            (saveCompressedData fs st.world
              (compressInternalOutcome (fs.vector_resize st.world) z
                (loadImageOutcome fs st.world st.compressor file).compressor).compressor
              (outputFolder ++ "/" ++ String.mk (pathStem file.data) ++ ".zstd")).2 = true
        then st.success_count + 1 else st.success_count) ∧
      (compressFolderStep fs z outputFolder st file).thrown =
        (if st.thrown = none then
          (if (loadImageOutcome fs st.world st.compressor file).value = some true then
            (compressInternalOutcome (fs.vector_resize st.world) z
              (loadImageOutcome fs st.world st.compressor file).compressor).thrown
          else (loadImageOutcome fs st.world st.compressor file).thrown)
        else st.thrown)) ∧
    (∀ (st : DecompressLoop W) (entry : DirEntry),
      (decompressFolderStep fs z outputFolder st entry).success_count =
        (if st.thrown = none ∧
            (entry.is_regular_file && isCompressedFile entry.path) = true ∧
            (decompressFromFileOutcome fs z st.world st.compressor entry.path).value.map
              CompressionResult.success = some true ∧
            (saveDecompressedImage fs st.world
              (decompressFromFileOutcome fs z st.world st.compressor entry.path).compressor
              (outputFolder ++ "/" ++ String.mk (pathStem entry.path.data) ++ ".bmp")).2 = true
        then st.success_count + 1 else st.success_count) ∧
      (decompressFolderStep fs z outputFolder st entry).thrown =
        (if st.thrown = none ∧ (entry.is_regular_file && isCompressedFile entry.path) = true
        then (decompressFromFileOutcome fs z st.world st.compressor entry.path).thrown
        else st.thrown)) ∧
    (((getImageFiles fs w1 inputFolder).foldl (compressFolderStep fs z outputFolder)
        { world := w1, compressor := s, total_original := 0, total_compressed := 0,
          success_count := 0 }).thrown = none →
      ((compressFolder fs z w s inputFolder outputFolder).2.2.result_code =
          CompressResult.SUCCESS ↔
        0 < ((getImageFiles fs w1 inputFolder).foldl (compressFolderStep fs z outputFolder)
          { world := w1, compressor := s, total_original := 0, total_compressed := 0,
            success_count := 0 }).success_count) ∧
      ((compressFolder fs z w s inputFolder outputFolder).2.2.result_code =
          CompressResult.ERROR_COMPRESS_FAILED ↔
        ((getImageFiles fs w1 inputFolder).foldl (compressFolderStep fs z outputFolder)
          { world := w1, compressor := s, total_original := 0, total_compressed := 0,
            success_count := 0 }).success_count = 0)) ∧
    (∀ msg : String,
      ((getImageFiles fs w1 inputFolder).foldl (compressFolderStep fs z outputFolder)
        { world := w1, compressor := s, total_original := 0, total_compressed := 0,
          success_count := 0 }).thrown = some msg →
      (compressFolder fs z w s inputFolder outputFolder).2.2.result_code =
          CompressResult.ERROR_COMPRESS_FAILED ∧
        (compressFolder fs z w s inputFolder outputFolder).2.2.error_message = msg) ∧
    (((fs.directory_iterator w1 inputFolder).1.foldl (decompressFolderStep fs z outputFolder)
        { world := w1, compressor := s, success_count := 0 }).thrown = none →
      (fs.directory_iterator w1 inputFolder).2 = none →
      ((decompressFolder fs z w s inputFolder outputFolder).2.2.result_code =
          CompressResult.SUCCESS ↔
        0 < ((fs.directory_iterator w1 inputFolder).1.foldl
          (decompressFolderStep fs z outputFolder)
          { world := w1, compressor := s, success_count := 0 }).success_count) ∧
      ((decompressFolder fs z w s inputFolder outputFolder).2.2.result_code =
          CompressResult.ERROR_DECOMPRESS_FAILED ↔
        ((fs.directory_iterator w1 inputFolder).1.foldl
          (decompressFolderStep fs z outputFolder)
          { world := w1, compressor := s, success_count := 0 }).success_count = 0)) ∧
    (∀ msg : String,
      ((fs.directory_iterator w1 inputFolder).1.foldl (decompressFolderStep fs z outputFolder)
        { world := w1, compressor := s, success_count := 0 }).thrown = some msg →
      (decompressFolder fs z w s inputFolder outputFolder).2.2.result_code =
          CompressResult.ERROR_DECOMPRESS_FAILED ∧
        (decompressFolder fs z w s inputFolder outputFolder).2.2.error_message = msg) ∧
    (∀ msg : String,
      ((fs.directory_iterator w1 inputFolder).1.foldl (decompressFolderStep fs z outputFolder)
        { world := w1, compressor := s, success_count := 0 }).thrown = none →
      (fs.directory_iterator w1 inputFolder).2 = some msg →
      (decompressFolder fs z w s inputFolder outputFolder).2.2.result_code =
          CompressResult.ERROR_DECOMPRESS_FAILED ∧
        (decompressFolder fs z w s inputFolder outputFolder).2.2.error_message = msg) := by
  refine ⟨fun st file => ⟨compressFolderStep_count fs z outputFolder st file,
      compressFolderStep_thrown fs z outputFolder st file⟩,
    fun st entry => ⟨decompressFolderStep_count fs z outputFolder st entry,
      decompressFolderStep_thrown fs z outputFolder st entry⟩, ?_, ?_, ?_, ?_, ?_⟩
  · intro hnone
    rw [compressFolder_code fs z w w1 s inputFolder outputFolder hdir hnone]
    constructor <;> split_ifs with h <;> simp [h]
    omega
  · intro msg hsome
    rw [compressFolder_of_thrown fs z w w1 s inputFolder outputFolder msg hdir hsome]
    exact ⟨rfl, rfl⟩
  · intro hnone hiter
    rw [decompressFolder_code fs z w w1 s inputFolder outputFolder hdir hnone hiter]
    constructor <;> split_ifs with h <;> simp [h]
    omega
  · intro msg hsome
    rw [decompressFolder_of_thrown fs z w w1 s inputFolder outputFolder msg hdir hsome]
    exact ⟨rfl, rfl⟩
  · intro msg hnone hiter
    rw [decompressFolder_of_iterator fs z w w1 s inputFolder outputFolder msg hdir hnone hiter]
    exact ⟨rfl, rfl⟩

theorem batch_fails_only_without_success_witness :
    ((compressFolder memFs (storedZstd true true) sampleFolder (ctor 3) "in" "out").2.2.result_code
        = CompressResult.SUCCESS ↔
      0 < ((getImageFiles memFs sampleFolder "in").foldl
        (compressFolderStep memFs (storedZstd true true) "out")
        { world := sampleFolder, compressor := ctor 3, total_original := 0,
          total_compressed := 0, success_count := 0 }).success_count) ∧
    ((decompressFolder memFs (storedZstd true true) [("z/a.zstd", [0, 66, 77]), ("z/b.zstd", [7])]
        (ctor 3) "z" "out").2.2.result_code = CompressResult.SUCCESS ↔
      0 < ((memFs.directory_iterator [("z/a.zstd", [0, 66, 77]), ("z/b.zstd", [7])] "z").1.foldl
        (decompressFolderStep memFs (storedZstd true true) "out")
        { world := [("z/a.zstd", [0, 66, 77]), ("z/b.zstd", [7])], compressor := ctor 3,
          success_count := 0 }).success_count) :=
  ⟨((batch_fails_only_without_success memFs (storedZstd true true) sampleFolder sampleFolder
      (ctor 3) "in" "out" rfl).2.2.1
      (compressLoop_never_thrown memFs (storedZstd true true) "out" (fun _ _ => rfl) _ _ rfl)).1,
   ((batch_fails_only_without_success memFs (storedZstd true true)
      [("z/a.zstd", [0, 66, 77]), ("z/b.zstd", [7])] [("z/a.zstd", [0, 66, 77]), ("z/b.zstd", [7])]
      (ctor 3) "z" "out" rfl).2.2.2.2.1
      (decompressLoop_never_thrown memFs (storedZstd true true) "out" (fun _ _ => rfl) _ _ rfl)
      rfl).1⟩

/-- C12, as stated, fails for `decompressFolder` when an exception ends the
loop. First, thrown by the loop over the input directory: the file
`z/a.zstd` was decompressed and saved as `out/a.bmp`, the loop then threw,
and the batch returns `ERROR_DECOMPRESS_FAILED` with `what()` as message.
Second, thrown while a file is processed: `z/a.zstd` was decompressed and
saved, the frame of `z/b.zstd` declares a content of `2 ^ 63` bytes, the
`resize` to that size throws `std::length_error`, and the batch returns
`ERROR_DECOMPRESS_FAILED` with `what()` as message. -/
theorem decompressFolder_fails_after_a_success :
    ((cannotCreate memFsBrokenIteration [("z/a.zstd", [0, 66, 77])] "out").2 = Except.ok false ∧
      (decompressFolder memFsBrokenIteration (storedZstd true true) [("z/a.zstd", [0, 66, 77])]
        (ctor 3) "z" "out").1 = [("out/a.bmp", [66, 77]), ("z/a.zstd", [0, 66, 77])] ∧
      ((memFsBrokenIteration.directory_iterator [("z/a.zstd", [0, 66, 77])] "z").1.foldl
        (decompressFolderStep memFsBrokenIteration (storedZstd true true) "out")
        { world := [("z/a.zstd", [0, 66, 77])], compressor := ctor 3,
          success_count := 0 }).success_count = 1 ∧
      (decompressFolder memFsBrokenIteration (storedZstd true true) [("z/a.zstd", [0, 66, 77])]
        (ctor 3) "z" "out").2.2.result_code = CompressResult.ERROR_DECOMPRESS_FAILED ∧
      (decompressFolder memFsBrokenIteration (storedZstd true true) [("z/a.zstd", [0, 66, 77])]
        (ctor 3) "z" "out").2.2.error_message = "directory iterator cannot advance") ∧
    ((cannotCreate memFsMaxSize [("z/a.zstd", [0, 66, 77]), ("z/b.zstd", [255, 1])] "out").2 =
        Except.ok false ∧
      (memFsMaxSize.directory_iterator [("z/a.zstd", [0, 66, 77]), ("z/b.zstd", [255, 1])]
        "z").2 = none ∧
      hugeFrameZstd.getFrameContentSize [255, 1] = 2 ^ 63 ∧
      (decompressFolder memFsMaxSize hugeFrameZstd
        [("z/a.zstd", [0, 66, 77]), ("z/b.zstd", [255, 1])] (ctor 3) "z" "out").1 =
        [("out/a.bmp", [66, 77]), ("z/a.zstd", [0, 66, 77]), ("z/b.zstd", [255, 1])] ∧
      ((memFsMaxSize.directory_iterator [("z/a.zstd", [0, 66, 77]), ("z/b.zstd", [255, 1])]
          "z").1.foldl
        (decompressFolderStep memFsMaxSize hugeFrameZstd "out")
        { world := [("z/a.zstd", [0, 66, 77]), ("z/b.zstd", [255, 1])], compressor := ctor 3,
          success_count := 0 }).success_count = 1 ∧
      (decompressFolder memFsMaxSize hugeFrameZstd
        [("z/a.zstd", [0, 66, 77]), ("z/b.zstd", [255, 1])] (ctor 3) "z" "out").2.2.result_code =
        CompressResult.ERROR_DECOMPRESS_FAILED ∧
      (decompressFolder memFsMaxSize hugeFrameZstd
        [("z/a.zstd", [0, 66, 77]), ("z/b.zstd", [255, 1])] (ctor 3) "z"
        "out").2.2.error_message = "vector::_M_default_append") := by
  refine ⟨⟨rfl, ?_, ?_, ?_, ?_⟩, ⟨rfl, rfl, ?_, ?_, ?_, ?_, ?_⟩⟩ <;> decide

/-! ### Totals of a batch -/

/-- C13 at a failing input. A folder with two frames of the stored-block
codec, for 2 and for 3 bytes: `decompressFolder` decompresses and saves both
(`success_count` is 2), the per-file results carry the sizes 2, 3 and 3, 4,
and the batch returns `SUCCESS` with `original_size = 0` and
`compressed_size = 0`, not the sums 5 and 7. -/
theorem decompressFolder_reports_no_totals :
    ((memFs.directory_iterator [("z/a.zstd", [0, 66, 77]), ("z/b.zst", [0, 1, 2, 3])] "z").1.foldl
      (decompressFolderStep memFs (storedZstd true true) "out")
      { world := [("z/a.zstd", [0, 66, 77]), ("z/b.zst", [0, 1, 2, 3])], compressor := ctor 3,
        success_count := 0 }).success_count = 2 ∧
    ((decompressFromFile memFs (storedZstd true true)
        [("z/a.zstd", [0, 66, 77]), ("z/b.zst", [0, 1, 2, 3])] (ctor 3) "z/a.zstd").2.original_size
        = 2 ∧
      (decompressFromFile memFs (storedZstd true true)
        [("z/a.zstd", [0, 66, 77]), ("z/b.zst", [0, 1, 2, 3])] (ctor 3) "z/a.zstd").2.compressed_size
        = 3) ∧
    ((decompressFromFile memFs (storedZstd true true)
        [("z/a.zstd", [0, 66, 77]), ("z/b.zst", [0, 1, 2, 3])] (ctor 3) "z/b.zst").2.original_size
        = 3 ∧
      (decompressFromFile memFs (storedZstd true true)
        [("z/a.zstd", [0, 66, 77]), ("z/b.zst", [0, 1, 2, 3])] (ctor 3) "z/b.zst").2.compressed_size
        = 4) ∧
    (decompressFolder memFs (storedZstd true true)
      [("z/a.zstd", [0, 66, 77]), ("z/b.zst", [0, 1, 2, 3])] (ctor 3) "z" "out").2.2.result_code
      = CompressResult.SUCCESS ∧
    (decompressFolder memFs (storedZstd true true)
      [("z/a.zstd", [0, 66, 77]), ("z/b.zst", [0, 1, 2, 3])] (ctor 3) "z" "out").2.2.original_size
      = 0 ∧
    (decompressFolder memFs (storedZstd true true)
      [("z/a.zstd", [0, 66, 77]), ("z/b.zst", [0, 1, 2, 3])] (ctor 3) "z" "out").2.2.compressed_size
      = 0 := by
  refine ⟨?_, ⟨?_, ?_⟩, ⟨?_, ?_⟩, ?_, ?_, ?_⟩ <;> decide

/-! ### Order of a batch -/

/-- C14 at two failing inputs. The directory loop yields `z/b.zstd` before
`z/a.zstd`: the first iteration of `decompressFolder` writes `out/b.bmp`, and
the world at the end lists `out/a.bmp`, written last, first. The directory
loop yields `z/a.zstd` before `z/a.zst`, which share the output `out/a.bmp`:
the file is left with the content of `z/a.zst`, processed last although its
path is the smaller one; with the two entries yielded the other way round it
is left with the content of `z/a.zstd`. -/
theorem decompressFolder_follows_directory_order :
    ((memFs.directory_iterator [("z/b.zstd", [0, 2]), ("z/a.zstd", [0, 1])] "z").1.map
        (fun entry => entry.path) = ["z/b.zstd", "z/a.zstd"] ∧
      (decompressFolderStep memFs (storedZstd true true) "out"
        { world := [("z/b.zstd", [0, 2]), ("z/a.zstd", [0, 1])], compressor := ctor 3,
          success_count := 0 }
        { path := "z/b.zstd", is_regular_file := true }).world =
        [("out/b.bmp", [2]), ("z/b.zstd", [0, 2]), ("z/a.zstd", [0, 1])] ∧
      (decompressFolder memFs (storedZstd true true) [("z/b.zstd", [0, 2]), ("z/a.zstd", [0, 1])]
        (ctor 3) "z" "out").1 =
        [("out/a.bmp", [1]), ("out/b.bmp", [2]), ("z/b.zstd", [0, 2]), ("z/a.zstd", [0, 1])]) ∧
    ((decompressFolder memFs (storedZstd true true) [("z/a.zstd", [0, 1]), ("z/a.zst", [0, 2])]
        (ctor 3) "z" "out").1.lookup "out/a.bmp" = some [2] ∧
      (decompressFolder memFs (storedZstd true true) [("z/a.zst", [0, 2]), ("z/a.zstd", [0, 1])]
        (ctor 3) "z" "out").1.lookup "out/a.bmp" = some [1]) := by
  refine ⟨⟨?_, ?_, ?_⟩, ⟨?_, ?_⟩⟩ <;> decide

/-! ### Signals of the worker -/

namespace CompressWorker

theorem progressValues_append (a b : List Signal) :
    progressValues (a ++ b) = progressValues a ++ progressValues b := by
  induction a with
  | nil => rfl
  | cons g rest ih => cases g <;> simp [progressValues, ih]

@[simp] theorem emit_emitted (st : CompressWorker) (g : Signal) :
    (emit st g).emitted = st.emitted ++ [g] := rfl

@[simp] theorem emit_lastProgress (st : CompressWorker) (g : Signal) :
    (emit st g).lastProgress = st.lastProgress := rfl

@[simp] theorem emit_m_compressor (st : CompressWorker) (g : Signal) :
    (emit st g).m_compressor = st.m_compressor := rfl

@[simp] theorem handleCompressionError_emitted (st : CompressWorker) (context error : String) :
    (handleCompressionError st context error).emitted =
      st.emitted ++
        [Signal.errorOccurred (if error.isEmpty then context else context ++ ": " ++ error)] :=
  rfl

@[simp] theorem handleCompressionError_lastProgress (st : CompressWorker)
    (context error : String) :
    (handleCompressionError st context error).lastProgress = st.lastProgress := rfl

@[simp] theorem handleCompressionError_m_compressor (st : CompressWorker)
    (context error : String) :
    (handleCompressionError st context error).m_compressor = st.m_compressor := rfl

theorem updateProgress_emitted (st : CompressWorker) (value : Int) :
    (updateProgress st value).emitted =
      st.emitted ++
        (if value ≠ st.lastProgress ∧ (value % 10 = 0 ∨ value = 100 ∨ value = 0)
          then [Signal.progressChanged value] else []) := by
  unfold updateProgress
  split_ifs <;> simp

theorem updateProgress_lastProgress (st : CompressWorker) (value : Int) :
    (updateProgress st value).lastProgress =
      if value ≠ st.lastProgress ∧ (value % 10 = 0 ∨ value = 100 ∨ value = 0)
        then value else st.lastProgress := by
  unfold updateProgress
  split_ifs <;> simp

@[simp] theorem updateProgress_m_compressor (st : CompressWorker) (value : Int) :
    (updateProgress st value).m_compressor = st.m_compressor := by
  unfold updateProgress
  split_ifs <;> simp

@[simp] theorem finishedCount_updateProgress (st : CompressWorker) (value : Int) :
    finishedCount (updateProgress st value) = finishedCount st := by
  unfold finishedCount
  rw [updateProgress_emitted]
  split_ifs <;> simp [Signal.isFinished]

@[simp] theorem errorCount_updateProgress (st : CompressWorker) (value : Int) :
    errorCount (updateProgress st value) = errorCount st := by
  unfold errorCount
  rw [updateProgress_emitted]
  split_ifs <;> simp [Signal.isError]

@[simp] theorem finishedCount_handleCompressionError (st : CompressWorker)
    (context error : String) :
    finishedCount (handleCompressionError st context error) = finishedCount st := by
  simp [finishedCount, Signal.isFinished]

@[simp] theorem errorCount_handleCompressionError (st : CompressWorker)
    (context error : String) :
    errorCount (handleCompressionError st context error) = errorCount st + 1 := by
  simp [errorCount, Signal.isError]

@[simp] theorem finishedCount_catchClauses (st : CompressWorker) (context unknown : String)
    (t : Thrown) : finishedCount (catchClauses st context unknown t) = finishedCount st := by
  cases t <;> simp [catchClauses]

@[simp] theorem errorCount_catchClauses (st : CompressWorker) (context unknown : String)
    (t : Thrown) : errorCount (catchClauses st context unknown t) = errorCount st + 1 := by
  cases t <;> simp [catchClauses]

@[simp] theorem finishedCount_with_compressor (st : CompressWorker) (c : ImageCompressor) :
    finishedCount { st with m_compressor := c } = finishedCount st := rfl

@[simp] theorem errorCount_with_compressor (st : CompressWorker) (c : ImageCompressor) :
    errorCount { st with m_compressor := c } = errorCount st := rfl

theorem prefix_updateProgress (l : List Signal) (st : CompressWorker) (value : Int)
    (h : l <+: st.emitted) : l <+: (updateProgress st value).emitted := by
  rw [updateProgress_emitted]
  exact h.trans (List.prefix_append _ _)

theorem prefix_emit (l : List Signal) (st : CompressWorker) (g : Signal)
    (h : l <+: st.emitted) : l <+: (emit st g).emitted :=
  h.trans (List.prefix_append _ _)

theorem prefix_handleCompressionError (l : List Signal) (st : CompressWorker)
    (context error : String) (h : l <+: st.emitted) :
    l <+: (handleCompressionError st context error).emitted :=
  h.trans (List.prefix_append _ _)

theorem prefix_catchClauses (l : List Signal) (st : CompressWorker) (context unknown : String)
    (t : Thrown) (h : l <+: st.emitted) : l <+: (catchClauses st context unknown t).emitted := by
  cases t <;> exact prefix_handleCompressionError l st _ _ h

theorem finishedCount_emit (st : CompressWorker) (g : Signal) :
    finishedCount (emit st g) = finishedCount st + (if g.isFinished then 1 else 0) := by
  simp [finishedCount, List.countP_append, List.countP_cons]

theorem errorCount_emit (st : CompressWorker) (g : Signal) :
    errorCount (emit st g) = errorCount st + (if g.isError then 1 else 0) := by
  simp [errorCount, List.countP_append, List.countP_cons]

theorem compressImage_oneTerminal (env : WorkerEnv) (st : CompressWorker) (image : QImage)
    (level format : Int) : OneTerminal st (compressImage env st image level format) := by
  unfold compressImage
  constructor
  · repeat' (first | split | dsimp only)
    all_goals
      repeat (first
        | apply prefix_updateProgress
        | apply prefix_emit
        | apply prefix_handleCompressionError
        | apply prefix_catchClauses)
    all_goals exact List.prefix_refl _
  · repeat' (first | split | dsimp only)
    all_goals
      simp [finishedCount_emit, errorCount_emit, Signal.isFinished, Signal.isError]

theorem decompressData_oneTerminal (env : WorkerEnv) (st : CompressWorker)
    (compressedData : List Byte) : OneTerminal st (decompressData env st compressedData) := by
  unfold decompressData
  constructor
  · repeat' (first | split | dsimp only)
    all_goals
      repeat (first
        | apply prefix_updateProgress
        | apply prefix_emit
        | apply prefix_handleCompressionError
        | apply prefix_catchClauses)
    all_goals exact List.prefix_refl _
  · repeat' (first | split | dsimp only)
    all_goals
      simp [finishedCount_emit, errorCount_emit, Signal.isFinished, Signal.isError]

theorem decompressFile_oneTerminal (env : WorkerEnv) (st : CompressWorker)
    (filename : String) : OneTerminal st (decompressFile env st filename) := by
  unfold decompressFile
  constructor
  · repeat' (first | split | dsimp only)
    all_goals
      repeat (first
        | apply prefix_updateProgress
        | apply prefix_emit
        | apply prefix_handleCompressionError
        | apply prefix_catchClauses)
    all_goals exact List.prefix_refl _
  · repeat' (first | split | dsimp only)
    all_goals
      simp [finishedCount_emit, errorCount_emit, Signal.isFinished, Signal.isError]

theorem compressImage_progress_of_success (env : WorkerEnv) (st : CompressWorker)
    (image : QImage) (level format : Int) :
    finishedCount (compressImage env st image level format) = finishedCount st + 1 →
    progressValues (compressImage env st image level format).emitted =
      progressValues st.emitted ++ (if st.lastProgress = 10 then [] else [10]) ++
        [30, 70, 90, 100] ∧
    (compressImage env st image level format).lastProgress = 100 := by
  by_cases h10 : st.lastProgress = 10
  · simp only [h10, if_true]
    unfold compressImage
    repeat' (first | split | dsimp only)
    all_goals first
      | (intro h
         simp [finishedCount_emit, Signal.isFinished] at h
         done)
      | (intro _
         simp only [updateProgress_emitted, updateProgress_lastProgress, emit_emitted,
           emit_lastProgress, progressValues_append]
         simp [h10, progressValues])
  · have h10' : ¬ (10 : Int) = st.lastProgress := fun h => h10 h.symm
    simp only [h10, if_false]
    unfold compressImage
    repeat' (first | split | dsimp only)
    all_goals first
      | (intro h
         simp [finishedCount_emit, Signal.isFinished] at h
         done)
      | (intro _
         simp only [updateProgress_emitted, updateProgress_lastProgress, emit_emitted,
           emit_lastProgress, progressValues_append]
         simp [h10, h10', progressValues])

theorem catch_message_ne_invalid_level (what : String) :
    (if what.isEmpty then "压缩异常" else "压缩异常" ++ ": " ++ what) ≠ "压缩级别无效" := by
  split_ifs
  · decide
  · intro h
    have hd := congrArg String.data h
    simp [String.data_append] at hd

theorem handleCompressionError_plain (st : CompressWorker) (context : String) :
    handleCompressionError st context "" = emit st (Signal.errorOccurred context) := rfl

theorem invalidLevel_updateProgress (st : CompressWorker) (value : Int) :
    (updateProgress st value).emitted.countP (Signal.isErrorWith "压缩级别无效") =
      st.emitted.countP (Signal.isErrorWith "压缩级别无效") := by
  rw [updateProgress_emitted]
  split_ifs <;> simp [Signal.isErrorWith]

theorem invalidLevel_error (st : CompressWorker) (context : String)
    (h : context ≠ "压缩级别无效") :
    (handleCompressionError st context "").emitted.countP (Signal.isErrorWith "压缩级别无效") =
      st.emitted.countP (Signal.isErrorWith "压缩级别无效") := by
  rw [handleCompressionError_plain]
  simp [Signal.isErrorWith, h]

theorem invalidLevel_catchClauses (st : CompressWorker) (t : Thrown) :
    (catchClauses st "压缩异常" "未知压缩异常" t).emitted.countP
        (Signal.isErrorWith "压缩级别无效") =
      st.emitted.countP (Signal.isErrorWith "压缩级别无效") := by
  cases t with
  | exception what =>
    have hne := catch_message_ne_invalid_level what
    have hfalse : Signal.isErrorWith "压缩级别无效"
        (Signal.errorOccurred
          (if what.isEmpty then "压缩异常" else "压缩异常" ++ ": " ++ what)) = false := by
      simp only [Signal.isErrorWith]
      exact decide_eq_false hne
    simp only [catchClauses, handleCompressionError_emitted, List.countP_append,
      List.countP_cons, List.countP_nil, hfalse]
    simp
  | other => exact invalidLevel_error st _ (by decide)

/-- A level below 0 or above 22, with an image that is not null: the worker
emits `errorOccurred` with the invalid-level message and does nothing
else. -/
theorem compressImage_rejected_level (env : WorkerEnv) (st : CompressWorker) (image : QImage)
    (level format : Int) (himage : image.isNull = false) (hlevel : level < 0 ∨ 22 < level) :
    compressImage env st image level format =
      { st with emitted := st.emitted ++ [Signal.errorOccurred "压缩级别无效"] } := by
  have h : level < 0 ∨ level > 22 := hlevel
  simp [compressImage, himage, h, handleCompressionError_plain, emit]

/-- A level from 0 to 22: the worker emits no `errorOccurred` with the
invalid-level message. -/
theorem compressImage_accepted_level (env : WorkerEnv) (st : CompressWorker) (image : QImage)
    (level format : Int) (h0 : 0 ≤ level) (h22 : level ≤ 22) :
    (compressImage env st image level format).emitted.countP
        (Signal.isErrorWith "压缩级别无效") =
      st.emitted.countP (Signal.isErrorWith "压缩级别无效") := by
  have hlevel : ¬ (level < 0 ∨ level > 22) := by omega
  have e1 : ∀ st' : CompressWorker,
      (handleCompressionError st' "图像为空" "").emitted.countP
          (Signal.isErrorWith "压缩级别无效") =
        st'.emitted.countP (Signal.isErrorWith "压缩级别无效") :=
    fun st' => invalidLevel_error st' _ (by decide)
  have e2 : ∀ st' : CompressWorker,
      (handleCompressionError st' "无法加载图像" "").emitted.countP
          (Signal.isErrorWith "压缩级别无效") =
        st'.emitted.countP (Signal.isErrorWith "压缩级别无效") :=
    fun st' => invalidLevel_error st' _ (by decide)
  have e3 : ∀ st' : CompressWorker,
      (handleCompressionError st' "压缩失败" "").emitted.countP
          (Signal.isErrorWith "压缩级别无效") =
        st'.emitted.countP (Signal.isErrorWith "压缩级别无效") :=
    fun st' => invalidLevel_error st' _ (by decide)
  have e4 : ∀ st' : CompressWorker,
      (handleCompressionError st' "压缩数据为空" "").emitted.countP
          (Signal.isErrorWith "压缩级别无效") =
        st'.emitted.countP (Signal.isErrorWith "压缩级别无效") :=
    fun st' => invalidLevel_error st' _ (by decide)
  unfold compressImage
  repeat' (first | split | dsimp only)
  all_goals first
    | (simp only [e1, e2, e3, e4, invalidLevel_catchClauses, invalidLevel_updateProgress]
       done)
    | (simp only [invalidLevel_updateProgress, emit_emitted, List.countP_append]
       simp [Signal.isErrorWith, invalidLevel_updateProgress])

end CompressWorker

/-- C17, as amended. For every image that is not null and every level below 0
or above 22, `CompressWorker::compressImage` emits `errorOccurred` with the
invalid-level message and does nothing else: the compressor is neither
configured nor used. For every level from 0 to 22 it emits no
`errorOccurred` with the invalid-level message, whatever the calls on the
compressor do. -/
theorem worker_level_validation (env : WorkerEnv) (st : CompressWorker) (image : QImage)
    (level format : Int) (himage : image.isNull = false) :
    ((level < 0 ∨ 22 < level) →
      CompressWorker.compressImage env st image level format =
        { st with emitted := st.emitted ++ [Signal.errorOccurred "压缩级别无效"] }) ∧
    ((0 ≤ level ∧ level ≤ 22) →
      (CompressWorker.compressImage env st image level format).emitted.countP
          (Signal.isErrorWith "压缩级别无效") =
        st.emitted.countP (Signal.isErrorWith "压缩级别无效")) :=
  ⟨fun hlevel => CompressWorker.compressImage_rejected_level env st image level format himage
      hlevel,
   fun hlevel => CompressWorker.compressImage_accepted_level env st image level format
      hlevel.1 hlevel.2⟩

theorem worker_level_validation_witness :
    CompressWorker.compressImage (sampleEnv []) CompressWorker.ctor sampleQImage 23 0 =
        { CompressWorker.ctor with
          emitted := CompressWorker.ctor.emitted ++ [Signal.errorOccurred "压缩级别无效"] } ∧
    (CompressWorker.compressImage (sampleEnv []) CompressWorker.ctor sampleQImage 0
        0).emitted.countP (Signal.isErrorWith "压缩级别无效") =
      CompressWorker.ctor.emitted.countP (Signal.isErrorWith "压缩级别无效") :=
  ⟨(worker_level_validation (sampleEnv []) CompressWorker.ctor sampleQImage 23 0 rfl).1
      (Or.inr (by decide)),
   (worker_level_validation (sampleEnv []) CompressWorker.ctor sampleQImage 0 0 rfl).2
      ⟨by decide, by decide⟩⟩

/-- C17, as stated, fails at level 0. Level 0 lies outside 1..22 and the image
is not null: `CompressWorker::compressImage` emits no `errorOccurred` at all,
configures the compressor (its level becomes the clamped 1), compresses the
image and emits `compressionFinished`. -/
theorem worker_accepts_level_zero :
    CompressWorker.errorCount
      (CompressWorker.compressImage (sampleEnv []) CompressWorker.ctor sampleQImage 0 0) = 0 ∧
    CompressWorker.finishedCount
      (CompressWorker.compressImage (sampleEnv []) CompressWorker.ctor sampleQImage 0 0) = 1 ∧
    (CompressWorker.compressImage (sampleEnv []) CompressWorker.ctor sampleQImage 0
      0).m_compressor.m_level = 1 ∧
    (CompressWorker.compressImage (sampleEnv []) CompressWorker.ctor sampleQImage 0
      0).m_compressor.m_compressedData = [0, 66, 77] ∧
    progressValues
      (CompressWorker.compressImage (sampleEnv []) CompressWorker.ctor sampleQImage 0 0).emitted
      = [10, 30, 70, 90, 100] := by
  refine ⟨?_, ?_, ?_, ?_, ?_⟩ <;> decide

/-- C18. Every invocation of `compressImage`, `decompressData` or
`decompressFile`, in every worker state, whatever the calls on the compressor
return or throw, only adds to the signals emitted, and adds exactly one
terminal notification: either one finished signal (`compressionFinished`,
`decompressionFinished`) and no `errorOccurred`, or one `errorOccurred` and
no finished signal. -/
theorem worker_request_emits_one_terminal (env : WorkerEnv) (st : CompressWorker)
    (image : QImage) (level format : Int) (compressedData : List Byte) (filename : String) :
    CompressWorker.OneTerminal st (CompressWorker.compressImage env st image level format) ∧
    CompressWorker.OneTerminal st (CompressWorker.decompressData env st compressedData) ∧
    CompressWorker.OneTerminal st (CompressWorker.decompressFile env st filename) :=
  ⟨CompressWorker.compressImage_oneTerminal env st image level format,
   CompressWorker.decompressData_oneTerminal env st compressedData,
   CompressWorker.decompressFile_oneTerminal env st filename⟩

/-- C19, as amended. In every worker state and whatever the calls on the
compressor do, a `compressImage` run that emits `compressionFinished` emits
the progress notifications 10, 30, 70, 90, 100 in this order when the last
progress value emitted before the run is not 10, and 30, 70, 90, 100 when it
is 10; the last progress value is 100 afterwards. -/
theorem successful_compressImage_progress (env : WorkerEnv) (st : CompressWorker)
    (image : QImage) (level format : Int)
    (hfinished : CompressWorker.finishedCount
        (CompressWorker.compressImage env st image level format) =
      CompressWorker.finishedCount st + 1) :
    progressValues (CompressWorker.compressImage env st image level format).emitted =
      progressValues st.emitted ++ (if st.lastProgress = 10 then [] else [10]) ++
        [30, 70, 90, 100] ∧
    (CompressWorker.compressImage env st image level format).lastProgress = 100 :=
  CompressWorker.compressImage_progress_of_success env st image level format hfinished

theorem successful_compressImage_progress_witness :
    progressValues
        (CompressWorker.compressImage (sampleEnv []) CompressWorker.ctor sampleQImage 3 0).emitted =
      progressValues CompressWorker.ctor.emitted ++
        (if CompressWorker.ctor.lastProgress = 10 then [] else [10]) ++ [30, 70, 90, 100] ∧
    (CompressWorker.compressImage (sampleEnv []) CompressWorker.ctor sampleQImage 3
      0).lastProgress = 100 :=
  successful_compressImage_progress (sampleEnv []) CompressWorker.ctor sampleQImage 3 0
    (by decide)

/-- C19, as stated, fails after a request that ended at its first
checkpoint. A first `compressImage`, for an image that cannot be encoded,
emits the progress value 10 and `errorOccurred`; the `compressImage` run
that follows is successful and emits the progress values 30, 70, 90, 100,
without 10. -/
theorem progress_depends_on_previous_request :
    progressValues
      (CompressWorker.compressImage (sampleEnv []) CompressWorker.ctor unencodableQImage 3
        0).emitted = [10] ∧
    CompressWorker.errorCount
      (CompressWorker.compressImage (sampleEnv []) CompressWorker.ctor unencodableQImage 3 0)
      = 1 ∧
    CompressWorker.finishedCount
      (CompressWorker.compressImage (sampleEnv [])
        (CompressWorker.compressImage (sampleEnv []) CompressWorker.ctor unencodableQImage 3 0)
        sampleQImage 3 0) =
      CompressWorker.finishedCount
        (CompressWorker.compressImage (sampleEnv []) CompressWorker.ctor unencodableQImage 3 0)
        + 1 ∧
    progressValues
      (CompressWorker.compressImage (sampleEnv [])
        (CompressWorker.compressImage (sampleEnv []) CompressWorker.ctor unencodableQImage 3 0)
        sampleQImage 3 0).emitted =
      progressValues
        (CompressWorker.compressImage (sampleEnv []) CompressWorker.ctor unencodableQImage 3
          0).emitted ++ [30, 70, 90, 100] := by
  refine ⟨?_, ?_, ?_, ?_⟩ <;> decide

/-! ### Configuration of the compressor -/

theorem loadImageFile_config {W : Type} (fs : FileSystem W) (w : W) (s : ImageCompressor)
    (filename : String) :
    (loadImageFile fs w s filename).1.m_level = s.m_level ∧
    (loadImageFile fs w s filename).1.m_num_threads = s.m_num_threads := by
  unfold loadImageFile
  repeat' (first | split | dsimp only)
  all_goals exact ⟨rfl, rfl⟩

theorem convertToImageDataQImage_config (s : ImageCompressor) (image : QImage) :
    (convertToImageDataQImage s image).1.m_level = s.m_level ∧
    (convertToImageDataQImage s image).1.m_num_threads = s.m_num_threads := by
  unfold convertToImageDataQImage
  repeat' (first | split | dsimp only)
  all_goals exact ⟨rfl, rfl⟩

theorem convertToImageDataMat_config (s : ImageCompressor) (image : Mat) :
    (convertToImageDataMat s image).1.m_level = s.m_level ∧
    (convertToImageDataMat s image).1.m_num_threads = s.m_num_threads := by
  unfold convertToImageDataMat
  repeat' (first | split | dsimp only)
  all_goals exact ⟨rfl, rfl⟩

theorem compressInternal_config (z : Zstd) (s : ImageCompressor) :
    (compressInternal z s).1.m_level = s.m_level ∧
    (compressInternal z s).1.m_num_threads = s.m_num_threads := by
  unfold compressInternal
  repeat' (first | split | dsimp only)
  all_goals exact ⟨rfl, rfl⟩

theorem decompressInternal_config (z : Zstd) (s : ImageCompressor) :
    (decompressInternal z s).1.m_level = s.m_level ∧
    (decompressInternal z s).1.m_num_threads = s.m_num_threads := by
  unfold decompressInternal
  repeat' (first | split | dsimp only)
  all_goals exact ⟨rfl, rfl⟩

theorem loadImage_config {W : Type} (fs : FileSystem W) (w : W) (s : ImageCompressor)
    (filename : String) :
    (loadImage fs w s filename).1.m_level = s.m_level ∧
    (loadImage fs w s filename).1.m_num_threads = s.m_num_threads :=
  loadImageFile_config fs w (clearResults s) filename

theorem loadImageQImage_config (s : ImageCompressor) (image : QImage) :
    (loadImageQImage s image).1.m_level = s.m_level ∧
    (loadImageQImage s image).1.m_num_threads = s.m_num_threads :=
  convertToImageDataQImage_config { clearResults s with m_qImage := image } image

theorem loadImageMat_config (s : ImageCompressor) (image : Mat) :
    (loadImageMat s image).1.m_level = s.m_level ∧
    (loadImageMat s image).1.m_num_threads = s.m_num_threads :=
  convertToImageDataMat_config { clearResults s with m_cvMat := image } image

theorem compress_config (z : Zstd) (s : ImageCompressor) :
    (compress z s).1.m_level = s.m_level ∧
    (compress z s).1.m_num_threads = s.m_num_threads := by
  unfold compress
  split
  · exact ⟨rfl, rfl⟩
  · exact compressInternal_config z s

theorem compressData_config (z : Zstd) (s : ImageCompressor) (data : List Byte) :
    (compressData z s data).1.m_level = s.m_level ∧
    (compressData z s data).1.m_num_threads = s.m_num_threads := by
  by_cases hd : data = []
  · subst hd
    simp [compressData, loadImageData, clearResults]
  · rw [compressData_nonempty z s data hd]
    exact compressInternal_config z _

theorem compressImageQImage_config (z : Zstd) (s : ImageCompressor) (image : QImage) :
    (compressImageQImage z s image).1.m_level = s.m_level ∧
    (compressImageQImage z s image).1.m_num_threads = s.m_num_threads := by
  have hl := loadImageQImage_config s image
  rcases hL : loadImageQImage s image with ⟨s1, loaded⟩
  rw [hL] at hl
  cases loaded
  · simpa [compressImageQImage, hL] using hl
  · have hc := compress_config z s1
    simp only [compressImageQImage, hL]
    exact ⟨hc.1.trans hl.1, hc.2.trans hl.2⟩

theorem compressImageMat_config (z : Zstd) (s : ImageCompressor) (image : Mat) :
    (compressImageMat z s image).1.m_level = s.m_level ∧
    (compressImageMat z s image).1.m_num_threads = s.m_num_threads := by
  have hl := loadImageMat_config s image
  rcases hL : loadImageMat s image with ⟨s1, loaded⟩
  rw [hL] at hl
  cases loaded
  · simpa [compressImageMat, hL] using hl
  · have hc := compress_config z s1
    simp only [compressImageMat, hL]
    exact ⟨hc.1.trans hl.1, hc.2.trans hl.2⟩

theorem decompressFromFile_config {W : Type} (fs : FileSystem W) (z : Zstd) (w : W)
    (s : ImageCompressor) (filename : String) :
    (decompressFromFile fs z w s filename).1.m_level = s.m_level ∧
    (decompressFromFile fs z w s filename).1.m_num_threads = s.m_num_threads := by
  unfold decompressFromFile
  repeat' (first | split | dsimp only)
  all_goals first
    | exact ⟨rfl, rfl⟩
    | exact decompressInternal_config z _

theorem getQImage_config (loadFromData : List Byte → Int → QImage) (s : ImageCompressor) :
    (getQImage loadFromData s).1.m_level = s.m_level ∧
    (getQImage loadFromData s).1.m_num_threads = s.m_num_threads := by
  unfold getQImage
  repeat' (first | split | dsimp only)
  all_goals exact ⟨rfl, rfl⟩

theorem decompressFromFileOutcome_config {W : Type} (fs : FileSystem W) (z : Zstd) (w : W)
    (s : ImageCompressor) (filename : String) :
    (decompressFromFileOutcome fs z w s filename).compressor.m_level = s.m_level ∧
    (decompressFromFileOutcome fs z w s filename).compressor.m_num_threads =
      s.m_num_threads := by
  rcases decompressFromFileOutcome_cases fs z w s filename with h | ⟨c, what, h, hl, hn⟩
  · rw [h]
    exact decompressFromFile_config fs z w s filename
  · rw [h]
    exact ⟨hl, hn⟩

theorem compressInternalOutcome_config (resize : Nat → Option String) (z : Zstd)
    (s : ImageCompressor) :
    (compressInternalOutcome resize z s).compressor.m_level = s.m_level ∧
    (compressInternalOutcome resize z s).compressor.m_num_threads = s.m_num_threads := by
  rcases compressInternalOutcome_cases resize z s with h | ⟨what, h, _⟩
  · rw [h]
    exact compressInternal_config z s
  · rw [h]
    exact ⟨rfl, rfl⟩

theorem compressFolderStep_config {W : Type} (fs : FileSystem W) (z : Zstd)
    (outputFolder : String) (st : CompressLoop W) (file : String) :
    (compressFolderStep fs z outputFolder st file).compressor.m_level =
      st.compressor.m_level ∧
    (compressFolderStep fs z outputFolder st file).compressor.m_num_threads =
      st.compressor.m_num_threads := by
  cases ht : st.thrown with
  | some msg => simp [compressFolderStep, ht]
  | none =>
    have hl := loadImageOutcome_config fs st.world st.compressor file
    have hc := compressInternalOutcome_config (fs.vector_resize st.world) z
      (loadImageOutcome fs st.world st.compressor file).compressor
    rw [compressFolderStep_compressor fs z outputFolder st file ht]
    split_ifs
    · exact ⟨hc.1.trans hl.1, hc.2.trans hl.2⟩
    · exact hl

theorem decompressFolderStep_config {W : Type} (fs : FileSystem W) (z : Zstd)
    (outputFolder : String) (st : DecompressLoop W) (entry : DirEntry) :
    (decompressFolderStep fs z outputFolder st entry).compressor.m_level =
      st.compressor.m_level ∧
    (decompressFolderStep fs z outputFolder st entry).compressor.m_num_threads =
      st.compressor.m_num_threads := by
  cases ht : st.thrown with
  | some msg => simp [decompressFolderStep, ht]
  | none =>
    cases hsel : (entry.is_regular_file && isCompressedFile entry.path)
    · simp [decompressFolderStep, ht, hsel]
    · have hd := decompressFromFileOutcome_config fs z st.world st.compressor entry.path
      rcases hD : decompressFromFileOutcome fs z st.world st.compressor entry.path
        with ⟨s1, result⟩ | ⟨s1, what⟩
      · rw [hD] at hd
        simp only [Outcome.compressor] at hd
        cases hs : result.success
        · simpa [decompressFolderStep, ht, hsel, hD, hs] using hd
        · rcases hS : saveDecompressedImage fs st.world s1
              (decompressOutputFile outputFolder entry.path) with ⟨w1, saved⟩
          cases saved <;> simpa [decompressFolderStep, ht, hsel, hD, hs, hS] using hd
      · rw [hD] at hd
        simp only [Outcome.compressor] at hd
        simpa [decompressFolderStep, ht, hsel, hD] using hd

theorem compressFolder_config {W : Type} (fs : FileSystem W) (z : Zstd) (w : W)
    (s : ImageCompressor) (inputFolder outputFolder : String) :
    (compressFolder fs z w s inputFolder outputFolder).2.1.m_level = s.m_level ∧
    (compressFolder fs z w s inputFolder outputFolder).2.1.m_num_threads = s.m_num_threads := by
  rcases hcc : cannotCreate fs w outputFolder with ⟨w1, r⟩
  rcases r with msg | b
  · simp [compressFolder, hcc]
  · cases b
    · have inv := foldl_invariant
        (fun st : CompressLoop W => st.compressor.m_level = s.m_level ∧
          st.compressor.m_num_threads = s.m_num_threads)
        (compressFolderStep fs z outputFolder)
        (fun st x hst =>
          ⟨(compressFolderStep_config fs z outputFolder st x).1.trans hst.1,
           (compressFolderStep_config fs z outputFolder st x).2.trans hst.2⟩)
        (getImageFiles fs w1 inputFolder)
        { world := w1, compressor := s, total_original := 0, total_compressed := 0,
          success_count := 0 }
        ⟨rfl, rfl⟩
      rw [(compressFolder_loop fs z w w1 s inputFolder outputFolder hcc).2]
      exact inv
    · simp [compressFolder, hcc]

theorem decompressFolder_config {W : Type} (fs : FileSystem W) (z : Zstd) (w : W)
    (s : ImageCompressor) (inputFolder outputFolder : String) :
    (decompressFolder fs z w s inputFolder outputFolder).2.1.m_level = s.m_level ∧
    (decompressFolder fs z w s inputFolder outputFolder).2.1.m_num_threads = s.m_num_threads := by
  rcases hcc : cannotCreate fs w outputFolder with ⟨w1, r⟩
  rcases r with msg | b
  · simp [decompressFolder, hcc]
  · cases b
    · have inv := foldl_invariant
        (fun st : DecompressLoop W => st.compressor.m_level = s.m_level ∧
          st.compressor.m_num_threads = s.m_num_threads)
        (decompressFolderStep fs z outputFolder)
        (fun st x hst =>
          ⟨(decompressFolderStep_config fs z outputFolder st x).1.trans hst.1,
           (decompressFolderStep_config fs z outputFolder st x).2.trans hst.2⟩)
        (fs.directory_iterator w1 inputFolder).1
        { world := w1, compressor := s, success_count := 0 } ⟨rfl, rfl⟩
      rw [(decompressFolder_loop fs z w w1 s inputFolder outputFolder hcc).2]
      exact inv
    · simp [decompressFolder, hcc]

/-- Every call other than the two setters leaves the stored level and the
stored thread count as they were. -/
theorem operation_keeps_config {W : Type} (fs : FileSystem W) (z : Zstd) (op : Operation W)
    (s : ImageCompressor) (h : op.isSetter = false) :
    (op.apply fs z s).m_level = s.m_level ∧
    (op.apply fs z s).m_num_threads = s.m_num_threads := by
  cases op with
  | setCompressionLevel level => cases h
  | setNumThreads num_threads => cases h
  | setImageFormat format => exact ⟨rfl, rfl⟩
  | loadImage w filename => exact loadImage_config fs w s filename
  | loadImageQImage image => exact loadImageQImage_config s image
  | loadImageMat image => exact loadImageMat_config s image
  | loadImageData data => exact ⟨rfl, rfl⟩
  | compress => exact compress_config z s
  | compressImageQImage image => exact compressImageQImage_config z s image
  | compressImageMat image => exact compressImageMat_config z s image
  | compressData data => exact compressData_config z s data
  | decompress compressedData => exact decompressInternal_config z _
  | decompressOwnCompressedData => exact decompressInternal_config z _
  | decompressFromFile w filename => exact decompressFromFile_config fs z w s filename
  | getQImage loadFromData => exact getQImage_config loadFromData s
  | compressFolder w inputFolder outputFolder =>
    exact compressFolder_config fs z w s inputFolder outputFolder
  | decompressFolder w inputFolder outputFolder =>
    exact decompressFolder_config fs z w s inputFolder outputFolder

/-- Every call keeps a level within 1..22 and a thread count of at least 1. -/
theorem operation_keeps_bounds {W : Type} (fs : FileSystem W) (z : Zstd) (op : Operation W)
    (s : ImageCompressor)
    (h : 1 ≤ s.m_level ∧ s.m_level ≤ 22 ∧ 1 ≤ s.m_num_threads) :
    1 ≤ (op.apply fs z s).m_level ∧ (op.apply fs z s).m_level ≤ 22 ∧
      1 ≤ (op.apply fs z s).m_num_threads := by
  cases hset : op.isSetter
  · obtain ⟨h1, h2⟩ := operation_keeps_config fs z op s hset
    rw [h1, h2]
    exact h
  · cases op with
    | setCompressionLevel level =>
      have hc : (ImageCompressor.setCompressionLevel s level).m_level = max 1 (min 22 level) :=
        clamp_eq_max_min level
      have ht : (ImageCompressor.setCompressionLevel s level).m_num_threads = s.m_num_threads :=
        rfl
      simp only [Operation.apply]
      rw [hc, ht]
      omega
    | setNumThreads num_threads =>
      have hl : (ImageCompressor.setNumThreads s num_threads).m_level = s.m_level := rfl
      have ht : (ImageCompressor.setNumThreads s num_threads).m_num_threads =
          if num_threads > 0 then num_threads else 1 := rfl
      simp only [Operation.apply]
      rw [hl, ht]
      split_ifs <;> omega
    | _ => cases hset

/-- C22. In every state reached from the constructor, with any level, by any
sequence of calls (the setters, the loads, the compressions and
decompressions, `getQImage` and the folder operations, in any worlds and with
any arguments), the stored level lies within 1..22 and the stored thread
count is at least 1; `setNumThreads` stores a positive argument as it is and
1 for any other; and every call other than `setCompressionLevel` and
`setNumThreads` leaves both fields as they were. -/
theorem configuration_invariant {W : Type} (fs : FileSystem W) (z : Zstd) (level : Int)
    (ops : List (Operation W)) (s : ImageCompressor) (num_threads : Int) (op : Operation W) :
    (1 ≤ (runOperations fs z level ops).m_level ∧ (runOperations fs z level ops).m_level ≤ 22 ∧
      1 ≤ (runOperations fs z level ops).m_num_threads) ∧
    ((0 < num_threads → (setNumThreads s num_threads).m_num_threads = num_threads) ∧
      (num_threads ≤ 0 → (setNumThreads s num_threads).m_num_threads = 1)) ∧
    (op.isSetter = false →
      (op.apply fs z s).m_level = s.m_level ∧
      (op.apply fs z s).m_num_threads = s.m_num_threads) := by
  refine ⟨?_, ⟨?_, ?_⟩, operation_keeps_config fs z op s⟩
  · refine foldl_invariant
      (fun t : ImageCompressor => 1 ≤ t.m_level ∧ t.m_level ≤ 22 ∧ 1 ≤ t.m_num_threads)
      (fun t o => o.apply fs z t) (fun t o ht => operation_keeps_bounds fs z o t ht) ops
      (ctor level) ?_
    have hc : (ctor level).m_level = max 1 (min 22 level) := clamp_eq_max_min level
    have ht : (ctor level).m_num_threads = 4 := rfl
    show 1 ≤ (ctor level).m_level ∧ (ctor level).m_level ≤ 22 ∧ 1 ≤ (ctor level).m_num_threads
    rw [hc, ht]
    omega
  · intro h
    have ht : (setNumThreads s num_threads).m_num_threads =
        if num_threads > 0 then num_threads else 1 := rfl
    rw [ht, if_pos h]
  · intro h
    have ht : (setNumThreads s num_threads).m_num_threads =
        if num_threads > 0 then num_threads else 1 := rfl
    have hn : ¬ num_threads > 0 := by omega
    rw [ht, if_neg hn]

theorem configuration_invariant_witness :
    (1 ≤ (runOperations memFs (storedZstd true true) 50
        [Operation.setNumThreads (-3), Operation.loadImageData [66, 77], Operation.compress,
          Operation.setCompressionLevel 0]).m_level ∧
      (runOperations memFs (storedZstd true true) 50
        [Operation.setNumThreads (-3), Operation.loadImageData [66, 77], Operation.compress,
          Operation.setCompressionLevel 0]).m_level ≤ 22 ∧
      1 ≤ (runOperations memFs (storedZstd true true) 50
        [Operation.setNumThreads (-3), Operation.loadImageData [66, 77], Operation.compress,
          Operation.setCompressionLevel 0]).m_num_threads) ∧
    (setNumThreads (ctor 3) 8).m_num_threads = 8 ∧
    (setNumThreads (ctor 3) (-3)).m_num_threads = 1 ∧
    ((Operation.apply memFs (storedZstd true true) Operation.compress
        (loadImageData (ctor 50) [66, 77]).1).m_level = (loadImageData (ctor 50) [66, 77]).1.m_level ∧
      (Operation.apply memFs (storedZstd true true) Operation.compress
        (loadImageData (ctor 50) [66, 77]).1).m_num_threads =
        (loadImageData (ctor 50) [66, 77]).1.m_num_threads) :=
  ⟨(configuration_invariant memFs (storedZstd true true) 50
      [Operation.setNumThreads (-3), Operation.loadImageData [66, 77], Operation.compress,
        Operation.setCompressionLevel 0] (ctor 3) 8 Operation.compress).1,
   (configuration_invariant memFs (storedZstd true true) 50 [] (ctor 3) 8
      Operation.compress).2.1.1 (by decide),
   (configuration_invariant memFs (storedZstd true true) 50 [] (ctor 3) (-3)
      Operation.compress).2.1.2 (by decide),
   (configuration_invariant memFs (storedZstd true true) 50 []
      (loadImageData (ctor 50) [66, 77]).1 8 Operation.compress).2.2 rfl⟩

/-! ### Output paths of a batch -/

end zstd_compressor
